import Mathlib

/-!
# qbt: session and typed decoding layer

A shallow embedding of the qBittorrent Web API client (`src/qbt/*.cpp`, `src/qbt/*.h`)
and theorems about its set-up (TLS options, bearer header), its login and logout, the one
request each call issues, its raw, text and JSON bodies, its JSON decoding into `Torrent`,
`Torrent::GenericInfo` and `Torrent::ContentItem`, the per-torrent detail cache, what a
failure part-way leaves behind, the state labels, and its timestamp conversion.

Conventions of the embedding:
* `std::string` is `String`; `int64_t`, `long`, `time_t`, `int` are `Int` (the conversions
  check the range of the target type); `size_t` is `Nat`.
* A C++ exception is the `Except.error` branch; a constructor that throws yields no object.
* `boost::json`, `boost::posix_time`, `fmt` and the formatted input of `<sstream>` are
  libraries used by the code; the operations the code calls on them are embedded below from
  their documented behaviour.
* A function that returns or throws has an `Except` outcome; a function with no throwing
  statement always has the outcome `ok`.
-/

namespace Qbt

/-! ## boost::json values -/

/-- An IEEE double held by a `boost::json::value`: `finite neg m e` is `(-1)^neg * m * 2^e`. -/
inductive Double where
  | finite (neg : Bool) (mant : Nat) (exp : Int)
  | inf (neg : Bool)
  | nan
  deriving DecidableEq, Repr

/-- The integer a double is equal to, when it is finite and integral. -/
def Double.toInt? : Double → Option Int
  | .finite neg m e =>
    if 0 ≤ e then
      some ((if neg then -1 else 1) * ((m : Int) * 2 ^ e.toNat))
    else if m % 2 ^ (-e).toNat = 0 then
      some ((if neg then -1 else 1) * ((m / 2 ^ (-e).toNat : Nat) : Int))
    else none
  | .inf _ => none
  | .nan => none

/-- Contents of a `boost::json::value`: one constructor per `boost::json::kind`. An object is
the list of its key/value pairs in insertion order. -/
inductive JValue where
  | null
  | bool (b : Bool)
  | int64 (i : Int)
  | uint64 (u : Nat)
  | double (d : Double)
  | string (s : String)
  | array (a : List JValue)
  | object (o : List (String × JValue))

/-- Representation of `boost::json::object`. -/
abbrev JObject := List (String × JValue)

/-- The error codes of `boost::json` that the conversions used by the client can raise.
None of them carries a key or field name. -/
inductive JError where
  | out_of_range
  | not_number
  | not_exact
  | not_bool
  | not_string
  | not_array
  | not_object
  | parse_failure
  deriving DecidableEq, Repr

/-- `object::find(key)`: the value stored under `key`, if any. -/
def JObject.find (obj : JObject) (key : String) : Option JValue :=
  match obj with
  | [] => none
  | (k, v) :: rest => if k = key then some v else JObject.find rest key

/-- `object::at(key)`: the value stored under `key`; throws `out_of_range` when absent. -/
def JObject.atKey (obj : JObject) (key : String) : Except JError JValue :=
  match obj.find key with
  | some v => .ok v
  | none => .error .out_of_range

/-- `value::as_object()`. -/
def JValue.as_object : JValue → Except JError JObject
  | .object o => .ok o
  | _ => .error .not_object

/-- `value::as_array()`. -/
def JValue.as_array : JValue → Except JError (List JValue)
  | .array a => .ok a
  | _ => .error .not_array

/-- `value::to_number<T>()` for a signed integral `T` of `w` bits: an `int64` or `uint64`
value must fit the range of `T`, a `double` must be integral and fit; anything else is
`not_number`. -/
def to_number_signed (w : Nat) : JValue → Except JError Int
  | .int64 i => if -(2 ^ (w - 1) : Int) ≤ i ∧ i ≤ 2 ^ (w - 1) - 1 then .ok i else .error .not_exact
  | .uint64 u => if (u : Int) ≤ 2 ^ (w - 1) - 1 then .ok (u : Int) else .error .not_exact
  | .double d =>
    match d.toInt? with
    | some i => if -(2 ^ (w - 1) : Int) ≤ i ∧ i ≤ 2 ^ (w - 1) - 1 then .ok i else .error .not_exact
    | none => .error .not_exact
  | _ => .error .not_number

/-- `value::to_number<T>()` for an unsigned integral `T` of `w` bits. -/
def to_number_unsigned (w : Nat) : JValue → Except JError Nat
  | .int64 i => if 0 ≤ i ∧ i ≤ 2 ^ w - 1 then .ok i.toNat else .error .not_exact
  | .uint64 u => if u ≤ 2 ^ w - 1 then .ok u else .error .not_exact
  | .double d =>
    match d.toInt? with
    | some i => if 0 ≤ i ∧ i ≤ 2 ^ w - 1 then .ok i.toNat else .error .not_exact
    | none => .error .not_exact
  | _ => .error .not_number

/-- A C++ `float` obtained by `static_cast<float>` from a JSON number. The number cast is
recorded; the rounding of the cast is not interpreted. -/
inductive CFloat where
  | ofInt64 (i : Int)
  | ofUInt64 (u : Nat)
  | ofDouble (d : Double)
  deriving DecidableEq, Repr

/-- `value::to_number<float>()`: every number kind converts by `static_cast`. -/
def to_number_float : JValue → Except JError CFloat
  | .int64 i => .ok (.ofInt64 i)
  | .uint64 u => .ok (.ofUInt64 u)
  | .double d => .ok (.ofDouble d)
  | _ => .error .not_number

/-- `json::value_to<int64_t>`. -/
def value_to_int64 (v : JValue) : Except JError Int := to_number_signed 64 v

/-- `json::value_to<long>` (64-bit `long`). -/
def value_to_long (v : JValue) : Except JError Int := to_number_signed 64 v

/-- `json::value_to<time_t>` (`time_t` is a 64-bit signed integer). -/
def value_to_time_t (v : JValue) : Except JError Int := to_number_signed 64 v

/-- `json::value_to<int>` (32-bit `int`). -/
def value_to_int (v : JValue) : Except JError Int := to_number_signed 32 v

/-- `json::value_to<size_t>` (64-bit `size_t`). -/
def value_to_size_t (v : JValue) : Except JError Nat := to_number_unsigned 64 v

/-- `json::value_to<float>`. -/
def value_to_float (v : JValue) : Except JError CFloat := to_number_float v

/-- `json::value_to<bool>`. -/
def value_to_bool : JValue → Except JError Bool
  | .bool b => .ok b
  | _ => .error .not_bool

/-- `json::value_to<std::string>`. -/
def value_to_string : JValue → Except JError String
  | .string s => .ok s
  | _ => .error .not_string

/-! ## boost::posix_time -/

/-- Two's-complement reduction of an integer to 64 bits. -/
def wrap64 (x : Int) : Int := (x + 2 ^ 63) % 2 ^ 64 - 2 ^ 63

/-- `gregorian_calendar::day_number`: the day number of a year/month/day. -/
def day_number (year month day : Int) : Int :=
  let a := (14 - month) / 12
  let y := year + 4800 - a
  let m := month + 12 * a - 3
  day + ((153 * m + 2) / 5) + 365 * y + (y / 4) - (y / 100) + (y / 400) - 32045

/-- `gregorian_calendar::from_day_number`: the year/month/day of a day number. -/
def from_day_number (dayNumber : Int) : Int × Int × Int :=
  let a := dayNumber + 32044
  let b := (4 * a + 3) / 146097
  let c := a - ((146097 * b) / 4)
  let d := (4 * c + 3) / 1461
  let e := c - (1461 * d) / 4
  let m := (5 * e + 2) / 153
  (100 * b + d - 4800 + (m / 10), m + 3 - 12 * (m / 10), e - ((153 * m + 2) / 5) + 1)

/-- `boost::posix_time::time_duration`: a 64-bit count of microseconds. -/
structure time_duration where
  ticks : Int
  deriving DecidableEq, Repr

/-- `boost::posix_time::ptime`: a 64-bit count of microseconds since day number 0. The three
extreme counts are the special values `neg_infin`, `not_a_date_time` and `pos_infin`. -/
structure ptime where
  time_count : Int
  deriving DecidableEq, Repr

/-- Microseconds per day. -/
def frac_sec_per_day : Int := 86400000000

/-- `time_duration(hours, minutes, seconds)`, a tick count computed in 64 bits. -/
def time_duration.hms (h m s : Int) : time_duration :=
  ⟨wrap64 ((h * 3600 + m * 60 + s) * 1000000)⟩

/-- `boost::posix_time::seconds(s)`. -/
def seconds (s : Int) : time_duration := time_duration.hms 0 0 s

/-- `ptime(date)`: midnight of a date. -/
def ptime.ofDate (year month day : Int) : ptime :=
  ⟨wrap64 (day_number year month day * frac_sec_per_day)⟩

/-- `ptime(date, time_duration)`. -/
def ptime.ofDateTime (year month day : Int) (td : time_duration) : ptime :=
  ⟨wrap64 (day_number year month day * frac_sec_per_day + td.ticks)⟩

/-- `ptime::is_special()`: the count is one of `neg_infin`, `not_a_date_time`, `pos_infin`. -/
def ptime.is_special (p : ptime) : Bool :=
  p.time_count == -(2 ^ 63) || p.time_count == 2 ^ 63 - 2 || p.time_count == 2 ^ 63 - 1

/-- The value `not_a_date_time` of a default-constructed `ptime`. -/
def ptime.not_a_date_time : ptime := ⟨2 ^ 63 - 2⟩

/-- `ptime + time_duration`, for operands that are not special values: the counts are added
in 64 bits. -/
def ptime.add (p : ptime) (td : time_duration) : ptime :=
  ⟨wrap64 (p.time_count + td.ticks)⟩

/-- `ptime::date()` as year/month/day. -/
def ptime.date (p : ptime) : Int × Int × Int := from_day_number (p.time_count / frac_sec_per_day)

/-- `ptime::time_of_day()` as hours/minutes/seconds/microseconds. -/
def ptime.time_of_day (p : ptime) : Int × Int × Int × Int :=
  let t := p.time_count % frac_sec_per_day
  (t / 3600000000, t / 60000000 % 60, t / 1000000 % 60, t % 1000000)

/-- `posix_time::from_time_t(t)`: `ptime(gregorian::date(1970,1,1)) + seconds(t)`. -/
def from_time_t (t : Int) : ptime := (ptime.ofDate 1970 1 1).add (seconds t)

end Qbt

namespace Qbt.Torrent

/-- `Torrent::State` (torrent.h). -/
inductive State where
  | error
  | missingFiles
  | uploading
  | pausedUP
  | queuedUP
  | stalledUP
  | checkingUP
  | forcedUP
  | allocating
  | downloading
  | metaDL
  | pausedDL
  | queuedDL
  | stalledDL
  | checkingDL
  | forcedDL
  | checkingResumeData
  | moving
  | unknown
  deriving DecidableEq, Repr

end Qbt.Torrent

namespace Qbt

/-- `strToState` (torrent.cpp): the chain of string comparisons, in source order. -/
def strToState (str : String) : Torrent.State :=
  if str = "error" then .error
  else if str = "missingFiles" then .missingFiles
  else if str = "uploading" then .uploading
  else if str = "pausedUP" then .pausedUP
  else if str = "queuedUP" then .queuedUP
  else if str = "stalledUP" then .stalledUP
  else if str = "checkingUP" then .checkingUP
  else if str = "forcedUP" then .forcedUP
  else if str = "allocating" then .allocating
  else if str = "downloading" then .downloading
  else if str = "metaDL" then .metaDL
  else if str = "pausedDL" then .pausedDL
  else if str = "stalledDL" then .stalledDL
  else if str = "checkingDL" then .checkingDL
  else if str = "forcedDL" then .forcedDL
  else if str = "checkingResumeData" then .checkingResumeData
  else if str = "moving" then .moving
  else .unknown

end Qbt

namespace Qbt.Torrent

/-- `Torrent::GenericInfo` (torrent.h), the members in declaration order. -/
structure GenericInfo where
  savePath : String
  creationDate : ptime
  pieceSize : Int
  comment : String
  totalWasted : Nat
  totalUploaded : Nat
  totalUploadedSession : Nat
  totalDownloaded : Nat
  totalDownloadedSession : Nat
  upLimit : Int
  dlLimit : Int
  timeElapsed : Int
  seedingTime : Int
  nbConnections : Int
  nbConnectionsLimit : Int
  shareRatio : CFloat
  additionDate : ptime
  completionDate : ptime
  createdBy : String
  dlSpeedAvg : Int
  dlSpeed : Int
  eta : Int
  lastSeen : ptime
  peers : Int
  peersTotal : Int
  piecesHave : Int
  piecesNum : Int
  reannounce : Int
  seeds : Int
  seedsTotal : Int
  totalSize : Nat
  upSpeedAvg : Int
  upSpeed : Int

/-- `Torrent::ContentItem` (torrent.h), the members in declaration order. -/
structure ContentItem where
  index : Int
  name : String
  size : Nat
  progress : CFloat
  priority : Int
  isSeed : Bool
  availability : CFloat
  deriving DecidableEq, Repr

end Qbt.Torrent

namespace Qbt

/-- `Torrent` (torrent.h): the public data members in declaration order, then the private
cache `genericInfo`. The `parent` pointer is not a member of the record: operations that use
it take the session as an argument. -/
structure Torrent where
  addedOn : ptime
  amountLeft : Int
  autoTMM : Bool
  availability : CFloat
  category : String
  completed : Nat
  completionOn : ptime
  contentPath : String
  dlLimit : Int
  dlSpeed : Int
  downloaded : Int
  downloadedSession : Int
  eta : Int
  flPiecePrio : Bool
  forceStart : Bool
  hash : String
  isPrivate : Bool
  lastActivity : ptime
  magnetUri : String
  maxRatio : CFloat
  maxSeedingTime : Int
  name : String
  numComplete : Int
  numIncomplete : Int
  numLeechs : Int
  numSeeds : Int
  priority : Int
  progress : CFloat
  ratio : CFloat
  ratioLimit : CFloat
  savePath : String
  seedingTime : Int
  seedingTimeLimit : Int
  seenComplete : ptime
  seqDl : Bool
  size : Nat
  state : Torrent.State
  superSeeding : Bool
  tags : String
  timeActive : Int
  totalSize : Nat
  tracker : String
  upLimit : Int
  uploaded : Int
  uploadedSession : Int
  upSpeed : Int
  genericInfo : Option Torrent.GenericInfo


/-- `Torrent::ContentItem::ContentItem(obj)` (torrent.cpp). `self` is the storage of the object
when the constructor body starts (scalar members are indeterminate). The conversions run in
source order and the first exception leaves no object; a member the body assigns takes the
converted value, a member it never assigns keeps what `self` held. -/
def Torrent.ContentItem.ctor (self : Torrent.ContentItem) (obj : JObject) :
    Except JError Torrent.ContentItem := do
  let index_ ← value_to_int64 (← obj.atKey "index")
  let name_ ← value_to_string (← obj.atKey "name")
  let size_ ← value_to_size_t (← obj.atKey "size")
  let progress_ ← value_to_float (← obj.atKey "progress")
  let priority_ ← value_to_int (← obj.atKey "priority")
  let availability_ ← value_to_float (← obj.atKey "availability")
  if (obj.find "is_seed").isSome then
    let isSeed_ ← value_to_bool (← obj.atKey "is_seed")
    pure { self with
      index := index_, name := name_, size := size_, progress := progress_,
      priority := priority_, availability := availability_, isSeed := isSeed_ }
  else
    pure { self with
      index := index_, name := name_, size := size_, progress := progress_,
      priority := priority_, availability := availability_, isSeed := false }

/-- `Torrent::Torrent(parent, obj)` (torrent.cpp). `self` is the storage of the object when the
constructor body starts: scalar members are indeterminate and the `std::optional` member
`genericInfo` has been default-constructed empty. The conversions run in source order and
the first exception leaves no object; a member the body assigns takes the converted value
(`from_time_t` of it for the four timestamps, `strToState` of it for `state`). -/
def Torrent.ctor (self : Torrent) (obj : JObject) : Except JError Torrent := do
  let addedOn_ ← value_to_time_t (← obj.atKey "added_on")
  let amountLeft_ ← value_to_long (← obj.atKey "amount_left")
  let autoTMM_ ← value_to_bool (← obj.atKey "auto_tmm")
  let availability_ ← value_to_float (← obj.atKey "availability")
  let category_ ← value_to_string (← obj.atKey "category")
  let completed_ ← value_to_size_t (← obj.atKey "completed")
  let completionOn_ ← value_to_time_t (← obj.atKey "completion_on")
  let contentPath_ ← value_to_string (← obj.atKey "content_path")
  let dlLimit_ ← value_to_int64 (← obj.atKey "dl_limit")
  let dlSpeed_ ← value_to_int64 (← obj.atKey "dlspeed")
  let downloaded_ ← value_to_int64 (← obj.atKey "downloaded")
  let downloadedSession_ ← value_to_int64 (← obj.atKey "downloaded_session")
  let eta_ ← value_to_int64 (← obj.atKey "eta")
  let flPiecePrio_ ← value_to_bool (← obj.atKey "f_l_piece_prio")
  let forceStart_ ← value_to_bool (← obj.atKey "force_start")
  let hash_ ← value_to_string (← obj.atKey "hash")
  let isPrivate_ ← value_to_bool (← obj.atKey "private")
  let lastActivity_ ← value_to_time_t (← obj.atKey "last_activity")
  let magnetUri_ ← value_to_string (← obj.atKey "magnet_uri")
  let maxRatio_ ← value_to_float (← obj.atKey "max_ratio")
  let maxSeedingTime_ ← value_to_int64 (← obj.atKey "max_seeding_time")
  let name_ ← value_to_string (← obj.atKey "name")
  let numComplete_ ← value_to_long (← obj.atKey "num_complete")
  let numIncomplete_ ← value_to_long (← obj.atKey "num_incomplete")
  let numLeechs_ ← value_to_long (← obj.atKey "num_leechs")
  let numSeeds_ ← value_to_long (← obj.atKey "num_seeds")
  let priority_ ← value_to_long (← obj.atKey "priority")
  let progress_ ← value_to_float (← obj.atKey "progress")
  let ratio_ ← value_to_float (← obj.atKey "ratio")
  let ratioLimit_ ← value_to_float (← obj.atKey "ratio_limit")
  let savePath_ ← value_to_string (← obj.atKey "save_path")
  let seedingTime_ ← value_to_long (← obj.atKey "seeding_time")
  let seedingTimeLimit_ ← value_to_long (← obj.atKey "seeding_time_limit")
  let seenComplete_ ← value_to_time_t (← obj.atKey "seen_complete")
  let seqDl_ ← value_to_bool (← obj.atKey "seq_dl")
  let size_ ← value_to_size_t (← obj.atKey "size")
  let state_ ← value_to_string (← obj.atKey "state")
  let superSeeding_ ← value_to_bool (← obj.atKey "super_seeding")
  let tags_ ← value_to_string (← obj.atKey "tags")
  let timeActive_ ← value_to_long (← obj.atKey "time_active")
  let totalSize_ ← value_to_size_t (← obj.atKey "total_size")
  let tracker_ ← value_to_string (← obj.atKey "tracker")
  let upLimit_ ← value_to_int64 (← obj.atKey "up_limit")
  let uploaded_ ← value_to_int64 (← obj.atKey "uploaded")
  let uploadedSession_ ← value_to_int64 (← obj.atKey "uploaded_session")
  let upSpeed_ ← value_to_int64 (← obj.atKey "upspeed")
  pure { self with
    addedOn := from_time_t addedOn_, amountLeft := amountLeft_, autoTMM := autoTMM_,
    availability := availability_, category := category_, completed := completed_,
    completionOn := from_time_t completionOn_, contentPath := contentPath_,
    dlLimit := dlLimit_, dlSpeed := dlSpeed_, downloaded := downloaded_,
    downloadedSession := downloadedSession_, eta := eta_, flPiecePrio := flPiecePrio_,
    forceStart := forceStart_, hash := hash_, isPrivate := isPrivate_,
    lastActivity := from_time_t lastActivity_, magnetUri := magnetUri_, maxRatio := maxRatio_,
    maxSeedingTime := maxSeedingTime_, name := name_, numComplete := numComplete_,
    numIncomplete := numIncomplete_, numLeechs := numLeechs_, numSeeds := numSeeds_,
    priority := priority_, progress := progress_, ratio := ratio_, ratioLimit := ratioLimit_,
    savePath := savePath_, seedingTime := seedingTime_, seedingTimeLimit := seedingTimeLimit_,
    seenComplete := from_time_t seenComplete_, seqDl := seqDl_, size := size_,
    state := strToState state_, superSeeding := superSeeding_, tags := tags_,
    timeActive := timeActive_, totalSize := totalSize_, tracker := tracker_,
    upLimit := upLimit_, uploaded := uploaded_, uploadedSession := uploadedSession_,
    upSpeed := upSpeed_, genericInfo := none }

/-- The decoding part of `Torrent::getGenericInfo` (torrent.cpp, from `GenericInfo info;` to the
last assignment). `info` is the default-initialised local, whose scalar members are
indeterminate. The conversions run in source order; a member the code assigns takes the
converted value, a member it never assigns keeps what `info` held. -/
def Torrent.GenericInfo.decode (info : Torrent.GenericInfo) (obj : JObject) :
    Except JError Torrent.GenericInfo := do
  let savePath_ ← value_to_string (← obj.atKey "save_path")
  let creationDate_ ← value_to_time_t (← obj.atKey "creation_date")
  let pieceSize_ ← value_to_long (← obj.atKey "piece_size")
  let comment_ ← value_to_string (← obj.atKey "comment")
  let totalWasted_ ← value_to_size_t (← obj.atKey "total_wasted")
  let totalUploaded_ ← value_to_size_t (← obj.atKey "total_uploaded")
  let totalUploadedSession_ ← value_to_size_t (← obj.atKey "total_uploaded_session")
  let upLimit_ ← value_to_int64 (← obj.atKey "up_limit")
  let dlLimit_ ← value_to_int64 (← obj.atKey "dl_limit")
  let timeElapsed_ ← value_to_int64 (← obj.atKey "time_elapsed")
  let seedingTime_ ← value_to_int64 (← obj.atKey "seeding_time")
  let nbConnections_ ← value_to_long (← obj.atKey "nb_connections")
  let nbConnectionsLimit_ ← value_to_long (← obj.atKey "nb_connections_limit")
  let shareRatio_ ← value_to_float (← obj.atKey "share_ratio")
  let additionDate_ ← value_to_time_t (← obj.atKey "addition_date")
  let completionDate_ ← value_to_time_t (← obj.atKey "completion_date")
  let createdBy_ ← value_to_string (← obj.atKey "created_by")
  let dlSpeedAvg_ ← value_to_int64 (← obj.atKey "dl_speed_avg")
  let dlSpeed_ ← value_to_int64 (← obj.atKey "dl_speed")
  let eta_ ← value_to_int64 (← obj.atKey "eta")
  let lastSeen_ ← value_to_time_t (← obj.atKey "last_seen")
  let peers_ ← value_to_long (← obj.atKey "peers")
  let peersTotal_ ← value_to_long (← obj.atKey "peers_total")
  let piecesHave_ ← value_to_int64 (← obj.atKey "pieces_have")
  let piecesNum_ ← value_to_int64 (← obj.atKey "pieces_num")
  let reannounce_ ← value_to_long (← obj.atKey "reannounce")
  let seeds_ ← value_to_long (← obj.atKey "seeds")
  let seedsTotal_ ← value_to_long (← obj.atKey "seeds_total")
  let totalSize_ ← value_to_size_t (← obj.atKey "total_size")
  let upSpeed_ ← value_to_int64 (← obj.atKey "up_speed")
  let upSpeedAvg_ ← value_to_int64 (← obj.atKey "up_speed_avg")
  pure { info with
    savePath := savePath_, creationDate := from_time_t creationDate_, pieceSize := pieceSize_,
    comment := comment_, totalWasted := totalWasted_, totalUploaded := totalUploaded_,
    totalUploadedSession := totalUploadedSession_, upLimit := upLimit_, dlLimit := dlLimit_,
    timeElapsed := timeElapsed_, seedingTime := seedingTime_, nbConnections := nbConnections_,
    nbConnectionsLimit := nbConnectionsLimit_, shareRatio := shareRatio_,
    additionDate := from_time_t additionDate_, completionDate := from_time_t completionDate_,
    createdBy := createdBy_, dlSpeedAvg := dlSpeedAvg_, dlSpeed := dlSpeed_, eta := eta_,
    lastSeen := from_time_t lastSeen_, peers := peers_, peersTotal := peersTotal_,
    piecesHave := piecesHave_, piecesNum := piecesNum_, reannounce := reannounce_,
    seeds := seeds_, seedsTotal := seedsTotal_, totalSize := totalSize_, upSpeed := upSpeed_,
    upSpeedAvg := upSpeedAvg_ }

/-! ## Field tables

The keys each decoder reads, with the C++ type it converts to, in source order. `readFields`
runs the same lookups and conversions and keeps only the outcome; the theorems
`Torrent.ctor_outcome`, `ContentItem.item_outcome` and `GenericInfo.decode_outcome` show that
each decoder fails exactly when, and with the error with which, `readFields` fails on its
table. -/

/-- The C++ target type of a `json::value_to<T>` call. -/
inductive FieldKind where
  | int64
  | long
  | time_t
  | int
  | size_t
  | float
  | bool
  | string
  deriving DecidableEq, Repr

/-- The `json::value_to<T>` call of a kind, its value dropped. -/
def FieldKind.convert : FieldKind → JValue → Except JError Unit
  | .int64, v => do let _ ← value_to_int64 v; pure ()
  | .long, v => do let _ ← value_to_long v; pure ()
  | .time_t, v => do let _ ← value_to_time_t v; pure ()
  | .int, v => do let _ ← value_to_int v; pure ()
  | .size_t, v => do let _ ← value_to_size_t v; pure ()
  | .float, v => do let _ ← value_to_float v; pure ()
  | .bool, v => do let _ ← value_to_bool v; pure ()
  | .string, v => do let _ ← value_to_string v; pure ()

/-- A JSON number that is an integer in `[lo, hi]`. -/
def JValue.isIntegerIn (lo hi : Int) : JValue → Bool
  | .int64 i => decide (lo ≤ i ∧ i ≤ hi)
  | .uint64 u => decide (lo ≤ (u : Int) ∧ (u : Int) ≤ hi)
  | .double d =>
    match d.toInt? with
    | some i => decide (lo ≤ i ∧ i ≤ hi)
    | none => false
  | _ => false

/-- A JSON number of any kind. -/
def JValue.isNumber : JValue → Bool
  | .int64 _ => true
  | .uint64 _ => true
  | .double _ => true
  | _ => false

/-- The shape a value must have for a kind: a string, a boolean, any number for `float`, an
integer in the range of the target type for the integral kinds. Values of `int64` kind are
64-bit signed and values of `uint64` kind 64-bit unsigned. -/
def FieldKind.accepts : FieldKind → JValue → Bool
  | .int64, v => v.isIntegerIn (-(2 ^ 63)) (2 ^ 63 - 1)
  | .long, v => v.isIntegerIn (-(2 ^ 63)) (2 ^ 63 - 1)
  | .time_t, v => v.isIntegerIn (-(2 ^ 63)) (2 ^ 63 - 1)
  | .int, v => v.isIntegerIn (-(2 ^ 31)) (2 ^ 31 - 1)
  | .size_t, v => v.isIntegerIn 0 (2 ^ 64 - 1)
  | .float, v => v.isNumber
  | .bool, v => match v with | .bool _ => true | _ => false
  | .string, v => match v with | .string _ => true | _ => false

/-- Look up and convert the fields of a table in order, keeping only the outcome. -/
def readFields : List (String × FieldKind) → JObject → Except JError Unit
  | [], _ => .ok ()
  | (key, kind) :: rest, obj => do
    let v ← obj.atKey key
    kind.convert v
    readFields rest obj

/-- Every field of a table is present in the object with a value of the shape of its kind. -/
def WellTyped (fields : List (String × FieldKind)) (obj : JObject) : Prop :=
  ∀ f ∈ fields, ∃ v, obj.find f.1 = some v ∧ f.2.accepts v = true

/-- The `boost::json` error code a conversion raises on a value that is not of the shape of
its kind: `not_string`, `not_bool`, `not_number` for a value that is no number, `not_exact`
for a number that is not an integer of the target range. -/
def FieldKind.mismatch : FieldKind → JValue → JError
  | .string, _ => .not_string
  | .bool, _ => .not_bool
  | _, v => if v.isNumber then .not_exact else .not_number

instance (fields : List (String × FieldKind)) (obj : JObject) :
    Decidable (WellTyped fields obj) :=
  decidable_of_iff (∀ f ∈ fields, (obj.find f.1).any f.2.accepts = true) (by
    unfold WellTyped
    constructor
    · intro h f hf
      have := h f hf
      cases hx : obj.find f.1 with
      | none => rw [hx] at this; cases this
      | some v => rw [hx] at this; exact ⟨v, rfl, this⟩
    · intro h f hf
      obtain ⟨v, hv, ha⟩ := h f hf
      rw [hv]; exact ha)

/-- The keys `Torrent::Torrent` reads, in source order. -/
def Torrent.fields : List (String × FieldKind) :=
  [("added_on", .time_t), ("amount_left", .long), ("auto_tmm", .bool),
   ("availability", .float), ("category", .string), ("completed", .size_t),
   ("completion_on", .time_t), ("content_path", .string), ("dl_limit", .int64),
   ("dlspeed", .int64), ("downloaded", .int64), ("downloaded_session", .int64),
   ("eta", .int64), ("f_l_piece_prio", .bool), ("force_start", .bool), ("hash", .string),
   ("private", .bool), ("last_activity", .time_t), ("magnet_uri", .string),
   ("max_ratio", .float), ("max_seeding_time", .int64), ("name", .string),
   ("num_complete", .long), ("num_incomplete", .long), ("num_leechs", .long),
   ("num_seeds", .long), ("priority", .long), ("progress", .float), ("ratio", .float),
   ("ratio_limit", .float), ("save_path", .string), ("seeding_time", .long),
   ("seeding_time_limit", .long), ("seen_complete", .time_t), ("seq_dl", .bool),
   ("size", .size_t), ("state", .string), ("super_seeding", .bool), ("tags", .string),
   ("time_active", .long), ("total_size", .size_t), ("tracker", .string), ("up_limit", .int64),
   ("uploaded", .int64), ("uploaded_session", .int64), ("upspeed", .int64)]

/-- The required keys `Torrent::ContentItem::ContentItem` reads, in source order. -/
def Torrent.ContentItem.fields : List (String × FieldKind) :=
  [("index", .int64), ("name", .string), ("size", .size_t), ("progress", .float),
   ("priority", .int), ("availability", .float)]

/-- The keys `Torrent::getGenericInfo` reads, in source order. -/
def Torrent.GenericInfo.fields : List (String × FieldKind) :=
  [("save_path", .string), ("creation_date", .time_t), ("piece_size", .long),
   ("comment", .string), ("total_wasted", .size_t), ("total_uploaded", .size_t),
   ("total_uploaded_session", .size_t), ("up_limit", .int64), ("dl_limit", .int64),
   ("time_elapsed", .int64), ("seeding_time", .int64), ("nb_connections", .long),
   ("nb_connections_limit", .long), ("share_ratio", .float), ("addition_date", .time_t),
   ("completion_date", .time_t), ("created_by", .string), ("dl_speed_avg", .int64),
   ("dl_speed", .int64), ("eta", .int64), ("last_seen", .time_t), ("peers", .long),
   ("peers_total", .long), ("pieces_have", .int64), ("pieces_num", .int64),
   ("reannounce", .long), ("seeds", .long), ("seeds_total", .long), ("total_size", .size_t),
   ("up_speed", .int64), ("up_speed_avg", .int64)]

/-! ## Transport (web.cpp) and session (qbt.cpp) -/

/-- A libcurl result code; `CURLE_OK` is zero. -/
abbrev CURLcode := Nat

/-- The libcurl code `CURLE_OK`. -/
def CURLE_OK : CURLcode := 0

/-- The libcurl code `CURLE_BAD_FUNCTION_ARGUMENT`, returned for a null handle. -/
def CURLE_BAD_FUNCTION_ARGUMENT : CURLcode := 43

/-- The request kind selected by `CURLOPT_POST` / `CURLOPT_HTTPGET`. -/
inductive HttpMethod where
  | get
  | post
  deriving DecidableEq, Repr

/-- The options of a libcurl easy handle that the client sets. -/
structure CURL where
  ssl_verifypeer : Bool
  ssl_verifyhost : Bool
  ca_cache_timeout : Int
  followlocation : Bool
  verbose : Bool
  httpheader : List String
  url : String
  method : HttpMethod
  postfields : String
  deriving DecidableEq, Repr

/-- A fresh easy handle with the libcurl defaults of the options above. -/
def CURL.fresh : CURL :=
  { ssl_verifypeer := true, ssl_verifyhost := true, ca_cache_timeout := 86400,
    followlocation := false, verbose := false, httpheader := [], url := "",
    method := .get, postfields := "" }

/-- What lies outside the program: whether `curl_easy_init` yields a handle, what a transfer
returns (the result code and the chunks of body handed to the write callback before it
returns), given the transfers performed so far and the handle, and the result of
`boost::json::parse` on a text. -/
structure Env where
  easy_init_ok : Bool
  perform : List CURL → CURL → CURLcode × List String
  parse : String → Except JError JValue

/-- `curlStrWriteCallback` (web.cpp): appends the chunk to `s` and returns its length. -/
def curlStrWriteCallback (contents : String) (s : String) : Nat × String :=
  (contents.utf8ByteSize, s ++ contents)

/-- `curl_easy_perform` with `curlStrWriteCallback` as write function and `resp` as write
data: every chunk received is appended to `resp`; the transfer is added to the log. A null
handle performs nothing. -/
def curl_easy_perform (env : Env) (handle : Option CURL) (resp : String) (log : List CURL) :
    CURLcode × String × List CURL :=
  match handle with
  | none => (CURLE_BAD_FUNCTION_ARGUMENT, resp, log)
  | some h =>
    let r := env.perform log h
    (r.1, r.2.foldl (fun s chunk => (curlStrWriteCallback chunk s).2) resp, log ++ [h])

/-- `POST` (web.cpp). Returns the result code, the handle, the response buffer and the log. -/
def POST (env : Env) (handle : Option CURL) (url : String) (postFields : String)
    (resp : String) (log : List CURL) : CURLcode × Option CURL × String × List CURL :=
  let handle := handle.map fun h => { h with method := .post }
  let handle := handle.map fun h => { h with url := url }
  let handle := handle.map fun h => { h with postfields := postFields }
  let r := curl_easy_perform env handle resp log
  (r.1, handle, r.2.1, r.2.2)

/-- `GET` (web.cpp). Returns the result code, the handle, the response buffer and the log. -/
def GET (env : Env) (handle : Option CURL) (url : String) (resp : String) (log : List CURL) :
    CURLcode × Option CURL × String × List CURL :=
  let handle := handle.map fun h => { h with method := .get }
  let handle := handle.map fun h => { h with url := url }
  let r := curl_easy_perform env handle resp log
  (r.1, handle, r.2.1, r.2.2)

/-- `Credentials` (qbt.h). -/
structure Credentials where
  username : String
  password : String
  deriving DecidableEq, Repr

/-- `Qbittorrent` (qbt.h): the data members in declaration order. `curl` is `none` for a null
pointer; `headers` is the `curl_slist`. -/
structure Qbittorrent where
  insecure : Bool
  baseUrl : String
  credentials : Option Credentials
  appPassword : Option String
  headers : List String
  curl : Option CURL
  deriving DecidableEq, Repr

/-- The scan of `fmt::format` over a format string whose replacement fields are all `\x7b\x7d`
and whose arguments are strings: each field is replaced by the next argument, copied as it
is; every other character of the format string is copied; the arguments are not scanned. -/
def fmt_format.go : List Char → List String → List Char
  | '\x7b' :: '\x7d' :: rest, arg :: args => arg.toList ++ fmt_format.go rest args
  | c :: rest, args => c :: fmt_format.go rest args
  | [], _ => []

/-- `fmt::format(fmt, args...)` for string arguments. -/
def fmt_format (fmt : String) (args : List String) : String :=
  String.mk (fmt_format.go fmt.toList args)

/-- `Qbittorrent::buildUrl` (qbt.cpp). -/
def Qbittorrent.buildUrl (self : Qbittorrent) (endpoint : String) : String :=
  fmt_format "\x7b\x7d/api/v2/\x7b\x7d" [self.baseUrl, endpoint]

/-- The escape `boost::json::serialize` writes for one character of a string. -/
def serialize_char (c : Char) : List Char :=
  if c = '"' then ['\\', '"']
  else if c = '\\' then ['\\', '\\']
  else if c = '\x08' then ['\\', 'b']
  else if c = '\x0c' then ['\\', 'f']
  else if c = '\n' then ['\\', 'n']
  else if c = '\r' then ['\\', 'r']
  else if c = '\t' then ['\\', 't']
  else if c.toNat < 32 then
    ['\\', 'u', '0', '0', Nat.digitChar (c.toNat / 16), Nat.digitChar (c.toNat % 16)]
  else [c]

/-- `boost::json::serialize` of a string: quoted, with escapes. -/
def serialize_string (s : String) : String :=
  "\"" ++ String.mk (s.toList.flatMap serialize_char) ++ "\""

/-- `boost::json::serialize` of an object all of whose values are strings, given as its
key/value pairs in insertion order. -/
def serialize (members : List (String × String)) : String :=
  "\x7b" ++ ",".intercalate (members.map fun m => serialize_string m.1 ++ ":" ++ serialize_string m.2)
    ++ "\x7d"

/-- `Qbittorrent::login` (qbt.cpp). Returns the result, the session and the log. -/
def Qbittorrent.login (env : Env) (self : Qbittorrent) (log : List CURL) :
    Bool × Qbittorrent × List CURL :=
  let dummy : Credentials := { username := "", password := "" }
  let creds : List (String × String) :=
    [("username", (self.credentials.getD dummy).username),
     ("password", (self.credentials.getD dummy).password)]
  let credsJson := serialize creds
  let resp := ""
  let endpoint := self.buildUrl "auth/login"
  let r := POST env self.curl endpoint credsJson resp log
  let self := { self with curl := r.2.1 }
  if r.1 ≠ CURLE_OK then (false, self, r.2.2.2)
  else if r.2.2.1 ≠ "Ok." then (false, self, r.2.2.2)
  else (true, self, r.2.2.2)

/-- `Qbittorrent::init` (qbt.cpp). An exception is the `Except.error` branch with the message
of the `std::runtime_error`. -/
def Qbittorrent.init (env : Env) (self : Qbittorrent) (log : List CURL) :
    Except String Qbittorrent × List CURL :=
  let self : Qbittorrent := { self with curl := none }
  let self : Qbittorrent := { self with curl := if env.easy_init_ok then some CURL.fresh else none }
  if self.curl.isNone then (.error "Failed to initialize CURL session.", log)
  else
    let self : Qbittorrent :=
      if self.insecure then
        { self with curl := self.curl.map fun h =>
            { h with ssl_verifypeer := false, ssl_verifyhost := false } }
      else self
    let self : Qbittorrent := { self with curl := self.curl.map fun h =>
      { h with ca_cache_timeout := 604800, followlocation := true, verbose := false } }
    let self : Qbittorrent :=
      match self.appPassword with
      | some p =>
        let header := fmt_format "Authorization: Bearer \x7b\x7d" [p]
        { self with headers := self.headers ++ [header] }
      | none => self
    let self : Qbittorrent :=
      if self.headers ≠ [] then
        { self with curl := self.curl.map fun h => { h with httpheader := self.headers } }
      else self
    let self : Qbittorrent := { self with curl := self.curl.map fun h => { h with url := self.baseUrl } }
    let r := self.login env log
    if !r.1 then (.error "Authentication failed", r.2.2)
    else (.ok r.2.1, r.2.2)

/-- `Qbittorrent::Qbittorrent(baseUrl, credentials, insecure)` (qbt.cpp): the member
initialisers, then `init()`. `appPassword` has no initialiser and is default-constructed
empty. -/
def Qbittorrent.ctor (env : Env) (baseUrl : String) (credentials : Option Credentials)
    (insecure : Bool) (log : List CURL) : Except String Qbittorrent × List CURL :=
  Qbittorrent.init env
    { insecure := insecure, baseUrl := baseUrl, credentials := credentials,
      appPassword := none, headers := [], curl := none } log

/-- The call `Qbittorrent(baseUrl, credentials)`: the third parameter is declared
`const bool insecure = false` (qbt.h), and a call that leaves it out passes that default. -/
def Qbittorrent.ctorDefault (env : Env) (baseUrl : String) (credentials : Option Credentials)
    (log : List CURL) : Except String Qbittorrent × List CURL :=
  Qbittorrent.ctor env baseUrl credentials false log

/-- The loop of `Qbittorrent::getTorrentList` (torrentList.h) over the array: each element is
taken as an object, decoded, and written to the output; the first exception ends the loop
with what was written so far. `uninit` is the storage of the local `Torrent t`. -/
def Qbittorrent.getTorrentList.loop (uninit : Torrent) :
    List JValue → List Torrent → Except JError Unit × List Torrent
  | [], output => (.ok (), output)
  | v :: rest, output =>
    match v.as_object with
    | .error e => (.error e, output)
    | .ok obj =>
      match Torrent.ctor uninit obj with
      | .error e => (.error e, output)
      | .ok t => Qbittorrent.getTorrentList.loop uninit rest (output ++ [t])

/-- `Qbittorrent::getTorrentList(output)` (torrentList.h). `output` is what the output iterator
has written. A failed `GET` is logged and the function goes on with the buffer. Returns the
outcome, the output, the session and the log. -/
def Qbittorrent.getTorrentList (env : Env) (self : Qbittorrent) (uninit : Torrent)
    (output : List Torrent) (log : List CURL) :
    Except JError Unit × List Torrent × Qbittorrent × List CURL :=
  let endpoint := self.buildUrl "torrents/info"
  let resp := ""
  let r := GET env self.curl endpoint resp log
  let self := { self with curl := r.2.1 }
  match env.parse r.2.2.1 with
  | .error e => (.error e, output, self, r.2.2.2)
  | .ok jvp =>
    match jvp.as_array with
    | .error e => (.error e, output, self, r.2.2.2)
    | .ok array =>
      let l := Qbittorrent.getTorrentList.loop uninit array output
      (l.1, l.2, self, r.2.2.2)

/-- `Qbittorrent::logout` (qbt.cpp). A failed `POST` is logged and nothing else is done with
the result; no statement of the body throws. Returns the outcome, the session and the log. -/
def Qbittorrent.logout (env : Env) (self : Qbittorrent) (log : List CURL) :
    Except JError Unit × Qbittorrent × List CURL :=
  let resp := ""
  let endpoint := self.buildUrl "auth/logout"
  let r := POST env self.curl endpoint "" resp log
  let self := { self with curl := r.2.1 }
  (.ok (), self, r.2.2.2)

/-- `Qbittorrent::~Qbittorrent` (qbt.cpp): `logout()`, after which the handle, the header list
and the library state are released. Returns the outcome and the log. -/
def Qbittorrent.dtor (env : Env) (self : Qbittorrent) (log : List CURL) :
    Except JError Unit × List CURL :=
  let r := self.logout env log
  (r.1, r.2.2)

/-- `Qbittorrent::getGenericStr` (qbt.cpp). A failed `GET` is logged and the buffer is
returned all the same; no statement of the body throws. Returns the outcome, the session and
the log. -/
def Qbittorrent.getGenericStr (env : Env) (self : Qbittorrent) (endpoint : String)
    (log : List CURL) : Except JError String × Qbittorrent × List CURL :=
  let resp := ""
  let r := GET env self.curl endpoint resp log
  let self := { self with curl := r.2.1 }
  (.ok r.2.2.1, self, r.2.2.2)

/-- `Qbittorrent::getGenericJson` (qbt.cpp). A failed `GET` is logged and the function goes on
to parse the buffer. Returns the outcome, the session and the log. -/
def Qbittorrent.getGenericJson (env : Env) (self : Qbittorrent) (endpoint : String)
    (log : List CURL) : Except JError JObject × Qbittorrent × List CURL :=
  let resp := ""
  let r := GET env self.curl endpoint resp log
  let self := { self with curl := r.2.1 }
  match env.parse r.2.2.1 with
  | .error e => (.error e, self, r.2.2.2)
  | .ok jv => (jv.as_object, self, r.2.2.2)

/-- `std::isspace` in the classic locale. -/
def isspace (c : Char) : Bool :=
  c = ' ' || c = '\t' || c = '\n' || c = '\x0b' || c = '\x0c' || c = '\r'

/-- The sentry of a formatted input function on a stream with `skipws` set: leading
whitespace is discarded; if that reaches the end of the stream the sentry fails (`none`) and
the extraction stores nothing. Otherwise the rest of the stream. -/
def istream_sentry (cs : List Char) : Option (List Char) :=
  match cs.dropWhile isspace with
  | [] => none
  | c :: rest => some (c :: rest)

/-- `is >> std::boolalpha >> res` for `bool res`: after the sentry, the characters are matched
against `numpunct::truename()` = `true` and `numpunct::falsename()` = `false`; on a match
that value is stored, otherwise `failbit` is set and `false` is stored. The result is the
value of `res` afterwards. -/
def extract_boolalpha (s : String) (res : Bool) : Bool :=
  match istream_sentry s.toList with
  | none => res
  | some cs =>
    if "true".toList.isPrefixOf cs then true
    else if "false".toList.isPrefixOf cs then false
    else false

/-- The value of a run of decimal digits, accumulated left to right. -/
def accumulate_digits (digits : List Char) : Nat :=
  digits.foldl (fun result c => result * 10 + (c.toNat - '0'.toNat)) 0

/-- `is >> res` for `size_t res` (64-bit `unsigned long`, base ten): after the sentry, an
optional sign and the longest run of digits are read. With no digit, `failbit` is set and
zero is stored; a value above the maximum sets `failbit` and stores the maximum; otherwise
the value is stored, negated modulo `2^64` after a minus sign. The result is the value of
`res` afterwards. -/
def extract_size_t (s : String) (res : Nat) : Nat :=
  match istream_sentry s.toList with
  | none => res
  | some cs =>
    let negative : Bool := cs.head? = some '-'
    let cs := if cs.head? = some '-' ∨ cs.head? = some '+' then cs.tail else cs
    let digits := cs.takeWhile Char.isDigit
    if digits = [] then 0
    else
      let result := accumulate_digits digits
      if result > 2 ^ 64 - 1 then 2 ^ 64 - 1
      else if negative then (2 ^ 64 - result) % 2 ^ 64
      else result

/-- `Qbittorrent::getAlternativeSpeedLimitsState` (qbt.cpp). `res` is the initial contents of
the local `bool res`. -/
def Qbittorrent.getAlternativeSpeedLimitsState (env : Env) (self : Qbittorrent) (res : Bool)
    (log : List CURL) : Except JError Bool × Qbittorrent × List CURL :=
  let endpoint := self.buildUrl "transfer/speedLimitsMode"
  let r := self.getGenericStr env endpoint log
  match r.1 with
  | .error e => (.error e, r.2.1, r.2.2)
  | .ok resp => (.ok (extract_boolalpha resp res), r.2.1, r.2.2)

/-- `Qbittorrent::getGlobalDownloadLimit` (qbt.cpp). `res` is the initial contents of the
local `size_t res`. -/
def Qbittorrent.getGlobalDownloadLimit (env : Env) (self : Qbittorrent) (res : Nat)
    (log : List CURL) : Except JError Nat × Qbittorrent × List CURL :=
  let endpoint := self.buildUrl "transfer/downloadLimit"
  let r := self.getGenericStr env endpoint log
  match r.1 with
  | .error e => (.error e, r.2.1, r.2.2)
  | .ok resp => (.ok (extract_size_t resp res), r.2.1, r.2.2)

/-- `Qbittorrent::getGlobalUploadLimit` (qbt.cpp). `res` is the initial contents of the local
`size_t res`. -/
def Qbittorrent.getGlobalUploadLimit (env : Env) (self : Qbittorrent) (res : Nat)
    (log : List CURL) : Except JError Nat × Qbittorrent × List CURL :=
  let endpoint := self.buildUrl "transfer/uploadLimit"
  let r := self.getGenericStr env endpoint log
  match r.1 with
  | .error e => (.error e, r.2.1, r.2.2)
  | .ok resp => (.ok (extract_size_t resp res), r.2.1, r.2.2)

/-! ## Per-torrent calls (torrent.cpp, torrentContents.h)

The member `parent` of a `Torrent` points to the session; here the session is passed
alongside the torrent and returned with it. -/

/-- `Torrent::getGenericInfo(force)` (torrent.cpp). `uninit` is the storage of the local
`GenericInfo info`. A failed `GET` is logged and the function goes on with the buffer.
Returns the outcome, the torrent, the session and the log. -/
def Torrent.getGenericInfo (env : Env) (parent : Qbittorrent) (self : Torrent)
    (uninit : Torrent.GenericInfo) (force : Bool) (log : List CURL) :
    Except JError Torrent.GenericInfo × Torrent × Qbittorrent × List CURL :=
  match self.genericInfo, force with
  | some cached, false => (.ok cached, self, parent, log)
  | _, _ =>
    let endpoint :=
      parent.buildUrl (fmt_format "torrents/properties?hash=\x7b\x7d" [self.hash])
    let buffer := ""
    let r := GET env parent.curl endpoint buffer log
    let parent := { parent with curl := r.2.1 }
    match env.parse r.2.2.1 with
    | .error e => (.error e, self, parent, r.2.2.2)
    | .ok jvp =>
      match jvp.as_object with
      | .error e => (.error e, self, parent, r.2.2.2)
      | .ok obj =>
        match Torrent.GenericInfo.decode uninit obj with
        | .error e => (.error e, self, parent, r.2.2.2)
        | .ok info => (.ok info, { self with genericInfo := some info }, parent, r.2.2.2)

/-- The loop of `Torrent::getContents` (torrentContents.h) over the array: each element is
taken as an object, decoded, and written to the output; the first exception ends the loop
with what was written so far. `uninit` is the storage of the local `ContentItem i`. -/
def Torrent.getContents.loop (uninit : Torrent.ContentItem) :
    List JValue → List Torrent.ContentItem → Except JError Unit × List Torrent.ContentItem
  | [], output => (.ok (), output)
  | v :: rest, output =>
    match v.as_object with
    | .error e => (.error e, output)
    | .ok obj =>
      match Torrent.ContentItem.ctor uninit obj with
      | .error e => (.error e, output)
      | .ok i => Torrent.getContents.loop uninit rest (output ++ [i])

/-- `Torrent::getContents(output)` (torrentContents.h). `output` is what the output iterator
has written. A failed `GET` is logged and the function goes on with the buffer. Returns the
outcome, the output, the session and the log. -/
def Torrent.getContents (env : Env) (parent : Qbittorrent) (self : Torrent)
    (uninit : Torrent.ContentItem) (output : List Torrent.ContentItem) (log : List CURL) :
    Except JError Unit × List Torrent.ContentItem × Qbittorrent × List CURL :=
  let myUrl := fmt_format "torrents/files?hash=\x7b\x7d" [self.hash]
  let endpoint := parent.buildUrl myUrl
  let resp := ""
  let r := GET env parent.curl endpoint resp log
  let parent := { parent with curl := r.2.1 }
  match env.parse r.2.2.1 with
  | .error e => (.error e, output, parent, r.2.2.2)
  | .ok jvp =>
    match jvp.as_array with
    | .error e => (.error e, output, parent, r.2.2.2)
    | .ok array =>
      let l := Torrent.getContents.loop uninit array output
      (l.1, l.2, parent, r.2.2.2)

/-! ## State labels (torrent.h, torrent.cpp) -/

/-- Insertion into a `std::unordered_map` held as its list of entries: an entry whose key is
already present is not inserted. -/
def unordered_map.insert {K V : Type} [DecidableEq K] (m : List (K × V)) (entry : K × V) :
    List (K × V) :=
  if m.any (fun e => e.1 = entry.1) then m else m ++ [entry]

/-- Construction of a `std::unordered_map` from an initializer list: the entries are inserted
one by one. -/
def unordered_map.ofList {K V : Type} [DecidableEq K] (init : List (K × V)) : List (K × V) :=
  init.foldl unordered_map.insert []

/-- `std::unordered_map::at`: the value mapped to the key, `std::out_of_range` when there is
none. -/
def unordered_map.at {K V : Type} [DecidableEq K] (m : List (K × V)) (key : K) :
    Except JError V :=
  match m.find? (fun e => e.1 = key) with
  | some e => .ok e.2
  | none => .error .out_of_range

/-- The initializer list of `STATE_STRS` (torrent.h), in source order. -/
def STATE_STRS.init : List (Torrent.State × String) :=
  [(.error, "Error"), (.missingFiles, "Missing Files"), (.uploading, "Uploading"),
   (.pausedUP, "Paused Uploading"), (.pausedDL, "Paused Downloading"),
   (.queuedUP, "Queued Uploading"), (.stalledUP, "Stalled Uploading"),
   (.checkingUP, "Checking Uploading"), (.forcedUP, "Forced Uploading"),
   (.allocating, "Allocating Space"), (.downloading, "Downloading"),
   (.metaDL, "Metadata Downloading"), (.pausedDL, "Paused Downloading"),
   (.queuedDL, "Queued Download"), (.stalledDL, "Stalled Download"),
   (.checkingDL, "Checking Download"), (.forcedDL, "Forced Downloading"),
   (.checkingResumeData, "Checking Resume Data"), (.moving, "Moving"),
   (.unknown, "Unkown")]

/-- `STATE_STRS` (torrent.h). -/
def STATE_STRS : List (Torrent.State × String) :=
  unordered_map.ofList STATE_STRS.init

/-- `fmt::formatter<Torrent::State>::format` (torrent.cpp): the text handed to the string
formatter, which writes it as it is. -/
def formatter_State.format (s : Torrent.State) : Except JError String :=
  match unordered_map.at STATE_STRS s with
  | .error e => .error e
  | .ok str => .ok str

/-! ## Sample values

Concrete JSON objects in the shape of the Web API responses, and concrete contents for the
storage a decoder starts from. -/

/-- The object with the member `key` removed. -/
def JObject.erase (obj : JObject) (key : String) : JObject :=
  obj.filter fun m => m.1 ≠ key

/-- The object with the value of the member `key` replaced (the member must exist). -/
def JObject.replace (obj : JObject) (key : String) (v : JValue) : JObject :=
  obj.map fun m => if m.1 = key then (m.1, v) else m

/-- An element of a `torrents/info` response. -/
def sampleTorrent : JObject :=
  [("added_on", .int64 1700000000), ("amount_left", .int64 42), ("auto_tmm", .bool false),
   ("availability", .double (.finite false 1 (-1))), ("category", .string "linux"),
   ("completed", .int64 1048576), ("completion_on", .int64 1700003600),
   ("content_path", .string ""), ("dl_limit", .int64 (-1)), ("dlspeed", .int64 42),
   ("downloaded", .int64 42), ("downloaded_session", .int64 42), ("eta", .int64 8640000),
   ("f_l_piece_prio", .bool false), ("force_start", .bool false),
   ("hash", .string "8c212779b4abde7c6bc608063a0d008b7e40ce32"), ("private", .bool false),
   ("last_activity", .int64 1700007200), ("magnet_uri", .string ""), ("max_ratio", .int64 1),
   ("max_seeding_time", .int64 (-1)), ("name", .string "debian-12.iso"),
   ("num_complete", .int64 42), ("num_incomplete", .int64 42), ("num_leechs", .int64 42),
   ("num_seeds", .int64 42), ("priority", .int64 1),
   ("progress", .double (.finite false 1 (-1))), ("ratio", .int64 1),
   ("ratio_limit", .int64 1), ("save_path", .string "/downloads/"),
   ("seeding_time", .int64 42), ("seeding_time_limit", .int64 (-1)),
   ("seen_complete", .int64 1700003600), ("seq_dl", .bool false), ("size", .int64 1048576),
   ("state", .string "uploading"), ("super_seeding", .bool false), ("tags", .string ""),
   ("time_active", .int64 42), ("total_size", .int64 1048576), ("tracker", .string ""),
   ("up_limit", .int64 (-1)), ("uploaded", .int64 42), ("uploaded_session", .int64 42),
   ("upspeed", .int64 42)]

/-- A `torrents/properties` response. -/
def sampleProperties : JObject :=
  [("save_path", .string "/downloads/"), ("creation_date", .int64 1690000000),
   ("piece_size", .int64 42), ("comment", .string ""), ("total_wasted", .int64 1048576),
   ("total_uploaded", .int64 1048576), ("total_uploaded_session", .int64 1048576),
   ("up_limit", .int64 (-1)), ("dl_limit", .int64 (-1)), ("time_elapsed", .int64 42),
   ("seeding_time", .int64 42), ("nb_connections", .int64 42),
   ("nb_connections_limit", .int64 42), ("share_ratio", .int64 1),
   ("addition_date", .int64 1700000000), ("completion_date", .int64 1700003600),
   ("created_by", .string ""), ("dl_speed_avg", .int64 42), ("dl_speed", .int64 42),
   ("eta", .int64 8640000), ("last_seen", .int64 1700007200), ("peers", .int64 42),
   ("peers_total", .int64 42), ("pieces_have", .int64 42), ("pieces_num", .int64 42),
   ("reannounce", .int64 42), ("seeds", .int64 42), ("seeds_total", .int64 42),
   ("total_size", .int64 1048576), ("up_speed", .int64 42), ("up_speed_avg", .int64 42)]

/-- An element of a `torrents/files` response, without `is_seed`. -/
def sampleFile : JObject :=
  [("index", .int64 42), ("name", .string "debian-12.iso"), ("size", .int64 1048576),
   ("progress", .double (.finite false 1 (-1))), ("priority", .int64 1),
   ("availability", .double (.finite false 1 (-1)))]

/-- Some contents of the storage of a `Torrent` under construction. -/
def Torrent.storage : Torrent :=
  { addedOn := ptime.not_a_date_time, amountLeft := 0, autoTMM := false,
    availability := .ofInt64 0, category := "", completed := 0,
    completionOn := ptime.not_a_date_time, contentPath := "", dlLimit := 0, dlSpeed := 0,
    downloaded := 0, downloadedSession := 0, eta := 0, flPiecePrio := false,
    forceStart := false, hash := "", isPrivate := false, lastActivity := ptime.not_a_date_time,
    magnetUri := "", maxRatio := .ofInt64 0, maxSeedingTime := 0, name := "", numComplete := 0,
    numIncomplete := 0, numLeechs := 0, numSeeds := 0, priority := 0, progress := .ofInt64 0,
    ratio := .ofInt64 0, ratioLimit := .ofInt64 0, savePath := "", seedingTime := 0,
    seedingTimeLimit := 0, seenComplete := ptime.not_a_date_time, seqDl := false, size := 0,
    state := .error, superSeeding := false, tags := "", timeActive := 0, totalSize := 0,
    tracker := "", upLimit := 0, uploaded := 0, uploadedSession := 0, upSpeed := 0,
    genericInfo := none }

/-- Some contents of the storage of a default-initialised `GenericInfo`. -/
def Torrent.GenericInfo.storageA : Torrent.GenericInfo :=
  { savePath := "", creationDate := ptime.not_a_date_time, pieceSize := 0, comment := "",
    totalWasted := 0, totalUploaded := 0, totalUploadedSession := 0, totalDownloaded := 0,
    totalDownloadedSession := 0, upLimit := 0, dlLimit := 0, timeElapsed := 0,
    seedingTime := 0, nbConnections := 0, nbConnectionsLimit := 0, shareRatio := .ofInt64 0,
    additionDate := ptime.not_a_date_time, completionDate := ptime.not_a_date_time,
    createdBy := "", dlSpeedAvg := 0, dlSpeed := 0, eta := 0,
    lastSeen := ptime.not_a_date_time, peers := 0, peersTotal := 0, piecesHave := 0,
    piecesNum := 0, reannounce := 0, seeds := 0, seedsTotal := 0, totalSize := 0,
    upSpeedAvg := 0, upSpeed := 0 }

/-- Other contents of the storage of a default-initialised `GenericInfo`. -/
def Torrent.GenericInfo.storageB : Torrent.GenericInfo :=
  { savePath := "", creationDate := ptime.not_a_date_time, pieceSize := 7, comment := "",
    totalWasted := 7, totalUploaded := 7, totalUploadedSession := 7, totalDownloaded := 7,
    totalDownloadedSession := 7, upLimit := 7, dlLimit := 7, timeElapsed := 7,
    seedingTime := 7, nbConnections := 7, nbConnectionsLimit := 7, shareRatio := .ofInt64 0,
    additionDate := ptime.not_a_date_time, completionDate := ptime.not_a_date_time,
    createdBy := "", dlSpeedAvg := 7, dlSpeed := 7, eta := 7,
    lastSeen := ptime.not_a_date_time, peers := 7, peersTotal := 7, piecesHave := 7,
    piecesNum := 7, reannounce := 7, seeds := 7, seedsTotal := 7, totalSize := 7,
    upSpeedAvg := 7, upSpeed := 7 }

/-- Some contents of the storage of a `ContentItem` under construction. -/
def Torrent.ContentItem.storage : Torrent.ContentItem :=
  { index := 0, name := "", size := 0, progress := .ofInt64 0, priority := 0, isSeed := true,
    availability := .ofInt64 0 }

/-- The state names listed by the specification of `TorrentState`. -/
def knownStateNames : List String :=
  ["error", "missingFiles", "uploading", "pausedUP", "pausedDL", "queuedUP", "queuedDL",
   "stalledUP", "stalledDL", "checkingUP", "checkingDL", "checkingResumeData", "forcedUP",
   "forcedDL", "allocating", "downloading", "metaDL", "moving"]

/-- The instant `1970-01-01T00:00:00Z` plus `t` seconds, as an unbounded count of microseconds
since day number 0 (the unit and origin of `ptime.time_count`). -/
def instantAfterEpoch (t : Int) : Int :=
  day_number 1970 1 1 * frac_sec_per_day + t * 1000000

/-- A server that answers every request with a body delivered in two chunks, and a parser
that reads that body as an array of two torrents. -/
def sampleEnv : Env :=
  { easy_init_ok := true
    perform := fun _ _ => (CURLE_OK, ["two ", "torrents"])
    parse := fun s =>
      if s = "two torrents" then
        .ok (.array [.object sampleTorrent,
          .object (sampleTorrent.replace "hash" (.string "0f1e2d3c4b5a69788796a5b4c3d2e1f001234567"))])
      else .error .parse_failure }

/-- A session with a configured handle. -/
def sampleSession : Qbittorrent :=
  { insecure := false, baseUrl := "https://qbt.example.org", credentials := none,
    appPassword := none, headers := [], curl := some CURL.fresh }

/-- The handle `h` with the options of a `GET` to `url`: the entry of the log for such a
request. -/
def CURL.asGET (h : CURL) (url : String) : CURL :=
  { h with method := .get, url := url }

/-- The handle `h` with the options of a `POST` of `postFields` to `url`: the entry of the log
for such a request. -/
def CURL.asPOST (h : CURL) (url : String) (postFields : String) : CURL :=
  { h with method := .post, url := url, postfields := postFields }

/-- The handle as `init` has set it up when it calls `login`, in a session constructed with
the base URL `baseUrl` and the flag `insecure`: the options in the order of `CURL`, no header
(the constructor gives no token), no request made yet. -/
def CURL.configured (baseUrl : String) (insecure : Bool) : CURL :=
  ⟨!insecure, !insecure, 604800, true, false, [], baseUrl, .get, ""⟩

/-- The handle `h` with the options of the request `login` issues in a session with the base
URL `baseUrl` and the credentials `credentials`: a `POST` of the serialized credentials to
`<baseUrl>/api/v2/auth/login`. -/
def CURL.asLogin (h : CURL) (baseUrl : String) (credentials : Option Credentials) : CURL :=
  h.asPOST (baseUrl ++ "/api/v2/auth/login")
    (serialize [("username", (credentials.getD ⟨"", ""⟩).username),
      ("password", (credentials.getD ⟨"", ""⟩).password)])

/-- The libcurl code `CURLE_COULDNT_CONNECT`. -/
def CURLE_COULDNT_CONNECT : CURLcode := 7

/-- The libcurl code `CURLE_RECV_ERROR`. -/
def CURLE_RECV_ERROR : CURLcode := 56

/-- A server whose every transfer ends with `code` after delivering `chunks`, and a parser
that reads the text delivered as `parsed` and rejects every other text. -/
def Env.answering (code : CURLcode) (chunks : List String) (parsed : Except JError JValue) :
    Env :=
  { easy_init_ok := true
    perform := fun _ _ => (code, chunks)
    parse := fun s => if s = String.join chunks then parsed else .error .parse_failure }

/-- A server that answers a request to `url` with the text `atUrl` and every other request
with the text `elsewhere`, every transfer ending with `CURLE_OK`. -/
def Env.routing (url atUrl elsewhere : String) : Env :=
  { easy_init_ok := true
    perform := fun _ h => if h.url = url then (CURLE_OK, [atUrl]) else (CURLE_OK, [elsewhere])
    parse := fun _ => .error .parse_failure }

/-- A `torrents/files` response of two files, the second with `is_seed`. -/
def sampleFiles : List JValue :=
  [.object sampleFile, .object (sampleFile ++ [("is_seed", .bool true)])]

/-- A torrent with hash `8c21` and nothing cached. -/
def sampleRecord : Torrent :=
  { Torrent.storage with hash := "8c21" }

/-- The same torrent with a record cached. -/
def sampleCachedRecord : Torrent :=
  { sampleRecord with genericInfo := some Torrent.GenericInfo.storageB }

/-! ## Lemmas on the conversions and on `readFields` -/

theorem Except.map_unit_ok {ε α : Type} (x : Except ε α) :
    Except.map (fun _ => ()) x = .ok () ↔ ∃ a, x = .ok a := by
  cases x <;> simp [Except.map]

theorem Except.map_unit_error {ε α : Type} (x : Except ε α) (e : ε) :
    Except.map (fun _ => ()) x = .error e ↔ x = .error e := by
  cases x <;> simp [Except.map]

theorem JObject.atKey_ok {obj : JObject} {key : String} {v : JValue} :
    obj.atKey key = .ok v ↔ obj.find key = some v := by
  unfold JObject.atKey
  cases obj.find key <;> simp

theorem JObject.atKey_error {obj : JObject} {key : String} {e : JError} :
    obj.atKey key = .error e ↔ obj.find key = none ∧ e = .out_of_range := by
  unfold JObject.atKey
  cases obj.find key <;> simp [eq_comm]

/-- Two consecutive steps of a decoder that succeeds both succeed. -/
theorem bind2_ok {α β : Type} {obj : JObject} {key : String} {c : JValue → Except JError α}
    {f : α → Except JError β} {t : β}
    (h : (do let v ← obj.atKey key; let a ← c v; f a) = .ok t) :
    ∃ v a, obj.find key = some v ∧ c v = .ok a ∧ f a = .ok t := by
  cases hx : obj.atKey key with
  | error e => rw [hx] at h; cases h
  | ok v =>
    rw [hx] at h
    cases hy : c v with
    | error e =>
      have h' : (do let a ← c v; f a) = Except.ok t := h
      rw [hy] at h'; cases h'
    | ok a =>
      have h' : (do let a ← c v; f a) = Except.ok t := h
      rw [hy] at h'
      exact ⟨v, a, JObject.atKey_ok.1 hx, hy, h'⟩

/-- One step of a decoder matches one entry of its field table. -/
theorem readFields_step {α β : Type} (obj : JObject) (key : String) (kind : FieldKind)
    (rest : List (String × FieldKind)) (c : JValue → Except JError α) (f : α → Except JError β)
    (g : Except JError Unit)
    (hc : ∀ v, kind.convert v = (do let _ ← c v; pure ()))
    (h : ∀ a, Except.map (fun _ => ()) (f a) = (do readFields rest obj; g)) :
    Except.map (fun _ => ()) (do let v ← obj.atKey key; let a ← c v; f a) =
      (do readFields ((key, kind) :: rest) obj; g) := by
  rw [readFields]
  cases hx : obj.atKey key with
  | error e => rfl
  | ok v =>
    show Except.map (fun _ => ()) (do let a ← c v; f a) =
      (do (do kind.convert v; readFields rest obj); g)
    rw [hc v]
    cases hy : c v with
    | error e => rfl
    | ok a => exact h a

theorem FieldKind.convert_ok_iff (kind : FieldKind) (v : JValue) :
    kind.convert v = .ok () ↔ kind.accepts v = true := by
  cases kind <;> cases v <;>
    simp [FieldKind.convert, FieldKind.accepts, JValue.isIntegerIn, JValue.isNumber,
      value_to_int64, value_to_long, value_to_time_t, value_to_int, value_to_size_t,
      value_to_float, value_to_bool, value_to_string, to_number_signed, to_number_unsigned,
      to_number_float, bind, Except.bind, pure, Except.pure] <;>
    first
    | (split_ifs <;> simp_all <;> omega)
    | (rename_i d; cases d.toInt? <;> simp; split_ifs <;> simp_all)

theorem FieldKind.convert_cases (kind : FieldKind) (v : JValue) :
    kind.convert v = .ok () ∨ kind.convert v = .error (kind.mismatch v) := by
  cases kind <;> cases v <;>
    simp [FieldKind.convert, FieldKind.mismatch, JValue.isNumber, value_to_int64,
      value_to_long, value_to_time_t, value_to_int, value_to_size_t, value_to_float,
      value_to_bool, value_to_string, to_number_signed, to_number_unsigned, to_number_float,
      bind, Except.bind, pure, Except.pure] <;>
    first
    | (split_ifs <;> simp)
    | (rename_i d; cases d.toInt? <;> simp; split_ifs <;> simp)

theorem FieldKind.convert_error (kind : FieldKind) (v : JValue)
    (h : kind.accepts v = false) : kind.convert v = .error (kind.mismatch v) := by
  rcases FieldKind.convert_cases kind v with h' | h'
  · rw [(FieldKind.convert_ok_iff kind v).1 h'] at h; cases h
  · exact h'

theorem readFields_cons_of_accepts {obj : JObject} {key : String} {kind : FieldKind}
    {rest : List (String × FieldKind)} {v : JValue} (hv : obj.find key = some v)
    (ha : kind.accepts v = true) :
    readFields ((key, kind) :: rest) obj = readFields rest obj := by
  rw [readFields, JObject.atKey_ok.2 hv]
  show (do kind.convert v; readFields rest obj) = readFields rest obj
  rw [(FieldKind.convert_ok_iff kind v).2 ha]
  rfl

theorem WellTyped.cons_iff {obj : JObject} {f : String × FieldKind}
    {rest : List (String × FieldKind)} :
    WellTyped (f :: rest) obj ↔
      (∃ v, obj.find f.1 = some v ∧ f.2.accepts v = true) ∧ WellTyped rest obj := by
  simp [WellTyped]

theorem readFields_ok_iff (fields : List (String × FieldKind)) (obj : JObject) :
    readFields fields obj = .ok () ↔ WellTyped fields obj := by
  induction fields with
  | nil => simp [readFields, WellTyped]
  | cons f rest ih =>
    obtain ⟨key, kind⟩ := f
    rw [WellTyped.cons_iff, ← ih]
    constructor
    · intro h
      rw [readFields] at h
      cases hx : obj.atKey key with
      | error e => rw [hx] at h; cases h
      | ok v =>
        rw [hx] at h
        have h' : (do kind.convert v; readFields rest obj) = Except.ok () := h
        cases hc : kind.convert v with
        | error e => rw [hc] at h'; cases h'
        | ok u =>
          rw [hc] at h'
          exact ⟨⟨v, JObject.atKey_ok.1 hx, (FieldKind.convert_ok_iff kind v).1 hc⟩, h'⟩
    · rintro ⟨⟨v, hv, ha⟩, h⟩
      rw [readFields_cons_of_accepts hv ha]; exact h

/-- The fields before the first offending one do not show in the outcome. -/
theorem readFields_append_of_wellTyped {pre : List (String × FieldKind)} {obj : JObject}
    (h : WellTyped pre obj) (post : List (String × FieldKind)) :
    readFields (pre ++ post) obj = readFields post obj := by
  induction pre with
  | nil => rfl
  | cons f rest ih =>
    obtain ⟨key, kind⟩ := f
    obtain ⟨⟨v, hv, ha⟩, hr⟩ := WellTyped.cons_iff.1 h
    rw [List.cons_append, readFields_cons_of_accepts hv ha]
    exact ih hr

theorem readFields_missing {obj : JObject} {key : String} (kind : FieldKind)
    (rest : List (String × FieldKind)) (h : obj.find key = none) :
    readFields ((key, kind) :: rest) obj = .error .out_of_range := by
  rw [readFields, JObject.atKey_error.2 ⟨h, rfl⟩]
  rfl

theorem readFields_mismatch {obj : JObject} {key : String} {kind : FieldKind} {v : JValue}
    (rest : List (String × FieldKind)) (hv : obj.find key = some v)
    (ha : kind.accepts v = false) :
    readFields ((key, kind) :: rest) obj = .error (kind.mismatch v) := by
  rw [readFields, JObject.atKey_ok.2 hv]
  show (do kind.convert v; readFields rest obj) = _
  rw [FieldKind.convert_error kind v ha]
  rfl

theorem readFields_error_of_mem {fields : List (String × FieldKind)} {obj : JObject}
    {key : String} {kind : FieldKind} {v : JValue} (hm : (key, kind) ∈ fields)
    (hv : obj.find key = some v) (ha : kind.accepts v = false) :
    ∃ e, readFields fields obj = .error e := by
  cases h : readFields fields obj with
  | error e => exact ⟨e, rfl⟩
  | ok u =>
    cases u
    obtain ⟨w, hw, hw'⟩ := (readFields_ok_iff fields obj).1 h (key, kind) hm
    rw [hv] at hw
    cases hw
    rw [ha] at hw'
    cases hw'

/-! ## The decoders against their field tables -/

theorem Torrent.ctor_outcome (self : Torrent) (obj : JObject) :
    (Torrent.ctor self obj).map (fun _ => ()) = readFields Torrent.fields obj := by
  have h : (Torrent.ctor self obj).map (fun _ => ()) =
      (do readFields Torrent.fields obj; pure ()) := by
    unfold Torrent.ctor Torrent.fields
    repeat (refine readFields_step _ _ _ _ _ _ _ (fun _ => rfl) (fun _ => ?_))
    rfl
  rw [h]
  cases readFields Torrent.fields obj <;> rfl

theorem Torrent.GenericInfo.decode_outcome (info : Torrent.GenericInfo) (obj : JObject) :
    (Torrent.GenericInfo.decode info obj).map (fun _ => ()) =
      readFields Torrent.GenericInfo.fields obj := by
  have h : (Torrent.GenericInfo.decode info obj).map (fun _ => ()) =
      (do readFields Torrent.GenericInfo.fields obj; pure ()) := by
    unfold Torrent.GenericInfo.decode Torrent.GenericInfo.fields
    repeat (refine readFields_step _ _ _ _ _ _ _ (fun _ => rfl) (fun _ => ?_))
    rfl
  rw [h]
  cases readFields Torrent.GenericInfo.fields obj <;> rfl

theorem Torrent.ContentItem.item_outcome (self : Torrent.ContentItem) (obj : JObject) :
    (Torrent.ContentItem.ctor self obj).map (fun _ => ()) =
      (do readFields Torrent.ContentItem.fields obj
          if (obj.find "is_seed").isSome then
            (do let v ← obj.atKey "is_seed"; FieldKind.convert .bool v)
          else pure ()) := by
  unfold Torrent.ContentItem.ctor Torrent.ContentItem.fields
  repeat (refine readFields_step _ _ _ _ _ _ _ (fun _ => rfl) (fun _ => ?_))
  have e : ∀ g : Except JError Unit, (do readFields [] obj; g) = g := fun _ => rfl
  rw [e]
  split_ifs
  · cases hx : obj.atKey "is_seed" with
    | error e => rfl
    | ok v =>
      cases hy : value_to_bool v <;>
        simp [FieldKind.convert, hy, Except.map, bind, Except.bind, pure, Except.pure]
  · rfl

theorem Torrent.ctor_ok_of_wellTyped (self : Torrent) {obj : JObject}
    (h : WellTyped Torrent.fields obj) : ∃ t, Torrent.ctor self obj = .ok t := by
  have := Torrent.ctor_outcome self obj
  rw [(readFields_ok_iff _ _).2 h] at this
  exact (Except.map_unit_ok _).1 this

theorem Torrent.GenericInfo.decode_ok_of_wellTyped (info : Torrent.GenericInfo)
    {obj : JObject} (h : WellTyped Torrent.GenericInfo.fields obj) :
    ∃ t, Torrent.GenericInfo.decode info obj = .ok t := by
  have := Torrent.GenericInfo.decode_outcome info obj
  rw [(readFields_ok_iff _ _).2 h] at this
  exact (Except.map_unit_ok _).1 this

/-- What a successful `Torrent::Torrent` stored in `hash`, `state`, the four timestamps and
the cache. -/
theorem Torrent.ctor_ok_fields {self t : Torrent} {obj : JObject}
    (h : Torrent.ctor self obj = .ok t) :
    obj.find "hash" = some (.string t.hash) ∧
    (∃ s, obj.find "state" = some (.string s) ∧ t.state = strToState s) ∧
    (∃ v e, obj.find "added_on" = some v ∧ value_to_time_t v = .ok e ∧
      t.addedOn = from_time_t e) ∧
    (∃ v e, obj.find "completion_on" = some v ∧ value_to_time_t v = .ok e ∧
      t.completionOn = from_time_t e) ∧
    (∃ v e, obj.find "last_activity" = some v ∧ value_to_time_t v = .ok e ∧
      t.lastActivity = from_time_t e) ∧
    (∃ v e, obj.find "seen_complete" = some v ∧ value_to_time_t v = .ok e ∧
      t.seenComplete = from_time_t e) ∧
    t.genericInfo = none := by
  unfold Torrent.ctor at h
  obtain ⟨v0, a0, hv0, ha0, h⟩ := bind2_ok h
  obtain ⟨v1, a1, hv1, ha1, h⟩ := bind2_ok h
  obtain ⟨v2, a2, hv2, ha2, h⟩ := bind2_ok h
  obtain ⟨v3, a3, hv3, ha3, h⟩ := bind2_ok h
  obtain ⟨v4, a4, hv4, ha4, h⟩ := bind2_ok h
  obtain ⟨v5, a5, hv5, ha5, h⟩ := bind2_ok h
  obtain ⟨v6, a6, hv6, ha6, h⟩ := bind2_ok h
  obtain ⟨v7, a7, hv7, ha7, h⟩ := bind2_ok h
  obtain ⟨v8, a8, hv8, ha8, h⟩ := bind2_ok h
  obtain ⟨v9, a9, hv9, ha9, h⟩ := bind2_ok h
  obtain ⟨v10, a10, hv10, ha10, h⟩ := bind2_ok h
  obtain ⟨v11, a11, hv11, ha11, h⟩ := bind2_ok h
  obtain ⟨v12, a12, hv12, ha12, h⟩ := bind2_ok h
  obtain ⟨v13, a13, hv13, ha13, h⟩ := bind2_ok h
  obtain ⟨v14, a14, hv14, ha14, h⟩ := bind2_ok h
  obtain ⟨v15, a15, hv15, ha15, h⟩ := bind2_ok h
  obtain ⟨v16, a16, hv16, ha16, h⟩ := bind2_ok h
  obtain ⟨v17, a17, hv17, ha17, h⟩ := bind2_ok h
  obtain ⟨v18, a18, hv18, ha18, h⟩ := bind2_ok h
  obtain ⟨v19, a19, hv19, ha19, h⟩ := bind2_ok h
  obtain ⟨v20, a20, hv20, ha20, h⟩ := bind2_ok h
  obtain ⟨v21, a21, hv21, ha21, h⟩ := bind2_ok h
  obtain ⟨v22, a22, hv22, ha22, h⟩ := bind2_ok h
  obtain ⟨v23, a23, hv23, ha23, h⟩ := bind2_ok h
  obtain ⟨v24, a24, hv24, ha24, h⟩ := bind2_ok h
  obtain ⟨v25, a25, hv25, ha25, h⟩ := bind2_ok h
  obtain ⟨v26, a26, hv26, ha26, h⟩ := bind2_ok h
  obtain ⟨v27, a27, hv27, ha27, h⟩ := bind2_ok h
  obtain ⟨v28, a28, hv28, ha28, h⟩ := bind2_ok h
  obtain ⟨v29, a29, hv29, ha29, h⟩ := bind2_ok h
  obtain ⟨v30, a30, hv30, ha30, h⟩ := bind2_ok h
  obtain ⟨v31, a31, hv31, ha31, h⟩ := bind2_ok h
  obtain ⟨v32, a32, hv32, ha32, h⟩ := bind2_ok h
  obtain ⟨v33, a33, hv33, ha33, h⟩ := bind2_ok h
  obtain ⟨v34, a34, hv34, ha34, h⟩ := bind2_ok h
  obtain ⟨v35, a35, hv35, ha35, h⟩ := bind2_ok h
  obtain ⟨v36, a36, hv36, ha36, h⟩ := bind2_ok h
  obtain ⟨v37, a37, hv37, ha37, h⟩ := bind2_ok h
  obtain ⟨v38, a38, hv38, ha38, h⟩ := bind2_ok h
  obtain ⟨v39, a39, hv39, ha39, h⟩ := bind2_ok h
  obtain ⟨v40, a40, hv40, ha40, h⟩ := bind2_ok h
  obtain ⟨v41, a41, hv41, ha41, h⟩ := bind2_ok h
  obtain ⟨v42, a42, hv42, ha42, h⟩ := bind2_ok h
  obtain ⟨v43, a43, hv43, ha43, h⟩ := bind2_ok h
  obtain ⟨v44, a44, hv44, ha44, h⟩ := bind2_ok h
  obtain ⟨v45, a45, hv45, ha45, h⟩ := bind2_ok h
  cases h
  have hs : ∀ {v : JValue} {s : String}, value_to_string v = .ok s → v = .string s := by
    intro v s hv; cases v <;> simp [value_to_string] at hv; rw [hv]
  refine ⟨?_, ⟨a36, ?_, rfl⟩, ⟨v0, a0, hv0, ha0, rfl⟩,
    ⟨v6, a6, hv6, ha6, rfl⟩, ⟨v17, a17, hv17, ha17, rfl⟩,
    ⟨v33, a33, hv33, ha33, rfl⟩, rfl⟩
  · rw [hv15, hs ha15]
  · rw [hv36, hs ha36]

/-- What a successful decode of `GenericInfo` stored in the four timestamps, and what it
left in the two members the code never assigns. -/
theorem Torrent.GenericInfo.decode_ok_fields {info t : Torrent.GenericInfo} {obj : JObject}
    (h : Torrent.GenericInfo.decode info obj = .ok t) :
    (∃ v e, obj.find "creation_date" = some v ∧ value_to_time_t v = .ok e ∧
      t.creationDate = from_time_t e) ∧
    (∃ v e, obj.find "addition_date" = some v ∧ value_to_time_t v = .ok e ∧
      t.additionDate = from_time_t e) ∧
    (∃ v e, obj.find "completion_date" = some v ∧ value_to_time_t v = .ok e ∧
      t.completionDate = from_time_t e) ∧
    (∃ v e, obj.find "last_seen" = some v ∧ value_to_time_t v = .ok e ∧
      t.lastSeen = from_time_t e) ∧
    t.totalDownloaded = info.totalDownloaded ∧
    t.totalDownloadedSession = info.totalDownloadedSession := by
  unfold Torrent.GenericInfo.decode at h
  obtain ⟨v0, a0, hv0, ha0, h⟩ := bind2_ok h
  obtain ⟨v1, a1, hv1, ha1, h⟩ := bind2_ok h
  obtain ⟨v2, a2, hv2, ha2, h⟩ := bind2_ok h
  obtain ⟨v3, a3, hv3, ha3, h⟩ := bind2_ok h
  obtain ⟨v4, a4, hv4, ha4, h⟩ := bind2_ok h
  obtain ⟨v5, a5, hv5, ha5, h⟩ := bind2_ok h
  obtain ⟨v6, a6, hv6, ha6, h⟩ := bind2_ok h
  obtain ⟨v7, a7, hv7, ha7, h⟩ := bind2_ok h
  obtain ⟨v8, a8, hv8, ha8, h⟩ := bind2_ok h
  obtain ⟨v9, a9, hv9, ha9, h⟩ := bind2_ok h
  obtain ⟨v10, a10, hv10, ha10, h⟩ := bind2_ok h
  obtain ⟨v11, a11, hv11, ha11, h⟩ := bind2_ok h
  obtain ⟨v12, a12, hv12, ha12, h⟩ := bind2_ok h
  obtain ⟨v13, a13, hv13, ha13, h⟩ := bind2_ok h
  obtain ⟨v14, a14, hv14, ha14, h⟩ := bind2_ok h
  obtain ⟨v15, a15, hv15, ha15, h⟩ := bind2_ok h
  obtain ⟨v16, a16, hv16, ha16, h⟩ := bind2_ok h
  obtain ⟨v17, a17, hv17, ha17, h⟩ := bind2_ok h
  obtain ⟨v18, a18, hv18, ha18, h⟩ := bind2_ok h
  obtain ⟨v19, a19, hv19, ha19, h⟩ := bind2_ok h
  obtain ⟨v20, a20, hv20, ha20, h⟩ := bind2_ok h
  obtain ⟨v21, a21, hv21, ha21, h⟩ := bind2_ok h
  obtain ⟨v22, a22, hv22, ha22, h⟩ := bind2_ok h
  obtain ⟨v23, a23, hv23, ha23, h⟩ := bind2_ok h
  obtain ⟨v24, a24, hv24, ha24, h⟩ := bind2_ok h
  obtain ⟨v25, a25, hv25, ha25, h⟩ := bind2_ok h
  obtain ⟨v26, a26, hv26, ha26, h⟩ := bind2_ok h
  obtain ⟨v27, a27, hv27, ha27, h⟩ := bind2_ok h
  obtain ⟨v28, a28, hv28, ha28, h⟩ := bind2_ok h
  obtain ⟨v29, a29, hv29, ha29, h⟩ := bind2_ok h
  obtain ⟨v30, a30, hv30, ha30, h⟩ := bind2_ok h
  cases h
  exact ⟨⟨v1, a1, hv1, ha1, rfl⟩, ⟨v14, a14, hv14, ha14, rfl⟩,
    ⟨v15, a15, hv15, ha15, rfl⟩, ⟨v20, a20, hv20, ha20, rfl⟩, rfl, rfl⟩

theorem Torrent.ContentItem.item_ok_of_wellTyped (self : Torrent.ContentItem) {obj : JObject}
    (h : WellTyped Torrent.ContentItem.fields obj)
    (hs : obj.find "is_seed" = none ∨ ∃ b, obj.find "is_seed" = some (.bool b)) :
    ∃ c, Torrent.ContentItem.ctor self obj = .ok c := by
  have := Torrent.ContentItem.item_outcome self obj
  rw [(readFields_ok_iff _ _).2 h] at this
  apply (Except.map_unit_ok _).1
  rw [this]
  rcases hs with hs | ⟨b, hs⟩
  · rw [hs]; rfl
  · rw [hs, JObject.atKey_ok.2 hs]; rfl

/-- What a successful `ContentItem` constructor stored in `isSeed`. -/
theorem Torrent.ContentItem.ctor_ok_isSeed {self c : Torrent.ContentItem} {obj : JObject}
    (h : Torrent.ContentItem.ctor self obj = .ok c) :
    (obj.find "is_seed" = none → c.isSeed = false) ∧
    (∀ v, obj.find "is_seed" = some v → v = .bool c.isSeed) := by
  unfold Torrent.ContentItem.ctor at h
  obtain ⟨v0, a0, hv0, ha0, h⟩ := bind2_ok h
  obtain ⟨v1, a1, hv1, ha1, h⟩ := bind2_ok h
  obtain ⟨v2, a2, hv2, ha2, h⟩ := bind2_ok h
  obtain ⟨v3, a3, hv3, ha3, h⟩ := bind2_ok h
  obtain ⟨v4, a4, hv4, ha4, h⟩ := bind2_ok h
  obtain ⟨v5, a5, hv5, ha5, h⟩ := bind2_ok h
  cases hf : obj.find "is_seed" with
  | none =>
    rw [hf] at h
    cases h
    exact ⟨fun _ => rfl, fun v hv => by cases hv⟩
  | some w =>
    rw [hf, JObject.atKey_ok.2 hf] at h
    refine ⟨fun hn => (by cases hn), fun v hv => ?_⟩
    cases hv
    cases w <;> (cases h; try rfl)

/-! ## Session -/

theorem curl_easy_perform_some (env : Env) (h : CURL) (resp : String) (log : List CURL) :
    curl_easy_perform env (some h) resp log =
      ((env.perform log h).1, (env.perform log h).2.foldl (fun s chunk => s ++ chunk) resp,
        log ++ [h]) := rfl

theorem fmt_format_url (b e : String) :
    fmt_format "\x7b\x7d/api/v2/\x7b\x7d" [b, e] = b ++ "/api/v2/" ++ e := by
  unfold fmt_format
  have h : "\x7b\x7d/api/v2/\x7b\x7d".toList =
      ['\x7b', '\x7d', '/', 'a', 'p', 'i', '/', 'v', '2', '/', '\x7b', '\x7d'] := rfl
  rw [h]
  simp only [fmt_format.go, List.append_nil]
  apply String.ext
  simp

theorem Qbittorrent.buildUrl_eq (self : Qbittorrent) (endpoint : String) :
    self.buildUrl endpoint = self.baseUrl ++ "/api/v2/" ++ endpoint :=
  fmt_format_url _ _

theorem Qbittorrent.login_true_iff (env : Env) (self : Qbittorrent) (log : List CURL) :
    (self.login env log).1 = true ↔
      ∃ h, (self.login env log).2.2 = log ++ [h] ∧ h.method = .post ∧
        h.url = self.baseUrl ++ "/api/v2/auth/login" ∧
        (env.perform log h).1 = CURLE_OK ∧ String.join (env.perform log h).2 = "Ok." := by
  unfold Qbittorrent.login POST
  rw [Qbittorrent.buildUrl_eq]
  cases hc : self.curl with
  | none =>
    simp [curl_easy_perform, CURLE_BAD_FUNCTION_ARGUMENT, CURLE_OK]
  | some c =>
    simp only [Option.map_some', curl_easy_perform_some]
    have hurl : self.baseUrl ++ "/api/v2/" ++ "auth/login" =
        self.baseUrl ++ "/api/v2/auth/login" := by
      rw [String.append_assoc]; rfl
    have hj : ∀ l : List String,
        List.foldl (fun s chunk => s ++ chunk) "" l = String.join l := fun _ => rfl
    simp only [hj]
    split_ifs with h1 h2
    · constructor
      · intro h; cases h
      · rintro ⟨h, hh, _, _, hcode, _⟩
        obtain rfl := List.singleton_injective (List.append_cancel_left hh)
        exact absurd hcode h1
    · constructor
      · intro h; cases h
      · rintro ⟨h, hh, _, _, _, hbody⟩
        obtain rfl := List.singleton_injective (List.append_cancel_left hh)
        exact absurd hbody h2
    · simp only [ne_eq, not_not] at h1 h2
      simp only [true_iff]
      exact ⟨_, rfl, rfl, hurl, h1, h2⟩

theorem Qbittorrent.init_of_no_handle (env : Env) (self : Qbittorrent) (log : List CURL)
    (h : env.easy_init_ok = false) :
    self.init env log = (.error "Failed to initialize CURL session.", log) := by
  unfold Qbittorrent.init
  simp [h]

theorem Qbittorrent.init_of_handle (env : Env) (self : Qbittorrent) (log : List CURL)
    (h : env.easy_init_ok = true) :
    ∃ s : Qbittorrent, s.baseUrl = self.baseUrl ∧
      self.init env log =
        (if !(s.login env log).1 then (.error "Authentication failed", (s.login env log).2.2)
         else (.ok (s.login env log).2.1, (s.login env log).2.2)) := by
  unfold Qbittorrent.init
  simp only [h, if_true, Option.isNone_some, Bool.false_eq_true, if_false]
  refine ⟨_, ?_, rfl⟩
  cases self.insecure <;> cases self.appPassword <;> simp <;> split_ifs <;> rfl

theorem Qbittorrent.init_ok_iff (env : Env) (self : Qbittorrent) (log : List CURL) :
    (∃ s, (self.init env log).1 = .ok s) ↔
      env.easy_init_ok = true ∧
      ∃ h, (self.init env log).2 = log ++ [h] ∧ h.method = .post ∧
        h.url = self.baseUrl ++ "/api/v2/auth/login" ∧
        (env.perform log h).1 = CURLE_OK ∧ String.join (env.perform log h).2 = "Ok." := by
  cases hi : env.easy_init_ok with
  | false =>
    rw [Qbittorrent.init_of_no_handle env self log hi]
    simp
  | true =>
    obtain ⟨s, hb, hs⟩ := Qbittorrent.init_of_handle env self log hi
    rw [hs, ← hb]
    have hl := Qbittorrent.login_true_iff env s log
    cases hr : (s.login env log).1 with
    | false =>
      rw [hr] at hl
      simp only [Bool.not_false, if_true, true_and]
      constructor
      · rintro ⟨_, h⟩; cases h
      · intro h; exact absurd (hl.2 h) (by simp)
    | true =>
      rw [hr] at hl
      simp only [Bool.not_true, Bool.false_eq_true, if_false, true_and]
      exact ⟨fun _ => hl.1 rfl, fun _ => ⟨_, rfl⟩⟩

/-! ## Decoding -/

/-- C2: a string that is none of the known state names is mapped by `strToState` to
`unknown`, and a `Torrent` object whose `state` is such a string (all fields present and
well-typed) decodes successfully with `state = unknown`. -/
theorem strToState_unrecognized (s : String) (hs : s ∉ knownStateNames) :
    strToState s = .unknown ∧
    ∀ (self : Torrent) (obj : JObject), obj.find "state" = some (.string s) →
      WellTyped Torrent.fields obj →
      ∃ t, Torrent.ctor self obj = .ok t ∧ t.state = .unknown := by
  have h1 : strToState s = .unknown := by
    simp only [knownStateNames, List.mem_cons, List.mem_singleton, not_or, List.mem_nil_iff,
      or_false] at hs
    unfold strToState
    simp [hs]
  refine ⟨h1, fun self obj hstate hwt => ?_⟩
  obtain ⟨t, ht⟩ := Torrent.ctor_ok_of_wellTyped self hwt
  obtain ⟨_, ⟨s', hs', hst⟩, _⟩ := Torrent.ctor_ok_fields ht
  rw [hstate] at hs'
  cases hs'
  exact ⟨t, ht, hst.trans h1⟩

/-- C2 at the case variant `"Error"`: the sample torrent with `state` set to `"Error"` decodes
with `state = unknown`. -/
theorem strToState_unrecognized_witness :
    "Error" ∉ knownStateNames ∧ strToState "Error" = .unknown ∧
    ∃ t, Torrent.ctor Torrent.storage (sampleTorrent.replace "state" (.string "Error")) = .ok t ∧
      t.state = .unknown :=
  ⟨by decide, (strToState_unrecognized "Error" (by decide)).1,
    (strToState_unrecognized "Error" (by decide)).2 Torrent.storage _ (by rfl) (by decide)⟩

/-- C3: `strToState` maps seventeen of the eighteen known state names to the member of the same
name, but maps `"queuedDL"`, for which the chain of comparisons has no branch, to
`unknown`. -/
theorem strToState_queuedDL :
    strToState "queuedDL" = .unknown ∧
    strToState "error" = .error ∧ strToState "missingFiles" = .missingFiles ∧
    strToState "uploading" = .uploading ∧ strToState "pausedUP" = .pausedUP ∧
    strToState "pausedDL" = .pausedDL ∧ strToState "queuedUP" = .queuedUP ∧
    strToState "stalledUP" = .stalledUP ∧ strToState "stalledDL" = .stalledDL ∧
    strToState "checkingUP" = .checkingUP ∧ strToState "checkingDL" = .checkingDL ∧
    strToState "checkingResumeData" = .checkingResumeData ∧
    strToState "forcedUP" = .forcedUP ∧ strToState "forcedDL" = .forcedDL ∧
    strToState "allocating" = .allocating ∧ strToState "downloading" = .downloading ∧
    strToState "metaDL" = .metaDL ∧ strToState "moving" = .moving := by
  decide

/-- C4: for an object whose required `ContentItem` fields are present and well-typed, the
decoded item has `isSeed = false` when the key `is_seed` is absent and `isSeed = b` when
`is_seed` is present with the boolean `b`. -/
theorem ContentItem_isSeed (self : Torrent.ContentItem) (obj : JObject)
    (h : WellTyped Torrent.ContentItem.fields obj) :
    (obj.find "is_seed" = none →
      ∃ c, Torrent.ContentItem.ctor self obj = .ok c ∧ c.isSeed = false) ∧
    (∀ b, obj.find "is_seed" = some (.bool b) →
      ∃ c, Torrent.ContentItem.ctor self obj = .ok c ∧ c.isSeed = b) := by
  constructor
  · intro hn
    obtain ⟨c, hc⟩ := Torrent.ContentItem.item_ok_of_wellTyped self h (Or.inl hn)
    exact ⟨c, hc, (Torrent.ContentItem.ctor_ok_isSeed hc).1 hn⟩
  · intro b hb
    obtain ⟨c, hc⟩ := Torrent.ContentItem.item_ok_of_wellTyped self h (Or.inr ⟨b, hb⟩)
    have := (Torrent.ContentItem.ctor_ok_isSeed hc).2 _ hb
    exact ⟨c, hc, by cases this; rfl⟩

/-- C4 at the sample file: without `is_seed` it decodes with `isSeed = false` although the
storage held `true`, and with `is_seed: true` with `isSeed = true`. -/
theorem ContentItem_isSeed_witness :
    WellTyped Torrent.ContentItem.fields sampleFile ∧
    WellTyped Torrent.ContentItem.fields (sampleFile ++ [("is_seed", .bool true)]) ∧
    (∃ c, Torrent.ContentItem.ctor Torrent.ContentItem.storage sampleFile = .ok c ∧
      c.isSeed = false) ∧
    (∃ c, Torrent.ContentItem.ctor Torrent.ContentItem.storage
      (sampleFile ++ [("is_seed", .bool true)]) = .ok c ∧ c.isSeed = true) :=
  ⟨by decide, by decide,
    (ContentItem_isSeed Torrent.ContentItem.storage sampleFile (by decide)).1 (by rfl),
    (ContentItem_isSeed Torrent.ContentItem.storage
      (sampleFile ++ [("is_seed", .bool true)]) (by decide)).2 true (by rfl)⟩

theorem Torrent.ctor_error_of_readFields {self : Torrent} {obj : JObject} {e : JError}
    (h : readFields Torrent.fields obj = .error e) : Torrent.ctor self obj = .error e :=
  (Except.map_unit_error _ _).1 ((Torrent.ctor_outcome self obj).trans h)

theorem Torrent.ContentItem.item_error_of_readFields {self : Torrent.ContentItem}
    {obj : JObject} {e : JError} (h : readFields Torrent.ContentItem.fields obj = .error e) :
    Torrent.ContentItem.ctor self obj = .error e := by
  apply (Except.map_unit_error _ _).1
  rw [Torrent.ContentItem.item_outcome, h]
  rfl

theorem WellTyped.mono {fields fields' : List (String × FieldKind)} {obj : JObject}
    (h : WellTyped fields' obj) (hs : ∀ f ∈ fields, f ∈ fields') : WellTyped fields obj :=
  fun f hf => h f (hs f hf)

/-- C5 (amended): for an object that lacks the key `hash`, all other `Torrent` fields present
and well-typed, the constructor fails, with the `out_of_range` error of `object::at`, and
yields no object. The error is the same for every missing key and carries no field name. -/
theorem Torrent_missing_hash (self : Torrent) (obj : JObject) (hh : obj.find "hash" = none)
    (hw : WellTyped (Torrent.fields.filter fun f => f.1 ≠ "hash") obj) :
    Torrent.ctor self obj = .error .out_of_range := by
  apply Torrent.ctor_error_of_readFields
  have hsplit : Torrent.fields =
      Torrent.fields.take 15 ++ ("hash", .string) :: Torrent.fields.drop 16 := by decide
  have hpre : WellTyped (Torrent.fields.take 15) obj := by
    refine WellTyped.mono hw fun f hf => List.mem_filter.2 ⟨List.mem_of_mem_take hf, ?_⟩
    revert f
    decide
  rw [hsplit, readFields_append_of_wellTyped hpre]
  exact readFields_missing _ _ hh

/-- C5 (amended) at the sample torrent with `hash` removed. -/
theorem Torrent_missing_hash_witness :
    (sampleTorrent.erase "hash").find "hash" = none ∧
    WellTyped (Torrent.fields.filter fun f => f.1 ≠ "hash") (sampleTorrent.erase "hash") ∧
    Torrent.ctor Torrent.storage (sampleTorrent.erase "hash") = .error .out_of_range :=
  ⟨by rfl, by decide,
    Torrent_missing_hash Torrent.storage (sampleTorrent.erase "hash") (by rfl) (by decide)⟩

/-- C5 as stated fails: the sample torrent without `hash` and the sample torrent without
`tracker` fail with the same error, `out_of_range`, so nothing read off the error identifies
the missing field. -/
theorem missing_field_error_names_no_field :
    Torrent.ctor Torrent.storage (sampleTorrent.erase "hash") = .error .out_of_range ∧
    Torrent.ctor Torrent.storage (sampleTorrent.erase "tracker") = .error .out_of_range ∧
    ¬ ∃ fieldOf : JError → String,
      (∀ e, Torrent.ctor Torrent.storage (sampleTorrent.erase "hash") = .error e →
        fieldOf e = "hash") ∧
      (∀ e, Torrent.ctor Torrent.storage (sampleTorrent.erase "tracker") = .error e →
        fieldOf e = "tracker") := by
  have h1 : Torrent.ctor Torrent.storage (sampleTorrent.erase "hash") =
      .error .out_of_range := rfl
  have h2 : Torrent.ctor Torrent.storage (sampleTorrent.erase "tracker") =
      .error .out_of_range := rfl
  refine ⟨h1, h2, ?_⟩
  rintro ⟨fieldOf, ha, hb⟩
  have := (ha _ h1).symm.trans (hb _ h2)
  exact absurd this (by decide)

/-! ## Torrent list -/

theorem Qbittorrent.getTorrentList.loop_ok (uninit : Torrent) (vs : List JValue)
    (hd : ∀ v ∈ vs, ∃ obj t, v = .object obj ∧ Torrent.ctor uninit obj = .ok t)
    (output : List Torrent) :
    ∃ ts : List Torrent,
      Qbittorrent.getTorrentList.loop uninit vs output = (.ok (), output ++ ts) ∧
      List.Forall₂ (fun v t => ∃ obj, v = .object obj ∧ Torrent.ctor uninit obj = .ok t ∧
        obj.find "hash" = some (.string t.hash)) vs ts := by
  induction vs generalizing output with
  | nil => exact ⟨[], by simp [Qbittorrent.getTorrentList.loop], List.Forall₂.nil⟩
  | cons v rest ih =>
    obtain ⟨obj, t, rfl, ht⟩ := hd v (List.mem_cons_self _ _)
    obtain ⟨ts, hts, hall⟩ := ih (fun w hw => hd w (List.mem_cons_of_mem _ hw)) (output ++ [t])
    refine ⟨t :: ts, ?_, List.Forall₂.cons ⟨obj, rfl, ht, (Torrent.ctor_ok_fields ht).1⟩ hall⟩
    rw [Qbittorrent.getTorrentList.loop]
    simp only [JValue.as_object, ht, hts, List.append_assoc, List.singleton_append]

/-- C6: when the response body parses to an array of `N` objects each of which decodes as a
`Torrent`, `getTorrentList` returns normally having appended exactly `N` records to its
output, the `i`-th being the decode of the `i`-th element, with `hash` equal to the string
under that element's key `hash`. -/
theorem getTorrentList_writes_all (env : Env) (self : Qbittorrent) (uninit : Torrent)
    (output : List Torrent) (log : List CURL) (vs : List JValue)
    (hp : env.parse (GET env self.curl (self.buildUrl "torrents/info") "" log).2.2.1 =
      .ok (.array vs))
    (hd : ∀ v ∈ vs, ∃ obj t, v = .object obj ∧ Torrent.ctor uninit obj = .ok t) :
    ∃ ts : List Torrent,
      (self.getTorrentList env uninit output log).1 = .ok () ∧
      (self.getTorrentList env uninit output log).2.1 = output ++ ts ∧
      ts.length = vs.length ∧
      List.Forall₂ (fun v t => ∃ obj, v = .object obj ∧ Torrent.ctor uninit obj = .ok t ∧
        obj.find "hash" = some (.string t.hash)) vs ts := by
  obtain ⟨ts, hts, hall⟩ := Qbittorrent.getTorrentList.loop_ok uninit vs hd output
  refine ⟨ts, ?_, ?_, hall.length_eq.symm, hall⟩
  · unfold Qbittorrent.getTorrentList
    simp only [hp, JValue.as_array, hts]
  · unfold Qbittorrent.getTorrentList
    simp only [hp, JValue.as_array, hts]

/-- C6 at a response of two torrents delivered in two chunks: two records are written, in
order, with the hashes of the two elements. -/
theorem getTorrentList_writes_all_witness :
    ∃ ts : List Torrent,
      (sampleSession.getTorrentList sampleEnv Torrent.storage [] []).1 = .ok () ∧
      (sampleSession.getTorrentList sampleEnv Torrent.storage [] []).2.1 = [] ++ ts ∧
      ts.length = 2 ∧
      ts.map (fun t => t.hash) =
        ["8c212779b4abde7c6bc608063a0d008b7e40ce32", "0f1e2d3c4b5a69788796a5b4c3d2e1f001234567"] := by
  obtain ⟨ts, h1, h2, h3, h4⟩ := getTorrentList_writes_all sampleEnv sampleSession
    Torrent.storage [] []
    [.object sampleTorrent,
      .object (sampleTorrent.replace "hash" (.string "0f1e2d3c4b5a69788796a5b4c3d2e1f001234567"))]
    (by rfl)
    (by
      intro v hv
      simp only [List.mem_cons, List.mem_singleton, List.mem_nil_iff, or_false] at hv
      rcases hv with rfl | rfl
      · obtain ⟨t, ht⟩ := Torrent.ctor_ok_of_wellTyped Torrent.storage
          (show WellTyped Torrent.fields sampleTorrent by decide)
        exact ⟨_, t, rfl, ht⟩
      · obtain ⟨t, ht⟩ := Torrent.ctor_ok_of_wellTyped Torrent.storage
          (show WellTyped Torrent.fields (sampleTorrent.replace "hash"
            (.string "0f1e2d3c4b5a69788796a5b4c3d2e1f001234567")) by decide)
        exact ⟨_, t, rfl, ht⟩)
  refine ⟨ts, h1, h2, h3, ?_⟩
  obtain ⟨a, ts1, ⟨o1, e1, _, f1⟩, h5, rfl⟩ := List.forall₂_cons_left_iff.1 h4
  obtain ⟨b, ts2, ⟨o2, e2, _, f2⟩, h6, rfl⟩ := List.forall₂_cons_left_iff.1 h5
  obtain rfl := List.forall₂_nil_left_iff.1 h6
  obtain rfl := JValue.object.inj e1
  obtain rfl := JValue.object.inj e2
  have g1 : a.hash = "8c212779b4abde7c6bc608063a0d008b7e40ce32" :=
    (JValue.string.inj (Option.some.inj f1)).symm
  have g2 : b.hash = "0f1e2d3c4b5a69788796a5b4c3d2e1f001234567" :=
    (JValue.string.inj (Option.some.inj f2)).symm
  simp only [List.map_cons, List.map_nil, g1, g2]

/-! ## Timestamps -/

theorem day_number_epoch : day_number 1970 1 1 = 2440588 := by decide

theorem from_time_t_time_count (t : Int) (h : -9223372036854 ≤ t ∧ t ≤ 9012505233654) :
    (from_time_t t).time_count = instantAfterEpoch t := by
  simp only [from_time_t, ptime.add, seconds, time_duration.hms, ptime.ofDate, wrap64,
    instantAfterEpoch, day_number_epoch, frac_sec_per_day]
  omega

theorem from_time_t_not_special (t : Int) (h : -9223372036854 ≤ t ∧ t ≤ 9012505233654) :
    (from_time_t t).is_special = false ∧ from_time_t t ≠ ptime.not_a_date_time := by
  have hc := from_time_t_time_count t h
  simp only [instantAfterEpoch, day_number_epoch, frac_sec_per_day] at hc
  constructor
  · simp only [ptime.is_special, hc, Bool.or_eq_false_iff, beq_eq_false_iff_ne, ne_eq]
    omega
  · intro he
    rw [he] at hc
    simp only [ptime.not_a_date_time] at hc
    omega

theorem timestamp_of_ok {obj : JObject} {key : String} {p : ptime} {t : Int}
    (h : ∃ v e, obj.find key = some v ∧ value_to_time_t v = .ok e ∧ p = from_time_t e) :
    ∀ v, obj.find key = some v → value_to_time_t v = .ok t → p = from_time_t t := by
  obtain ⟨v, e, hv, he, hp⟩ := h
  intro w hw ht
  rw [hv] at hw
  cases hw
  rw [he] at ht
  cases ht
  exact hp

/-- C7 (amended): for an epoch-seconds value `t` with `-9223372036854 ≤ t ≤ 9012505233654` (the
values for which neither `t * 1000000` nor the sum with the epoch leaves 64 bits),
`from_time_t t` is the instant `1970-01-01T00:00:00Z` plus `t` seconds, and so is each of the
eight timestamp members decoded from a field whose value converts to `t`; `1700000000` decodes
to `2023-11-14T22:13:20`. -/
theorem timestamp_is_epoch_plus_seconds (t : Int)
    (ht : -9223372036854 ≤ t ∧ t ≤ 9012505233654) :
    (from_time_t t).time_count = instantAfterEpoch t ∧
    (∀ (self tr : Torrent) (obj : JObject), Torrent.ctor self obj = .ok tr →
      (∀ v, obj.find "added_on" = some v → value_to_time_t v = .ok t →
        tr.addedOn.time_count = instantAfterEpoch t) ∧
      (∀ v, obj.find "completion_on" = some v → value_to_time_t v = .ok t →
        tr.completionOn.time_count = instantAfterEpoch t) ∧
      (∀ v, obj.find "last_activity" = some v → value_to_time_t v = .ok t →
        tr.lastActivity.time_count = instantAfterEpoch t) ∧
      (∀ v, obj.find "seen_complete" = some v → value_to_time_t v = .ok t →
        tr.seenComplete.time_count = instantAfterEpoch t)) ∧
    (∀ (info r : Torrent.GenericInfo) (obj : JObject),
      Torrent.GenericInfo.decode info obj = .ok r →
      (∀ v, obj.find "creation_date" = some v → value_to_time_t v = .ok t →
        r.creationDate.time_count = instantAfterEpoch t) ∧
      (∀ v, obj.find "addition_date" = some v → value_to_time_t v = .ok t →
        r.additionDate.time_count = instantAfterEpoch t) ∧
      (∀ v, obj.find "completion_date" = some v → value_to_time_t v = .ok t →
        r.completionDate.time_count = instantAfterEpoch t) ∧
      (∀ v, obj.find "last_seen" = some v → value_to_time_t v = .ok t →
        r.lastSeen.time_count = instantAfterEpoch t)) ∧
    from_time_t 1700000000 = ptime.ofDateTime 2023 11 14 (time_duration.hms 22 13 20) ∧
    (from_time_t 1700000000).date = (2023, 11, 14) ∧
    (from_time_t 1700000000).time_of_day = (22, 13, 20, 0) := by
  have hc := from_time_t_time_count t ht
  refine ⟨hc, ?_, ?_, by decide, by decide, by decide⟩
  · intro self tr obj h
    obtain ⟨_, _, h1, h2, h3, h4, _⟩ := Torrent.ctor_ok_fields h
    exact ⟨fun v hv hk => by rw [timestamp_of_ok h1 v hv hk, hc],
      fun v hv hk => by rw [timestamp_of_ok h2 v hv hk, hc],
      fun v hv hk => by rw [timestamp_of_ok h3 v hv hk, hc],
      fun v hv hk => by rw [timestamp_of_ok h4 v hv hk, hc]⟩
  · intro info r obj h
    obtain ⟨h1, h2, h3, h4, _⟩ := Torrent.GenericInfo.decode_ok_fields h
    exact ⟨fun v hv hk => by rw [timestamp_of_ok h1 v hv hk, hc],
      fun v hv hk => by rw [timestamp_of_ok h2 v hv hk, hc],
      fun v hv hk => by rw [timestamp_of_ok h3 v hv hk, hc],
      fun v hv hk => by rw [timestamp_of_ok h4 v hv hk, hc]⟩

/-- C7 (amended) at `1700000000`: the sample torrent, whose `added_on` is `1700000000`, decodes
with `addedOn` equal to `2023-11-14T22:13:20`. -/
theorem timestamp_is_epoch_plus_seconds_witness :
    (-9223372036854 ≤ (1700000000 : Int) ∧ (1700000000 : Int) ≤ 9012505233654) ∧
    (from_time_t 1700000000).time_count = instantAfterEpoch 1700000000 ∧
    ∃ tr, Torrent.ctor Torrent.storage sampleTorrent = .ok tr ∧
      tr.addedOn.time_count = instantAfterEpoch 1700000000 ∧
      tr.addedOn = ptime.ofDateTime 2023 11 14 (time_duration.hms 22 13 20) := by
  obtain ⟨tr, htr⟩ := Torrent.ctor_ok_of_wellTyped Torrent.storage
    (show WellTyped Torrent.fields sampleTorrent by decide)
  have h := timestamp_is_epoch_plus_seconds 1700000000 (by decide)
  have h1 := (h.2.1 Torrent.storage tr sampleTorrent htr).1 (.int64 1700000000) (by rfl) (by rfl)
  refine ⟨by decide, h.1, tr, htr, h1, ?_⟩
  have h2 : (ptime.ofDateTime 2023 11 14 (time_duration.hms 22 13 20)).time_count =
      instantAfterEpoch 1700000000 := by decide
  cases hta : tr.addedOn with
  | mk c =>
    rw [hta] at h1
    simp only at h1
    rw [h1, ← h2]

/-- C7 as stated fails outside that range: `9223372036854775807` is a value `added_on` can
hold, and it decodes to `1969-12-31T23:59:59`, not to the epoch plus that many seconds. -/
theorem timestamp_overflow :
    value_to_time_t (.int64 9223372036854775807) = .ok 9223372036854775807 ∧
    from_time_t 9223372036854775807 =
      ptime.ofDateTime 1969 12 31 (time_duration.hms 23 59 59) ∧
    (from_time_t 9223372036854775807).time_count ≠ instantAfterEpoch 9223372036854775807 ∧
    ∃ tr, Torrent.ctor Torrent.storage
        (sampleTorrent.replace "added_on" (.int64 9223372036854775807)) = .ok tr ∧
      tr.addedOn.time_count ≠ instantAfterEpoch 9223372036854775807 := by
  refine ⟨by rfl, by decide, by decide, ?_⟩
  obtain ⟨tr, htr⟩ := Torrent.ctor_ok_of_wellTyped Torrent.storage
    (show WellTyped Torrent.fields
      (sampleTorrent.replace "added_on" (.int64 9223372036854775807)) by decide)
  obtain ⟨_, _, h1, _⟩ := Torrent.ctor_ok_fields htr
  have := timestamp_of_ok h1 (.int64 9223372036854775807) (by rfl)
    (show value_to_time_t (.int64 9223372036854775807) = .ok 9223372036854775807 by rfl)
  exact ⟨tr, htr, by rw [this]; decide⟩

/-- C8 (amended): a zero or negative epoch-seconds value `t` (down to `-9223372036854`) decodes
like any other value, to the real instant `1970-01-01T00:00:00Z` plus `t` seconds: the result
is no special value of `ptime` (in particular not `not_a_date_time`), lies at or before the
epoch, and for `t = 0` is exactly `1970-01-01T00:00:00Z`. The same holds of the timestamp
members decoded from a field whose value converts to `t`. -/
theorem nonpositive_epoch_is_real_instant (t : Int) (ht : -9223372036854 ≤ t ∧ t ≤ 0) :
    (from_time_t t).time_count = instantAfterEpoch t ∧
    (from_time_t t).is_special = false ∧
    from_time_t t ≠ ptime.not_a_date_time ∧
    (from_time_t t).time_count ≤ (ptime.ofDate 1970 1 1).time_count ∧
    (t = 0 → from_time_t t = ptime.ofDate 1970 1 1) ∧
    (∀ (self tr : Torrent) (obj : JObject), Torrent.ctor self obj = .ok tr →
      (∀ v, obj.find "added_on" = some v → value_to_time_t v = .ok t →
        tr.addedOn = from_time_t t) ∧
      (∀ v, obj.find "completion_on" = some v → value_to_time_t v = .ok t →
        tr.completionOn = from_time_t t) ∧
      (∀ v, obj.find "last_activity" = some v → value_to_time_t v = .ok t →
        tr.lastActivity = from_time_t t) ∧
      (∀ v, obj.find "seen_complete" = some v → value_to_time_t v = .ok t →
        tr.seenComplete = from_time_t t)) ∧
    (∀ (info r : Torrent.GenericInfo) (obj : JObject),
      Torrent.GenericInfo.decode info obj = .ok r →
      (∀ v, obj.find "creation_date" = some v → value_to_time_t v = .ok t →
        r.creationDate = from_time_t t) ∧
      (∀ v, obj.find "addition_date" = some v → value_to_time_t v = .ok t →
        r.additionDate = from_time_t t) ∧
      (∀ v, obj.find "completion_date" = some v → value_to_time_t v = .ok t →
        r.completionDate = from_time_t t) ∧
      (∀ v, obj.find "last_seen" = some v → value_to_time_t v = .ok t →
        r.lastSeen = from_time_t t)) := by
  have hr : -9223372036854 ≤ t ∧ t ≤ 9012505233654 := ⟨ht.1, by omega⟩
  have hc := from_time_t_time_count t hr
  have hs := from_time_t_not_special t hr
  have he : (ptime.ofDate 1970 1 1).time_count = instantAfterEpoch 0 := by decide
  refine ⟨hc, hs.1, hs.2, ?_, ?_, ?_, ?_⟩
  · rw [hc, he]
    simp only [instantAfterEpoch]
    omega
  · intro h0
    subst h0
    decide
  · intro self tr obj h
    obtain ⟨_, _, h1, h2, h3, h4, _⟩ := Torrent.ctor_ok_fields h
    exact ⟨timestamp_of_ok h1, timestamp_of_ok h2, timestamp_of_ok h3, timestamp_of_ok h4⟩
  · intro info r obj h
    obtain ⟨h1, h2, h3, h4, _⟩ := Torrent.GenericInfo.decode_ok_fields h
    exact ⟨timestamp_of_ok h1, timestamp_of_ok h2, timestamp_of_ok h3, timestamp_of_ok h4⟩

/-- C8 (amended) at `t = 0`: the sample properties with `completion_date` set to `0` decode with
`completionDate` equal to `1970-01-01T00:00:00`, overwriting the `not_a_date_time` the storage
held. -/
theorem nonpositive_epoch_is_real_instant_witness :
    (-9223372036854 ≤ (0 : Int) ∧ (0 : Int) ≤ 0) ∧
    (from_time_t 0).is_special = false ∧
    Torrent.GenericInfo.storageA.completionDate = ptime.not_a_date_time ∧
    ∃ r, Torrent.GenericInfo.decode Torrent.GenericInfo.storageA
        (sampleProperties.replace "completion_date" (.int64 0)) = .ok r ∧
      r.completionDate = ptime.ofDate 1970 1 1 := by
  obtain ⟨r, hr⟩ := Torrent.GenericInfo.decode_ok_of_wellTyped Torrent.GenericInfo.storageA
    (show WellTyped Torrent.GenericInfo.fields
      (sampleProperties.replace "completion_date" (.int64 0)) by decide)
  have h := nonpositive_epoch_is_real_instant 0 (by decide)
  have h1 := (h.2.2.2.2.2.2 Torrent.GenericInfo.storageA r _ hr).2.2.1 (.int64 0) (by rfl) (by rfl)
  exact ⟨by decide, h.2.1, rfl, r, hr, h1.trans (h.2.2.2.2.1 rfl)⟩

/-- C8 as stated fails: epoch `0` decodes to the instant `1970-01-01T00:00:00Z` itself, which
is no special value of `ptime`; the sample torrent with `completion_on` set to `0` decodes with
`completionOn` equal to that instant. -/
theorem epoch_zero_is_1970 :
    from_time_t 0 = ptime.ofDate 1970 1 1 ∧
    (from_time_t 0).is_special = false ∧
    from_time_t 0 ≠ ptime.not_a_date_time ∧
    (from_time_t 0).date = (1970, 1, 1) ∧
    (from_time_t 0).time_of_day = (0, 0, 0, 0) ∧
    ∃ tr, Torrent.ctor Torrent.storage
        (sampleTorrent.replace "completion_on" (.int64 0)) = .ok tr ∧
      tr.completionOn = ptime.ofDate 1970 1 1 := by
  refine ⟨by decide, by decide, by decide, by decide, by decide, ?_⟩
  obtain ⟨tr, htr⟩ := Torrent.ctor_ok_of_wellTyped Torrent.storage
    (show WellTyped Torrent.fields (sampleTorrent.replace "completion_on" (.int64 0)) by decide)
  obtain ⟨_, _, _, h2, _⟩ := Torrent.ctor_ok_fields htr
  have := timestamp_of_ok h2 (.int64 0) (by rfl)
    (show value_to_time_t (.int64 0) = .ok 0 by rfl)
  exact ⟨tr, htr, this.trans (by decide)⟩

/-! ## Records are built whole or not at all -/

/-- C9: a successful decode of `GenericInfo` leaves the declared members `totalDownloaded` and
`totalDownloadedSession` as the storage held them, since no statement assigns them: the same
`torrents/properties` object decodes to records that differ in both when the storage
differs. `Torrent` and `ContentItem` assign every member: their result does not depend on the
storage. -/
theorem GenericInfo_totalDownloaded_never_assigned :
    (∃ a b,
      Torrent.GenericInfo.decode Torrent.GenericInfo.storageA sampleProperties = .ok a ∧
      Torrent.GenericInfo.decode Torrent.GenericInfo.storageB sampleProperties = .ok b ∧
      a.totalDownloaded = 0 ∧ b.totalDownloaded = 7 ∧
      a.totalDownloadedSession = 0 ∧ b.totalDownloadedSession = 7) ∧
    (∀ (info r : Torrent.GenericInfo) (obj : JObject),
      Torrent.GenericInfo.decode info obj = .ok r →
      r.totalDownloaded = info.totalDownloaded ∧
      r.totalDownloadedSession = info.totalDownloadedSession) ∧
    (∀ (s₁ s₂ : Torrent) (obj : JObject), Torrent.ctor s₁ obj = Torrent.ctor s₂ obj) ∧
    (∀ (s₁ s₂ : Torrent.ContentItem) (obj : JObject),
      Torrent.ContentItem.ctor s₁ obj = Torrent.ContentItem.ctor s₂ obj) := by
  have hw : WellTyped Torrent.GenericInfo.fields sampleProperties := by decide
  obtain ⟨a, ha⟩ := Torrent.GenericInfo.decode_ok_of_wellTyped Torrent.GenericInfo.storageA hw
  obtain ⟨b, hb⟩ := Torrent.GenericInfo.decode_ok_of_wellTyped Torrent.GenericInfo.storageB hw
  have fa := Torrent.GenericInfo.decode_ok_fields ha
  have fb := Torrent.GenericInfo.decode_ok_fields hb
  refine ⟨⟨a, b, ha, hb, fa.2.2.2.2.1, fb.2.2.2.2.1, fa.2.2.2.2.2, fb.2.2.2.2.2⟩, ?_, ?_, ?_⟩
  · intro info r obj h
    exact (Torrent.GenericInfo.decode_ok_fields h).2.2.2.2
  · intro s₁ s₂ obj
    simp only [Torrent.ctor]
  · intro s₁ s₂ obj
    simp only [Torrent.ContentItem.ctor]

/-! ## Wrong shapes -/

/-- C10 (amended): if a required field of `Torrent` or of `ContentItem` is present with a value
that is not of the shape of its kind, the constructor fails and yields no object. When every
field read before it is present and well-typed, the error is the `boost::json` conversion error
of that field's kind (`not_string`, `not_bool`, `not_number` or `not_exact`), which carries no
field name. -/
theorem wrong_shape_fails (key : String) (kind : FieldKind) (v : JValue) (obj : JObject)
    (hv : obj.find key = some v) (ha : kind.accepts v = false) :
    ((key, kind) ∈ Torrent.fields → ∀ self : Torrent,
      (∃ e, Torrent.ctor self obj = .error e) ∧
      ∀ pre post, Torrent.fields = pre ++ (key, kind) :: post → WellTyped pre obj →
        Torrent.ctor self obj = .error (kind.mismatch v)) ∧
    ((key, kind) ∈ Torrent.ContentItem.fields → ∀ self : Torrent.ContentItem,
      (∃ e, Torrent.ContentItem.ctor self obj = .error e) ∧
      ∀ pre post, Torrent.ContentItem.fields = pre ++ (key, kind) :: post →
        WellTyped pre obj → Torrent.ContentItem.ctor self obj = .error (kind.mismatch v)) := by
  constructor
  · intro hm self
    constructor
    · obtain ⟨e, he⟩ := readFields_error_of_mem hm hv ha
      exact ⟨e, Torrent.ctor_error_of_readFields he⟩
    · intro pre post hs hp
      apply Torrent.ctor_error_of_readFields
      rw [hs, readFields_append_of_wellTyped hp]
      exact readFields_mismatch _ hv ha
  · intro hm self
    constructor
    · obtain ⟨e, he⟩ := readFields_error_of_mem hm hv ha
      exact ⟨e, Torrent.ContentItem.item_error_of_readFields he⟩
    · intro pre post hs hp
      apply Torrent.ContentItem.item_error_of_readFields
      rw [hs, readFields_append_of_wellTyped hp]
      exact readFields_mismatch _ hv ha

/-- C10 (amended) at the sample torrent with `hash` a number, and at the sample file with a
negative `size`. -/
theorem wrong_shape_fails_witness :
    Torrent.ctor Torrent.storage (sampleTorrent.replace "hash" (.int64 5)) =
      .error .not_string ∧
    Torrent.ContentItem.ctor Torrent.ContentItem.storage
      (sampleFile.replace "size" (.int64 (-1))) = .error .not_exact :=
  ⟨((wrong_shape_fails "hash" .string (.int64 5) (sampleTorrent.replace "hash" (.int64 5))
      (by rfl) (by rfl)).1 (by decide) Torrent.storage).2
      (Torrent.fields.take 15) (Torrent.fields.drop 16) (by decide) (by decide),
   ((wrong_shape_fails "size" .size_t (.int64 (-1)) (sampleFile.replace "size" (.int64 (-1)))
      (by rfl) (by rfl)).2 (by decide) Torrent.ContentItem.storage).2
      (Torrent.ContentItem.fields.take 2) (Torrent.ContentItem.fields.drop 3)
      (by decide) (by decide)⟩

/-- C10 as stated fails: the sample torrent with `hash` a number and the sample torrent with
`name` an object fail with the same error, `not_string`, so nothing read off the error names
the offending field. -/
theorem mismatch_error_names_no_field :
    Torrent.ctor Torrent.storage (sampleTorrent.replace "hash" (.int64 5)) =
      .error .not_string ∧
    Torrent.ctor Torrent.storage (sampleTorrent.replace "name" (.object [])) =
      .error .not_string ∧
    ¬ ∃ fieldOf : JError → String,
      (∀ e, Torrent.ctor Torrent.storage (sampleTorrent.replace "hash" (.int64 5)) =
        .error e → fieldOf e = "hash") ∧
      (∀ e, Torrent.ctor Torrent.storage (sampleTorrent.replace "name" (.object [])) =
        .error e → fieldOf e = "name") := by
  have h1 : Torrent.ctor Torrent.storage (sampleTorrent.replace "hash" (.int64 5)) =
      .error .not_string := rfl
  have h2 : Torrent.ctor Torrent.storage (sampleTorrent.replace "name" (.object [])) =
      .error .not_string := rfl
  refine ⟨h1, h2, ?_⟩
  rintro ⟨fieldOf, ha, hb⟩
  have := (ha _ h1).symm.trans (hb _ h2)
  exact absurd this (by decide)

/-! ## Requests -/

theorem GET_some (env : Env) (h : CURL) (url : String) (log : List CURL) :
    GET env (some h) url "" log =
      ((env.perform log (h.asGET url)).1, some (h.asGET url),
        String.join (env.perform log (h.asGET url)).2, log ++ [h.asGET url]) := rfl

theorem POST_some (env : Env) (h : CURL) (url postFields : String) (log : List CURL) :
    POST env (some h) url postFields "" log =
      ((env.perform log (h.asPOST url postFields)).1, some (h.asPOST url postFields),
        String.join (env.perform log (h.asPOST url postFields)).2,
        log ++ [h.asPOST url postFields]) := rfl

theorem Qbittorrent.getGenericStr_some (env : Env) (self : Qbittorrent) (h : CURL)
    (endpoint : String) (log : List CURL) (hc : self.curl = some h) :
    self.getGenericStr env endpoint log =
      (.ok (String.join (env.perform log (h.asGET endpoint)).2),
        { self with curl := some (h.asGET endpoint) }, log ++ [h.asGET endpoint]) := by
  unfold Qbittorrent.getGenericStr
  rw [hc]
  rfl

theorem Qbittorrent.getGenericJson_some (env : Env) (self : Qbittorrent) (h : CURL)
    (endpoint : String) (log : List CURL) (hc : self.curl = some h) :
    self.getGenericJson env endpoint log =
      ((env.parse (String.join (env.perform log (h.asGET endpoint)).2)).bind JValue.as_object,
        { self with curl := some (h.asGET endpoint) }, log ++ [h.asGET endpoint]) := by
  unfold Qbittorrent.getGenericJson
  simp only [hc, GET_some]
  cases env.parse (String.join (env.perform log (h.asGET endpoint)).2) <;> rfl

theorem Qbittorrent.buildUrl_literal (self : Qbittorrent) (endpoint url : String)
    (h : "/api/v2/" ++ endpoint = url) :
    self.buildUrl endpoint = self.baseUrl ++ url := by
  rw [Qbittorrent.buildUrl_eq, String.append_assoc, h]

theorem fmt_format_properties (hash : String) :
    fmt_format "torrents/properties?hash=\x7b\x7d" [hash] = "torrents/properties?hash=" ++ hash := by
  unfold fmt_format
  have h : "torrents/properties?hash=\x7b\x7d".toList =
      "torrents/properties?hash=".toList ++ ['\x7b', '\x7d'] := rfl
  rw [h]
  simp only [String.toList, List.cons_append, List.nil_append, fmt_format.go, List.append_nil]
  apply String.ext
  simp

theorem fmt_format_files (hash : String) :
    fmt_format "torrents/files?hash=\x7b\x7d" [hash] = "torrents/files?hash=" ++ hash := by
  unfold fmt_format
  have h : "torrents/files?hash=\x7b\x7d".toList =
      "torrents/files?hash=".toList ++ ['\x7b', '\x7d'] := rfl
  rw [h]
  simp only [String.toList, List.cons_append, List.nil_append, fmt_format.go, List.append_nil]
  apply String.ext
  simp

theorem Qbittorrent.buildUrl_properties (parent : Qbittorrent) (hash : String) :
    parent.buildUrl (fmt_format "torrents/properties?hash=\x7b\x7d" [hash]) =
      parent.baseUrl ++ "/api/v2/torrents/properties?hash=" ++ hash := by
  rw [Qbittorrent.buildUrl_eq, fmt_format_properties, String.append_assoc, String.append_assoc,
    ← String.append_assoc "/api/v2/"]
  rfl

theorem Qbittorrent.buildUrl_files (parent : Qbittorrent) (hash : String) :
    parent.buildUrl (fmt_format "torrents/files?hash=\x7b\x7d" [hash]) =
      parent.baseUrl ++ "/api/v2/torrents/files?hash=" ++ hash := by
  rw [Qbittorrent.buildUrl_eq, fmt_format_files, String.append_assoc, String.append_assoc,
    ← String.append_assoc "/api/v2/"]
  rfl

theorem Qbittorrent.login_curl_isSome (env : Env) (self : Qbittorrent) (log : List CURL)
    (hc : self.curl.isSome = true) : (self.login env log).2.1.curl.isSome = true := by
  unfold Qbittorrent.login POST
  obtain ⟨h, hh⟩ := Option.isSome_iff_exists.1 hc
  simp only [hh, Option.map_some']
  split_ifs <;> rfl

theorem Qbittorrent.init_of_handle_curl (env : Env) (self : Qbittorrent) (log : List CURL)
    (h : env.easy_init_ok = true) :
    ∃ s : Qbittorrent, s.curl.isSome = true ∧
      self.init env log =
        (if !(s.login env log).1 then (.error "Authentication failed", (s.login env log).2.2)
         else (.ok (s.login env log).2.1, (s.login env log).2.2)) := by
  unfold Qbittorrent.init
  simp only [h, if_true, Option.isNone_some, Bool.false_eq_true, if_false]
  refine ⟨_, ?_, rfl⟩
  cases self.insecure <;> cases self.appPassword <;> simp <;> split_ifs <;> rfl

/-- Every session that was constructed holds a curl handle: the calls below are stated for a
session with a handle. -/
theorem Qbittorrent.ctor_ok_curl (env : Env) (baseUrl : String)
    (credentials : Option Credentials) (insecure : Bool) (log : List CURL) (s : Qbittorrent)
    (hs : (Qbittorrent.ctor env baseUrl credentials insecure log).1 = .ok s) :
    ∃ h : CURL, s.curl = some h := by
  unfold Qbittorrent.ctor at hs
  cases hi : env.easy_init_ok with
  | false =>
    rw [Qbittorrent.init_of_no_handle env _ log hi] at hs
    cases hs
  | true =>
    obtain ⟨s0, hs0, he⟩ := Qbittorrent.init_of_handle_curl env
      { insecure := insecure, baseUrl := baseUrl, credentials := credentials,
        appPassword := none, headers := [], curl := none } log hi
    rw [he] at hs
    cases hl : (s0.login env log).1 with
    | false =>
      rw [hl] at hs
      cases hs
    | true =>
      rw [hl] at hs
      simp only [Bool.not_true, Bool.false_eq_true, if_false, Except.ok.injEq] at hs
      rw [← hs]
      exact Option.isSome_iff_exists.1 (Qbittorrent.login_curl_isSome env s0 log hs0)

/-! ## Raw and JSON bodies -/

/-- C11 (amended): for every endpoint and every result of the transfer,
`getGenericStr` issues one `GET` to the endpoint and returns, as a value and never as an
error, the text the transfer delivered: exactly the response body when the transfer
succeeded, and whatever part of it had arrived when the transfer failed. -/
theorem getGenericStr_returns_buffer (env : Env) (self : Qbittorrent) (h : CURL)
    (endpoint : String) (log : List CURL) (hc : self.curl = some h) :
    (self.getGenericStr env endpoint log).1 =
      .ok (String.join (env.perform log (h.asGET endpoint)).2) ∧
    (self.getGenericStr env endpoint log).2.2 = log ++ [h.asGET endpoint] := by
  rw [Qbittorrent.getGenericStr_some env self h endpoint log hc]
  exact ⟨rfl, rfl⟩

/-- C11 at a successful transfer that delivers `v4.6.0` in two chunks. -/
theorem getGenericStr_returns_buffer_witness :
    sampleSession.curl = some CURL.fresh ∧
    (sampleSession.getGenericStr (Env.answering CURLE_OK ["v4.", "6.0"] (.error .parse_failure))
      "https://qbt.example.org/api/v2/app/version" []).1 = .ok "v4.6.0" ∧
    (sampleSession.getGenericStr (Env.answering CURLE_OK ["v4.", "6.0"] (.error .parse_failure))
      "https://qbt.example.org/api/v2/app/version" []).2.2 =
      [] ++ [CURL.fresh.asGET "https://qbt.example.org/api/v2/app/version"] :=
  ⟨rfl, getGenericStr_returns_buffer _ sampleSession CURL.fresh _ [] rfl⟩

/-- C11 as stated fails: a transfer that ends with `CURLE_RECV_ERROR` after delivering `v4.`
makes `getGenericStr` return the value `v4.`, not an error. -/
theorem getGenericStr_failed_transfer_returns_value :
    ((Env.answering CURLE_RECV_ERROR ["v4."] (.error .parse_failure)).perform []
        (CURL.fresh.asGET "https://qbt.example.org/api/v2/app/version")).1 ≠ CURLE_OK ∧
    (sampleSession.getGenericStr (Env.answering CURLE_RECV_ERROR ["v4."] (.error .parse_failure))
      "https://qbt.example.org/api/v2/app/version" []).1 = .ok "v4." := by
  constructor
  · decide
  · rfl

/-- C12 (amended): `getGenericJson` parses the text the transfer delivered
whatever the result of the transfer; whenever that text is not valid JSON, after a successful
transfer as after a failed one, the error returned is the error of the parser. -/
theorem getGenericJson_parses_buffer (env : Env) (self : Qbittorrent) (h : CURL)
    (endpoint : String) (log : List CURL) (e : JError) (hc : self.curl = some h)
    (hp : env.parse (String.join (env.perform log (h.asGET endpoint)).2) = .error e) :
    (self.getGenericJson env endpoint log).1 = .error e ∧
    (self.getGenericJson env endpoint log).2.2 = log ++ [h.asGET endpoint] := by
  rw [Qbittorrent.getGenericJson_some env self h endpoint log hc, hp]
  exact ⟨rfl, rfl⟩

/-- C12 at a successful transfer whose body is not JSON. -/
theorem getGenericJson_parses_buffer_witness :
    sampleSession.curl = some CURL.fresh ∧
    (Env.answering CURLE_OK ["not json"] (.error .parse_failure)).parse
      (String.join ((Env.answering CURLE_OK ["not json"] (.error .parse_failure)).perform []
        (CURL.fresh.asGET "https://qbt.example.org/api/v2/app/buildInfo")).2) =
      .error .parse_failure ∧
    (sampleSession.getGenericJson (Env.answering CURLE_OK ["not json"] (.error .parse_failure))
      "https://qbt.example.org/api/v2/app/buildInfo" []).1 = .error .parse_failure ∧
    (sampleSession.getGenericJson (Env.answering CURLE_OK ["not json"] (.error .parse_failure))
      "https://qbt.example.org/api/v2/app/buildInfo" []).2.2 =
      [] ++ [CURL.fresh.asGET "https://qbt.example.org/api/v2/app/buildInfo"] :=
  ⟨rfl, rfl, getGenericJson_parses_buffer _ sampleSession CURL.fresh _ [] _ rfl rfl⟩

/-- C12 as stated fails: a transfer that ends with `CURLE_COULDNT_CONNECT` and delivers
nothing makes `getGenericJson` return the parser's error for the empty text, and a transfer
that ends with `CURLE_RECV_ERROR` after delivering an empty JSON object makes it return that
object. -/
theorem getGenericJson_failed_transfer_is_parse_error :
    ((Env.answering CURLE_COULDNT_CONNECT [] (.error .parse_failure)).perform []
        (CURL.fresh.asGET "https://qbt.example.org/api/v2/app/buildInfo")).1 ≠ CURLE_OK ∧
    (Env.answering CURLE_COULDNT_CONNECT [] (.error .parse_failure)).parse "" =
      .error .parse_failure ∧
    (sampleSession.getGenericJson (Env.answering CURLE_COULDNT_CONNECT [] (.error .parse_failure))
      "https://qbt.example.org/api/v2/app/buildInfo" []).1 = .error .parse_failure ∧
    ((Env.answering CURLE_RECV_ERROR ["\x7b\x7d"] (.ok (.object []))).perform []
        (CURL.fresh.asGET "https://qbt.example.org/api/v2/app/buildInfo")).1 ≠ CURLE_OK ∧
    (sampleSession.getGenericJson
      (Env.answering CURLE_RECV_ERROR ["\x7b\x7d"] (.ok (.object [])))
      "https://qbt.example.org/api/v2/app/buildInfo" []).1 = .ok [] := by
  refine ⟨by decide, rfl, rfl, by decide, rfl⟩

/-! ## URLs -/

/-- C13: for every base URL `b` and endpoint `e`, and whatever the other members of the
session are, `buildUrl(e)` is `b`, then `/api/v2/`, then `e`, character for character. -/
theorem buildUrl_is_concatenation (b e : String) (insecure : Bool)
    (credentials : Option Credentials) (appPassword : Option String) (headers : List String)
    (curl : Option CURL) :
    Qbittorrent.buildUrl
        { insecure := insecure, baseUrl := b, credentials := credentials,
          appPassword := appPassword, headers := headers, curl := curl } e =
      b ++ "/api/v2/" ++ e ∧
    (Qbittorrent.buildUrl
        { insecure := insecure, baseUrl := b, credentials := credentials,
          appPassword := appPassword, headers := headers, curl := curl } e).toList =
      b.toList ++ ['/', 'a', 'p', 'i', '/', 'v', '2', '/'] ++ e.toList := by
  rw [Qbittorrent.buildUrl_eq]
  exact ⟨rfl, by simp⟩

/-! ## Logout -/

/-- C15: whatever the transfer returns, `logout` returns normally and issues exactly one
request, a `POST` to `buildUrl("auth/logout")` with empty post fields; so does the
destructor, which calls it. -/
theorem logout_one_POST (env : Env) (self : Qbittorrent) (h : CURL) (log : List CURL)
    (hc : self.curl = some h) :
    (self.logout env log).1 = .ok () ∧
    (self.logout env log).2.2 = log ++ [h.asPOST (self.buildUrl "auth/logout") ""] ∧
    self.dtor env log = (.ok (), log ++ [h.asPOST (self.buildUrl "auth/logout") ""]) := by
  unfold Qbittorrent.dtor Qbittorrent.logout
  rw [hc]
  exact ⟨rfl, rfl, rfl⟩

/-- C15 at a transfer that fails with `CURLE_COULDNT_CONNECT`. -/
theorem logout_one_POST_witness :
    sampleSession.curl = some CURL.fresh ∧
    ((Env.answering CURLE_COULDNT_CONNECT [] (.error .parse_failure)).perform []
        (CURL.fresh.asPOST "https://qbt.example.org/api/v2/auth/logout" "")).1 ≠ CURLE_OK ∧
    (sampleSession.logout (Env.answering CURLE_COULDNT_CONNECT [] (.error .parse_failure)) []).1 =
      .ok () ∧
    (sampleSession.logout (Env.answering CURLE_COULDNT_CONNECT [] (.error .parse_failure)) []).2.2 =
      [] ++ [CURL.fresh.asPOST (sampleSession.buildUrl "auth/logout") ""] ∧
    sampleSession.dtor (Env.answering CURLE_COULDNT_CONNECT [] (.error .parse_failure)) [] =
      (.ok (), [] ++ [CURL.fresh.asPOST (sampleSession.buildUrl "auth/logout") ""]) :=
  ⟨rfl, by decide, logout_one_POST _ sampleSession CURL.fresh [] rfl⟩

/-! ## Text bodies -/

theorem digitChar_isDigit (k : Nat) (hk : k < 10) :
    (Nat.digitChar k).isDigit = true ∧ (Nat.digitChar k).toNat - '0'.toNat = k ∧
      isspace (Nat.digitChar k) = false ∧ Nat.digitChar k ≠ '-' ∧ Nat.digitChar k ≠ '+' := by
  interval_cases k <;> decide

theorem toDigitsCore_spec (fuel : Nat) : ∀ (n : Nat) (ds : List Char), n < fuel →
    ∃ c cs, Nat.toDigitsCore 10 fuel n ds = c :: cs ++ ds ∧
      (∀ d ∈ c :: cs, d.isDigit = true) ∧ isspace c = false ∧ c ≠ '-' ∧ c ≠ '+' ∧
      ∀ acc, (c :: cs).foldl (fun result d => result * 10 + (d.toNat - '0'.toNat)) acc =
        acc * 10 ^ (cs.length + 1) + n := by
  induction fuel with
  | zero => intro n ds h; omega
  | succ fuel ih =>
    intro n ds hn
    have hd := digitChar_isDigit (n % 10) (Nat.mod_lt _ (by decide))
    rw [Nat.toDigitsCore]
    by_cases h0 : n / 10 = 0
    · simp only [h0, if_true]
      refine ⟨_, [], rfl, ?_, hd.2.2.1, hd.2.2.2.1, hd.2.2.2.2, ?_⟩
      · intro d hd'
        simp only [List.mem_singleton] at hd'
        rw [hd']; exact hd.1
      · intro acc
        simp only [List.foldl_cons, List.foldl_nil, List.length_nil, hd.2.1]
        omega
    · simp only [h0, if_false]
      obtain ⟨c, cs, he, hall, h1, h2, h3, hv⟩ :=
        ih (n / 10) (Nat.digitChar (n % 10) :: ds) (by omega)
      refine ⟨c, cs ++ [Nat.digitChar (n % 10)], ?_, ?_, h1, h2, h3, ?_⟩
      · rw [he]; simp
      · intro d hd'
        rw [← List.cons_append, List.mem_append, List.mem_singleton] at hd'
        rcases hd' with hd' | hd'
        · exact hall d hd'
        · rw [hd']; exact hd.1
      · intro acc
        rw [← List.cons_append, List.foldl_append, hv acc]
        simp only [List.foldl_cons, List.foldl_nil, List.length_append, List.length_singleton,
          hd.2.1]
        simp only [pow_succ]
        generalize 10 ^ cs.length = P
        have := Nat.div_add_mod n 10
        linarith

theorem extract_size_t_repr (n res : Nat) (hn : n < 2 ^ 64) :
    extract_size_t (Nat.repr n) res = n := by
  obtain ⟨c, cs, he, hall, h1, h2, h3, hv⟩ := toDigitsCore_spec (n + 1) n [] (Nat.lt_succ_self n)
  have hl : (Nat.repr n).toList = c :: cs := by
    show Nat.toDigits 10 n = c :: cs
    rw [Nat.toDigits, he, List.append_nil]
  unfold extract_size_t istream_sentry
  rw [hl]
  have hdw : (c :: cs).dropWhile isspace = c :: cs := by
    rw [List.dropWhile_cons, h1]; rfl
  rw [hdw]
  have htw : (c :: cs).takeWhile Char.isDigit = c :: cs :=
    List.takeWhile_eq_self_iff.2 hall
  have hval : accumulate_digits (c :: cs) = n := by
    unfold accumulate_digits
    rw [hv 0]; omega
  simp only [List.head?_cons, Option.some.injEq, h2, h3, or_self, if_false, htw, hval,
    decide_False]
  have : ¬ n > 2 ^ 64 - 1 := by omega
  rw [if_neg (by simp), if_neg this]
  simp

theorem extract_boolalpha_values (res : Bool) :
    extract_boolalpha "true" res = true ∧ extract_boolalpha "false" res = false ∧
    extract_boolalpha "True" res = false ∧ extract_boolalpha "False" res = false := by
  cases res <;> decide


/-- C16 (amended): `getAlternativeSpeedLimitsState` reads the body of
`transfer/speedLimitsMode` with `std::boolalpha`, whose names are lowercase: when the body is
`true` it returns true, and when the body is `false`, `True` or `False` it returns false. -/
theorem speedLimitsMode_reads_lowercase (env : Env) (self : Qbittorrent) (h : CURL)
    (log : List CURL) (res : Bool) (body : String) (hc : self.curl = some h)
    (hb : String.join (env.perform log
      (h.asGET (self.buildUrl "transfer/speedLimitsMode"))).2 = body)
    (hm : body = "true" ∨ body = "false" ∨ body = "True" ∨ body = "False") :
    (self.getAlternativeSpeedLimitsState env res log).1 = .ok (decide (body = "true")) := by
  unfold Qbittorrent.getAlternativeSpeedLimitsState
  simp only [Qbittorrent.getGenericStr_some env self h _ log hc, hb]
  have hv := extract_boolalpha_values res
  rcases hm with rfl | rfl | rfl | rfl
  · rw [hv.1]; rfl
  · rw [hv.2.1]; rfl
  · rw [hv.2.2.1]; rfl
  · rw [hv.2.2.2]; rfl

/-- C16 at the body `true`, delivered in two chunks. -/
theorem speedLimitsMode_reads_lowercase_witness :
    sampleSession.curl = some CURL.fresh ∧
    String.join ((Env.answering CURLE_OK ["tr", "ue"] (.error .parse_failure)).perform []
      (CURL.fresh.asGET (sampleSession.buildUrl "transfer/speedLimitsMode"))).2 = "true" ∧
    (sampleSession.getAlternativeSpeedLimitsState
      (Env.answering CURLE_OK ["tr", "ue"] (.error .parse_failure)) false []).1 = .ok true :=
  ⟨rfl, rfl, speedLimitsMode_reads_lowercase _ sampleSession CURL.fresh [] false "true" rfl rfl
    (Or.inl rfl)⟩

/-- C16 as stated fails: with the body `True` the extraction matches neither name, sets
`failbit` and stores false, whatever `res` held before. -/
theorem speedLimitsMode_True_reads_false :
    (sampleSession.getAlternativeSpeedLimitsState
      (Env.answering CURLE_OK ["True"] (.error .parse_failure)) true []).1 = .ok false ∧
    (sampleSession.getAlternativeSpeedLimitsState
      (Env.answering CURLE_OK ["True"] (.error .parse_failure)) false []).1 = .ok false := by
  constructor <;> rfl

/-- C17: for every `n` with `0 <= n < 2^64`, when the body of the response to
`transfer/downloadLimit` is the decimal representation of `n`, `getGlobalDownloadLimit`
returns exactly `n`; and when the body of the response to `transfer/uploadLimit` is the
decimal representation of `n`, `getGlobalUploadLimit` returns exactly `n`; each whatever the
other endpoint answers and whatever `res` held before. -/
theorem global_limit_of_decimal_body (env : Env) (self : Qbittorrent) (h : CURL)
    (log : List CURL) (res : Nat) (hc : self.curl = some h) :
    (∀ n : Nat, n < 2 ^ 64 →
      String.join (env.perform log
        (h.asGET (self.baseUrl ++ "/api/v2/transfer/downloadLimit"))).2 = Nat.repr n →
      (self.getGlobalDownloadLimit env res log).1 = .ok n) ∧
    (∀ n : Nat, n < 2 ^ 64 →
      String.join (env.perform log
        (h.asGET (self.baseUrl ++ "/api/v2/transfer/uploadLimit"))).2 = Nat.repr n →
      (self.getGlobalUploadLimit env res log).1 = .ok n) := by
  constructor
  · intro n hn hd
    unfold Qbittorrent.getGlobalDownloadLimit
    simp only [Qbittorrent.getGenericStr_some env self h _ log hc,
      Qbittorrent.buildUrl_literal self "transfer/downloadLimit" "/api/v2/transfer/downloadLimit"
        rfl, hd, extract_size_t_repr n res hn]
  · intro n hn hu
    unfold Qbittorrent.getGlobalUploadLimit
    simp only [Qbittorrent.getGenericStr_some env self h _ log hc,
      Qbittorrent.buildUrl_literal self "transfer/uploadLimit" "/api/v2/transfer/uploadLimit"
        rfl, hu, extract_size_t_repr n res hn]

/-- C17 at a server whose download limit is the largest value, `2^64 - 1`, and whose upload
limit is `50`. -/
theorem global_limit_of_decimal_body_witness :
    sampleSession.curl = some CURL.fresh ∧
    (sampleSession.getGlobalDownloadLimit
      (Env.routing "https://qbt.example.org/api/v2/transfer/downloadLimit"
        "18446744073709551615" "50") 7 []).1 = .ok 18446744073709551615 ∧
    (sampleSession.getGlobalUploadLimit
      (Env.routing "https://qbt.example.org/api/v2/transfer/downloadLimit"
        "18446744073709551615" "50") 7 []).1 = .ok 50 :=
  have hw := global_limit_of_decimal_body
    (Env.routing "https://qbt.example.org/api/v2/transfer/downloadLimit"
      "18446744073709551615" "50") sampleSession CURL.fresh [] 7 rfl
  ⟨rfl, hw.1 18446744073709551615 (by decide) (by decide), hw.2 50 (by decide) (by decide)⟩

/-! ## Detail cache -/

theorem Torrent.getGenericInfo_cached (env : Env) (parent : Qbittorrent) (self : Torrent)
    (uninit cached : Torrent.GenericInfo) (log : List CURL)
    (hg : self.genericInfo = some cached) :
    Torrent.getGenericInfo env parent self uninit false log = (.ok cached, self, parent, log) := by
  unfold Torrent.getGenericInfo
  rw [hg]

theorem Torrent.getGenericInfo_fetch (env : Env) (parent : Qbittorrent) (self : Torrent)
    (uninit : Torrent.GenericInfo) (force : Bool) (log : List CURL) (h : CURL) (url : String)
    (hc : parent.curl = some h) (hf : self.genericInfo = none ∨ force = true)
    (hu : url = parent.buildUrl (fmt_format "torrents/properties?hash=\x7b\x7d" [self.hash])) :
    Torrent.getGenericInfo env parent self uninit force log =
      match ((env.parse (String.join (env.perform log (h.asGET url)).2)).bind
          JValue.as_object).bind (Torrent.GenericInfo.decode uninit) with
      | .error e => (.error e, self, { parent with curl := some (h.asGET url) },
          log ++ [h.asGET url])
      | .ok info => (.ok info, { self with genericInfo := some info },
          { parent with curl := some (h.asGET url) }, log ++ [h.asGET url]) := by
  have hcases : (self.genericInfo = none ∧ force = false) ∨ force = true := by
    rcases hf with hg | hg
    · cases force
      · exact Or.inl ⟨hg, rfl⟩
      · exact Or.inr rfl
    · exact Or.inr hg
  have hbind : ∀ (p : Except JError JValue) (l : List CURL) (q : Qbittorrent),
      (match p with
      | .error e => (Except.error e, self, q, l)
      | .ok jvp =>
        match jvp.as_object with
        | .error e => (.error e, self, q, l)
        | .ok obj =>
          match Torrent.GenericInfo.decode uninit obj with
          | .error e => (.error e, self, q, l)
          | .ok info => (.ok info, { self with genericInfo := some info }, q, l)) =
      match (p.bind JValue.as_object).bind (Torrent.GenericInfo.decode uninit) with
      | .error e => (.error e, self, q, l)
      | .ok info => (.ok info, { self with genericInfo := some info }, q, l) := by
    intro p l q
    cases p with
    | error e => rfl
    | ok jv =>
      cases hj : jv.as_object with
      | error e => simp only [Except.bind, hj]
      | ok obj =>
        cases hd : Torrent.GenericInfo.decode uninit obj with
        | error e => simp only [Except.bind, hj, hd]
        | ok info => simp only [Except.bind, hj, hd]
  unfold Torrent.getGenericInfo
  rcases hcases with ⟨hg, rfl⟩ | rfl
  · rw [hg]
    simp only [hc, GET_some, ← hu]
    exact hbind _ _ _
  · cases self.genericInfo <;> simp only [hc, GET_some, ← hu] <;> exact hbind _ _ _


theorem Torrent.getGenericInfo_fetch_parts (env : Env) (parent : Qbittorrent) (self : Torrent)
    (uninit : Torrent.GenericInfo) (force : Bool) (log : List CURL) (h : CURL)
    (hc : parent.curl = some h) (hf : self.genericInfo = none ∨ force = true) :
    (Torrent.getGenericInfo env parent self uninit force log).1 =
      ((env.parse (String.join (env.perform log (h.asGET
        (parent.baseUrl ++ "/api/v2/torrents/properties?hash=" ++ self.hash))).2)).bind
          JValue.as_object).bind (Torrent.GenericInfo.decode uninit) ∧
    (Torrent.getGenericInfo env parent self uninit force log).2.2.2 =
      log ++ [h.asGET (parent.baseUrl ++ "/api/v2/torrents/properties?hash=" ++ self.hash)] ∧
    (∀ info, (Torrent.getGenericInfo env parent self uninit force log).1 = .ok info →
      (Torrent.getGenericInfo env parent self uninit force log).2.1 =
        { self with genericInfo := some info }) := by
  rw [Torrent.getGenericInfo_fetch env parent self uninit force log h _ hc hf
    (Qbittorrent.buildUrl_properties parent self.hash).symm]
  cases ((env.parse (String.join (env.perform log (h.asGET
        (parent.baseUrl ++ "/api/v2/torrents/properties?hash=" ++ self.hash))).2)).bind
          JValue.as_object).bind (Torrent.GenericInfo.decode uninit) with
  | error e => exact ⟨rfl, rfl, fun _ hi => by cases hi⟩
  | ok info => exact ⟨rfl, rfl, fun _ hi => by cases hi; rfl⟩

theorem bind_object_decode_ok (p : Except JError JValue) (uninit info : Torrent.GenericInfo) :
    (p.bind JValue.as_object).bind (Torrent.GenericInfo.decode uninit) = .ok info ↔
      ∃ obj, p = .ok (.object obj) ∧ Torrent.GenericInfo.decode uninit obj = .ok info := by
  cases p with
  | error e => simp [Except.bind]
  | ok jv => cases jv <;> simp [Except.bind, JValue.as_object]

/-- C14: on a torrent of a session with a handle, (1) once a call of `getGenericInfo` has
succeeded, the record it returned is cached, and every later call with `force = false`, in
whatever environment, returns that record, leaves the torrent as it is and issues no request;
(2) every call with `force = true` issues one `GET` to `torrents/properties?hash=<hash>`;
(3) such a call succeeds exactly when the body parses to an object that decodes, and returns
the decoded record; (4) it then caches that record; (5) with no cached record every call
issues the request. -/
theorem getGenericInfo_cached_until_forced (env : Env) (parent : Qbittorrent) (self : Torrent)
    (uninit : Torrent.GenericInfo) (log : List CURL) (h : CURL) (hc : parent.curl = some h) :
    (∀ (force : Bool) (info : Torrent.GenericInfo) (t : Torrent) (p : Qbittorrent)
        (l : List CURL),
      Torrent.getGenericInfo env parent self uninit force log = (.ok info, t, p, l) →
      t.genericInfo = some info ∧
      ∀ (env' : Env) (parent' : Qbittorrent) (uninit' : Torrent.GenericInfo) (log' : List CURL),
        Torrent.getGenericInfo env' parent' t uninit' false log' = (.ok info, t, parent', log')) ∧
    (Torrent.getGenericInfo env parent self uninit true log).2.2.2 =
      log ++ [h.asGET (parent.baseUrl ++ "/api/v2/torrents/properties?hash=" ++ self.hash)] ∧
    (∀ (info : Torrent.GenericInfo),
      (Torrent.getGenericInfo env parent self uninit true log).1 = .ok info ↔
      ∃ obj, env.parse (String.join (env.perform log (h.asGET
          (parent.baseUrl ++ "/api/v2/torrents/properties?hash=" ++ self.hash))).2) =
            .ok (.object obj) ∧
        Torrent.GenericInfo.decode uninit obj = .ok info) ∧
    (∀ (info : Torrent.GenericInfo),
      (Torrent.getGenericInfo env parent self uninit true log).1 = .ok info →
      (Torrent.getGenericInfo env parent self uninit true log).2.1.genericInfo = some info) ∧
    (∀ force : Bool, self.genericInfo = none →
      (Torrent.getGenericInfo env parent self uninit force log).2.2.2 =
        log ++ [h.asGET (parent.baseUrl ++ "/api/v2/torrents/properties?hash=" ++ self.hash)]) := by
  have hp := Torrent.getGenericInfo_fetch_parts env parent self uninit true log h hc (Or.inr rfl)
  refine ⟨?_, hp.2.1, ?_, ?_, ?_⟩
  · intro force info t p l heq
    have hcached : t.genericInfo = some info := by
      cases hg : self.genericInfo with
      | none =>
        have hq := Torrent.getGenericInfo_fetch_parts env parent self uninit force log h hc
          (Or.inl hg)
        rw [heq] at hq
        have ht : t = { self with genericInfo := some info } := hq.2.2 info rfl
        rw [ht]
      | some cached =>
        cases force with
        | false =>
          rw [Torrent.getGenericInfo_cached env parent self uninit cached log hg] at heq
          simp only [Prod.mk.injEq, Except.ok.injEq] at heq
          obtain ⟨rfl, rfl, _, _⟩ := heq
          exact hg
        | true =>
          rw [heq] at hp
          have ht : t = { self with genericInfo := some info } := hp.2.2 info rfl
          rw [ht]
    exact ⟨hcached, fun env' parent' uninit' log' =>
      Torrent.getGenericInfo_cached env' parent' t uninit' info log' hcached⟩
  · intro info
    rw [hp.1]
    exact bind_object_decode_ok _ _ _
  · intro info hi
    rw [hp.2.2 info hi]
  · intro force hg
    exact (Torrent.getGenericInfo_fetch_parts env parent self uninit force log h hc
      (Or.inl hg)).2.1


/-- C14 at a torrent with nothing cached: the forced call fetches and decodes the properties,
and a later unforced call, on a server that cannot be reached, returns the same record and
issues no request. -/
theorem getGenericInfo_cached_until_forced_witness :
    sampleSession.curl = some CURL.fresh ∧
    ∃ info : Torrent.GenericInfo,
      (Torrent.getGenericInfo (Env.answering CURLE_OK ["props"] (.ok (.object sampleProperties)))
        sampleSession sampleRecord Torrent.GenericInfo.storageA true []).1 = .ok info ∧
      (Torrent.getGenericInfo (Env.answering CURLE_OK ["props"] (.ok (.object sampleProperties)))
        sampleSession sampleRecord Torrent.GenericInfo.storageA true []).2.2.2 =
        [CURL.fresh.asGET "https://qbt.example.org/api/v2/torrents/properties?hash=8c21"] ∧
      (Torrent.getGenericInfo (Env.answering CURLE_OK ["props"] (.ok (.object sampleProperties)))
        sampleSession sampleRecord Torrent.GenericInfo.storageA true []).2.1.genericInfo =
        some info ∧
      (Torrent.getGenericInfo (Env.answering CURLE_COULDNT_CONNECT [] (.error .parse_failure))
        sampleSession
        (Torrent.getGenericInfo (Env.answering CURLE_OK ["props"] (.ok (.object sampleProperties)))
          sampleSession sampleRecord Torrent.GenericInfo.storageA true []).2.1
        Torrent.GenericInfo.storageB false []).1 = .ok info ∧
      (Torrent.getGenericInfo (Env.answering CURLE_COULDNT_CONNECT [] (.error .parse_failure))
        sampleSession
        (Torrent.getGenericInfo (Env.answering CURLE_OK ["props"] (.ok (.object sampleProperties)))
          sampleSession sampleRecord Torrent.GenericInfo.storageA true []).2.1
        Torrent.GenericInfo.storageB false []).2.2.2 = [] := by
  have hw := getGenericInfo_cached_until_forced
    (Env.answering CURLE_OK ["props"] (.ok (.object sampleProperties)))
    sampleSession sampleRecord Torrent.GenericInfo.storageA [] CURL.fresh rfl
  obtain ⟨info, hinfo⟩ := Torrent.GenericInfo.decode_ok_of_wellTyped
    Torrent.GenericInfo.storageA (show WellTyped Torrent.GenericInfo.fields sampleProperties by decide)
  have hv := (hw.2.2.1 info).2 ⟨sampleProperties, rfl, hinfo⟩
  have hl := (hw.1 true info _ _ _ (by rw [← hv])).2
    (Env.answering CURLE_COULDNT_CONNECT [] (.error .parse_failure)) sampleSession
    Torrent.GenericInfo.storageB []
  refine ⟨rfl, info, hv, hw.2.1, hw.2.2.2.1 info hv, ?_, ?_⟩
  · rw [hl]
  · rw [hl]

/-! ## Contents -/

theorem Torrent.getContents.loop_writes (uninit : Torrent.ContentItem) (vs : List JValue)
    (hd : ∀ v ∈ vs, ∃ obj c, v = .object obj ∧ Torrent.ContentItem.ctor uninit obj = .ok c)
    (output : List Torrent.ContentItem) :
    ∃ cs : List Torrent.ContentItem,
      Torrent.getContents.loop uninit vs output = (.ok (), output ++ cs) ∧
      List.Forall₂ (fun v c => ∃ obj, v = .object obj ∧
        Torrent.ContentItem.ctor uninit obj = .ok c) vs cs := by
  induction vs generalizing output with
  | nil => exact ⟨[], by simp [Torrent.getContents.loop], List.Forall₂.nil⟩
  | cons v rest ih =>
    obtain ⟨obj, c, rfl, hc⟩ := hd v (List.mem_cons_self _ _)
    obtain ⟨cs, hcs, hall⟩ := ih (fun w hw => hd w (List.mem_cons_of_mem _ hw)) (output ++ [c])
    refine ⟨c :: cs, ?_, List.Forall₂.cons ⟨obj, rfl, hc⟩ hall⟩
    rw [Torrent.getContents.loop]
    simp only [JValue.as_object, hc, hcs, List.append_assoc, List.singleton_append]

theorem Torrent.getContents_some (env : Env) (parent : Qbittorrent) (self : Torrent)
    (uninit : Torrent.ContentItem) (output : List Torrent.ContentItem) (log : List CURL)
    (h : CURL) (url : String) (hc : parent.curl = some h)
    (hu : url = parent.baseUrl ++ "/api/v2/torrents/files?hash=" ++ self.hash) :
    Torrent.getContents env parent self uninit output log =
      match env.parse (String.join (env.perform log (h.asGET url)).2) with
      | .error e => (.error e, output, { parent with curl := some (h.asGET url) },
          log ++ [h.asGET url])
      | .ok jvp =>
        match jvp.as_array with
        | .error e => (.error e, output, { parent with curl := some (h.asGET url) },
            log ++ [h.asGET url])
        | .ok array =>
          ((Torrent.getContents.loop uninit array output).1,
            (Torrent.getContents.loop uninit array output).2,
            { parent with curl := some (h.asGET url) }, log ++ [h.asGET url]) := by
  unfold Torrent.getContents
  simp only [hc, GET_some, Qbittorrent.buildUrl_files, ← hu]

/-- C18: when the body parses to an array of `N` objects each of which decodes as a
`ContentItem`, `getContents` returns normally having appended exactly `N` items to its
output, the `i`-th being the decode of the `i`-th element; when the body parses to a value
that is not an array, the call fails with `not_array` and the output is as it was. -/
theorem getContents_writes_all (env : Env) (parent : Qbittorrent) (self : Torrent)
    (uninit : Torrent.ContentItem) (output : List Torrent.ContentItem) (log : List CURL)
    (h : CURL) (hc : parent.curl = some h) :
    (∀ vs : List JValue,
      env.parse (String.join (env.perform log
        (h.asGET (parent.baseUrl ++ "/api/v2/torrents/files?hash=" ++ self.hash))).2) =
          .ok (.array vs) →
      (∀ v ∈ vs, ∃ obj c, v = .object obj ∧ Torrent.ContentItem.ctor uninit obj = .ok c) →
      ∃ cs : List Torrent.ContentItem,
        (Torrent.getContents env parent self uninit output log).1 = .ok () ∧
        (Torrent.getContents env parent self uninit output log).2.1 = output ++ cs ∧
        cs.length = vs.length ∧
        List.Forall₂ (fun v c => ∃ obj, v = .object obj ∧
          Torrent.ContentItem.ctor uninit obj = .ok c) vs cs) ∧
    (∀ jv : JValue,
      env.parse (String.join (env.perform log
        (h.asGET (parent.baseUrl ++ "/api/v2/torrents/files?hash=" ++ self.hash))).2) = .ok jv →
      (∀ a, jv ≠ .array a) →
      (Torrent.getContents env parent self uninit output log).1 = .error .not_array ∧
      (Torrent.getContents env parent self uninit output log).2.1 = output) := by
  rw [Torrent.getContents_some env parent self uninit output log h _ hc rfl]
  constructor
  · intro vs hp hd
    obtain ⟨cs, hcs, hall⟩ := Torrent.getContents.loop_writes uninit vs hd output
    refine ⟨cs, ?_, ?_, hall.length_eq.symm, hall⟩
    · simp only [hp, JValue.as_array, hcs]
    · simp only [hp, JValue.as_array, hcs]
  · intro jv hp hn
    rw [hp]
    cases jv with
    | array a => exact absurd rfl (hn a)
    | _ => exact ⟨rfl, rfl⟩

/-- C18 at a response of two files, and at a response that is an object. -/
theorem getContents_writes_all_witness :
    sampleSession.curl = some CURL.fresh ∧
    (Torrent.getContents (Env.answering CURLE_OK ["files"] (.ok (.array sampleFiles)))
      sampleSession sampleRecord Torrent.ContentItem.storage [] []).1 = .ok () ∧
    ((Torrent.getContents (Env.answering CURLE_OK ["files"] (.ok (.array sampleFiles)))
      sampleSession sampleRecord Torrent.ContentItem.storage [] []).2.1.map
        fun c => (c.name, c.isSeed)) = [("debian-12.iso", false), ("debian-12.iso", true)] ∧
    (Torrent.getContents (Env.answering CURLE_OK ["files"] (.ok (.object sampleFile)))
      sampleSession sampleRecord Torrent.ContentItem.storage [] []).1 = .error .not_array ∧
    (Torrent.getContents (Env.answering CURLE_OK ["files"] (.ok (.object sampleFile)))
      sampleSession sampleRecord Torrent.ContentItem.storage [] []).2.1 = [] := by
  obtain ⟨cs, h1, h2, h3, h4⟩ := (getContents_writes_all
    (Env.answering CURLE_OK ["files"] (.ok (.array sampleFiles)))
    sampleSession sampleRecord Torrent.ContentItem.storage [] [] CURL.fresh rfl).1 sampleFiles rfl
    (by
      intro v hv
      simp only [sampleFiles, List.mem_cons, List.mem_singleton, List.mem_nil_iff, or_false] at hv
      rcases hv with rfl | rfl
      · exact ⟨_, _, rfl, rfl⟩
      · exact ⟨_, _, rfl, rfl⟩)
  have h5 := (getContents_writes_all
    (Env.answering CURLE_OK ["files"] (.ok (.object sampleFile)))
    sampleSession sampleRecord Torrent.ContentItem.storage [] [] CURL.fresh rfl).2
    (.object sampleFile) rfl (fun a ha => by cases ha)
  refine ⟨rfl, h1, ?_, h5.1, h5.2⟩
  rw [h2]
  obtain ⟨a, cs1, ⟨o1, e1, f1⟩, h6, rfl⟩ := List.forall₂_cons_left_iff.1 h4
  obtain ⟨b, cs2, ⟨o2, e2, f2⟩, h7, rfl⟩ := List.forall₂_cons_left_iff.1 h6
  obtain rfl := List.forall₂_nil_left_iff.1 h7
  obtain rfl := JValue.object.inj e1
  obtain rfl := JValue.object.inj e2
  have g1 : a = ⟨42, "debian-12.iso", 1048576, .ofDouble (.finite false 1 (-1)), 1, false,
      .ofDouble (.finite false 1 (-1))⟩ :=
    Except.ok.inj (f1.symm.trans rfl)
  have g2 : b = ⟨42, "debian-12.iso", 1048576, .ofDouble (.finite false 1 (-1)), 1, true,
      .ofDouble (.finite false 1 (-1))⟩ :=
    Except.ok.inj (f2.symm.trans rfl)
  rw [g1, g2]
  rfl

/-! ## One request per call -/

/-- C20: for every member `s` of `State` the lookup `STATE_STRS.at(s)` succeeds with a
non-empty label, which the formatter returns; every entry of the initializer list, the
repeated key `pausedDL` included, is looked up to its own label; so formatting
`strToState(n)` is defined for every string `n`. In particular `queuedDL` and `unknown` have
labels. -/
theorem every_State_has_a_label :
    (∀ s : Torrent.State, ∃ label : String,
      unordered_map.at STATE_STRS s = .ok label ∧ label ≠ "" ∧
      formatter_State.format s = .ok label) ∧
    STATE_STRS.init.map (fun entry => unordered_map.at STATE_STRS entry.1) =
      STATE_STRS.init.map (fun entry => .ok entry.2) ∧
    (∀ n : String, ∃ label : String,
      formatter_State.format (strToState n) = .ok label ∧ label ≠ "") ∧
    formatter_State.format .queuedDL = .ok "Queued Download" ∧
    formatter_State.format .unknown = .ok "Unkown" := by
  have h : ∀ s : Torrent.State, ∃ label : String,
      unordered_map.at STATE_STRS s = .ok label ∧ label ≠ "" ∧
      formatter_State.format s = .ok label := by
    intro s
    cases s <;> exact ⟨_, rfl, by decide, rfl⟩
  refine ⟨h, rfl, ?_, rfl, rfl⟩
  intro n
  obtain ⟨label, _, h2, h3⟩ := h (strToState n)
  exact ⟨label, h3, h2⟩

/-! ## Session set-up -/

theorem fmt_format_bearer (token : String) :
    fmt_format "Authorization: Bearer \x7b\x7d" [token] = "Authorization: Bearer " ++ token := by
  unfold fmt_format
  have h : "Authorization: Bearer \x7b\x7d".toList =
      "Authorization: Bearer ".toList ++ ['\x7b', '\x7d'] := rfl
  rw [h]
  simp only [String.toList, List.cons_append, List.nil_append, fmt_format.go, List.append_nil]
  apply String.ext
  simp

theorem Qbittorrent.login_some (env : Env) (self : Qbittorrent) (log : List CURL) (h : CURL)
    (hc : self.curl = some h) :
    (self.login env log).2.1 =
      { self with curl := some (h.asPOST (self.buildUrl "auth/login")
          (serialize [("username", (self.credentials.getD ⟨"", ""⟩).username),
            ("password", (self.credentials.getD ⟨"", ""⟩).password)])) } ∧
    (self.login env log).2.2 =
      log ++ [h.asPOST (self.buildUrl "auth/login")
        (serialize [("username", (self.credentials.getD ⟨"", ""⟩).username),
          ("password", (self.credentials.getD ⟨"", ""⟩).password)])] := by
  unfold Qbittorrent.login
  simp only [hc, POST_some]
  split_ifs <;> exact ⟨rfl, rfl⟩

theorem Qbittorrent.init_configures (env : Env) (self : Qbittorrent) (log : List CURL)
    (hi : env.easy_init_ok = true) :
    ∃ s : Qbittorrent, s.baseUrl = self.baseUrl ∧ s.credentials = self.credentials ∧
      s.insecure = self.insecure ∧ s.appPassword = self.appPassword ∧
      s.headers = self.headers ++
        (self.appPassword.map fun p => "Authorization: Bearer " ++ p).toList ∧
      s.curl = some ⟨!self.insecure, !self.insecure, 604800, true, false, s.headers,
        self.baseUrl, .get, ""⟩ ∧
      self.init env log =
        (if !(s.login env log).1 then (.error "Authentication failed", (s.login env log).2.2)
         else (.ok (s.login env log).2.1, (s.login env log).2.2)) := by
  unfold Qbittorrent.init
  simp only [hi, if_true, Option.isNone_some, Bool.false_eq_true, if_false]
  refine ⟨_, ?_, ?_, ?_, ?_, ?_, ?_, rfl⟩
  all_goals
    cases hins : self.insecure <;> cases hp : self.appPassword <;>
      simp [fmt_format_bearer, CURL.fresh, hins, hp] <;> split_ifs <;> simp_all [CURL.fresh]


theorem Qbittorrent.init_outcome (env : Env) (self : Qbittorrent) (log : List CURL)
    (hi : env.easy_init_ok = true) (hh : self.headers = []) :
    ∃ h : CURL,
      h.httpheader = (self.appPassword.map fun p => "Authorization: Bearer " ++ p).toList ∧
      h.ssl_verifypeer = !self.insecure ∧ h.ssl_verifyhost = !self.insecure ∧
      h.method = .post ∧ h.url = self.buildUrl "auth/login" ∧
      h.postfields = serialize [("username", (self.credentials.getD ⟨"", ""⟩).username),
        ("password", (self.credentials.getD ⟨"", ""⟩).password)] ∧
      (self.init env log).2 = log ++ [h] ∧
      ∀ s, (self.init env log).1 = .ok s →
        s.curl = some h ∧ s.appPassword = self.appPassword ∧ s.baseUrl = self.baseUrl ∧
        s.headers = (self.appPassword.map fun p => "Authorization: Bearer " ++ p).toList ∧
        s.insecure = self.insecure := by
  obtain ⟨s0, hb, hcr, hins, hap, hhd, hcurl, he⟩ := Qbittorrent.init_configures env self log hi
  rw [hh, List.nil_append] at hhd
  obtain ⟨hl1, hl2⟩ := Qbittorrent.login_some env s0 log _ hcurl
  have hurl : s0.buildUrl "auth/login" = self.buildUrl "auth/login" := by
    rw [Qbittorrent.buildUrl_eq, Qbittorrent.buildUrl_eq, hb]
  refine ⟨(CURL.mk (!self.insecure) (!self.insecure) 604800 true false s0.headers self.baseUrl
    .get "").asPOST (s0.buildUrl "auth/login")
      (serialize [("username", (s0.credentials.getD ⟨"", ""⟩).username),
        ("password", (s0.credentials.getD ⟨"", ""⟩).password)]), ?_, ?_, ?_, ?_, ?_, ?_, ?_, ?_⟩
  rotate_left 6
  · rw [he]
    cases (s0.login env log).1
    · exact hl2
    · exact hl2
  · intro s hs
    rw [he] at hs
    cases hl : (s0.login env log).1 with
    | false =>
      rw [hl] at hs
      cases hs
    | true =>
      rw [hl] at hs
      simp only [Bool.not_true, Bool.false_eq_true, if_false, Except.ok.injEq] at hs
      rw [← hs, hl1]
      exact ⟨rfl, hap, hb, hhd, hins⟩
  · exact hhd
  · rfl
  · rfl
  · rfl
  · exact hurl
  · show serialize _ = serialize _
    rw [hcr]

/-- C22: the handle of the login request of a session constructed with the flag `insecure`
has peer verification and host verification off if and only if `insecure` is true; the
session keeps the flag and the handle, and later requests carry the same two options. A
call that leaves the flag out passes `false`, and the handle verifies both. -/
theorem tls_bypass_iff_insecure (env : Env) (baseUrl : String)
    (credentials : Option Credentials) (insecure : Bool) (log : List CURL)
    (hi : env.easy_init_ok = true) :
    (∃ h : CURL, (Qbittorrent.ctor env baseUrl credentials insecure log).2 = log ++ [h] ∧
      (h.ssl_verifypeer = false ↔ insecure = true) ∧
      (h.ssl_verifyhost = false ↔ insecure = true) ∧
      ∀ s, (Qbittorrent.ctor env baseUrl credentials insecure log).1 = .ok s →
        s.insecure = insecure ∧ s.curl = some h ∧
        ∀ (env' : Env) (endpoint : String) (log' : List CURL),
          ∃ g : CURL, (s.getGenericStr env' endpoint log').2.2 = log' ++ [g] ∧
            g.ssl_verifypeer = h.ssl_verifypeer ∧ g.ssl_verifyhost = h.ssl_verifyhost) ∧
    (∃ h : CURL, (Qbittorrent.ctorDefault env baseUrl credentials log).2 = log ++ [h] ∧
      h.ssl_verifypeer = true ∧ h.ssl_verifyhost = true) := by
  have key : ∀ b : Bool, ∃ h : CURL,
      (Qbittorrent.ctor env baseUrl credentials b log).2 = log ++ [h] ∧
      h.ssl_verifypeer = !b ∧ h.ssl_verifyhost = !b ∧
      ∀ s, (Qbittorrent.ctor env baseUrl credentials b log).1 = .ok s →
        s.insecure = b ∧ s.curl = some h := by
    intro b
    obtain ⟨h, -, hp, hv, -, -, -, hlog, hs⟩ := Qbittorrent.init_outcome env
      { insecure := b, baseUrl := baseUrl, credentials := credentials,
        appPassword := none, headers := [], curl := none } log hi rfl
    exact ⟨h, hlog, hp, hv, fun s hok => ⟨(hs s hok).2.2.2.2, (hs s hok).1⟩⟩
  constructor
  · obtain ⟨h, hlog, hp, hv, hs⟩ := key insecure
    refine ⟨h, hlog, ?_, ?_, fun s hok => ⟨(hs s hok).1, (hs s hok).2,
      fun env' endpoint log' => ?_⟩⟩
    · rw [hp]; cases insecure <;> simp
    · rw [hv]; cases insecure <;> simp
    · rw [Qbittorrent.getGenericStr_some env' s h endpoint log' (hs s hok).2]
      exact ⟨_, rfl, rfl, rfl⟩
  · obtain ⟨h, hlog, hp, hv, -⟩ := key false
    exact ⟨h, hlog, hp, hv⟩

/-- C22 at a session constructed with `insecure = true` and at one constructed without the
flag. -/
theorem tls_bypass_iff_insecure_witness :
    (Env.answering CURLE_OK ["Ok."] (.error .parse_failure)).easy_init_ok = true ∧
    (∃ h : CURL, (Qbittorrent.ctor (Env.answering CURLE_OK ["Ok."] (.error .parse_failure))
        "https://qbt.example.org" none true []).2 = [h] ∧
      h.ssl_verifypeer = false ∧ h.ssl_verifyhost = false) ∧
    (∃ h : CURL, (Qbittorrent.ctorDefault (Env.answering CURLE_OK ["Ok."] (.error .parse_failure))
        "https://qbt.example.org" none []).2 = [h] ∧
      h.ssl_verifypeer = true ∧ h.ssl_verifyhost = true) := by
  have hw := tls_bypass_iff_insecure (Env.answering CURLE_OK ["Ok."] (.error .parse_failure))
    "https://qbt.example.org" none true [] rfl
  obtain ⟨h, h1, h2, h3, -⟩ := hw.1
  exact ⟨rfl, ⟨h, h1, h2.2 rfl, h3.2 rfl⟩, hw.2⟩

/-! ## Login request -/

theorem serialize_credentials (u p : String) :
    serialize [("username", u), ("password", p)] =
      "\x7b\"username\":" ++ serialize_string u ++ ",\"password\":" ++ serialize_string p ++
        "\x7d" := by
  have h1 : serialize_string "username" = "\"username\"" := by decide
  have h2 : serialize_string "password" = "\"password\"" := by decide
  unfold serialize
  simp only [List.map, String.intercalate, String.intercalate.go, h1, h2]
  apply String.ext
  simp [String.data_append]

/-- C23: whatever the transfer returns, `login` adds exactly one request to the log, a `POST`
to `buildUrl("auth/login")` whose post fields are the serialized object with the members
`username` and `password`, in that order, set to the credentials; with no credentials both
are the empty string and the request is sent all the same. -/
theorem login_one_POST (env : Env) (self : Qbittorrent) (h : CURL) (log : List CURL)
    (hc : self.curl = some h) :
    (∀ u p : String, self.credentials = some ⟨u, p⟩ →
      (self.login env log).2.2 = log ++ [h.asPOST (self.buildUrl "auth/login")
        ("\x7b\"username\":" ++ serialize_string u ++ ",\"password\":" ++ serialize_string p ++
          "\x7d")]) ∧
    (self.credentials = none →
      (self.login env log).2.2 = log ++ [h.asPOST (self.buildUrl "auth/login")
        "\x7b\"username\":\"\",\"password\":\"\"\x7d"]) := by
  have hl := (Qbittorrent.login_some env self log h hc).2
  constructor
  · intro u p hcr
    rw [hl, hcr, ← serialize_credentials]
    rfl
  · intro hcr
    rw [hl, hcr]
    rfl

/-- C23 at credentials with a quote in the password and a transfer that fails, and at a
session with no credentials. -/
theorem login_one_POST_witness :
    (Qbittorrent.mk false "https://qbt.example.org" (some ⟨"admin", "pass\"word"⟩) none []
      (some CURL.fresh)).curl = some CURL.fresh ∧
    ((Qbittorrent.mk false "https://qbt.example.org" (some ⟨"admin", "pass\"word"⟩) none []
      (some CURL.fresh)).login (Env.answering CURLE_COULDNT_CONNECT [] (.error .parse_failure))
        []).2.2 =
      [CURL.fresh.asPOST "https://qbt.example.org/api/v2/auth/login"
        "\x7b\"username\":\"admin\",\"password\":\"pass\\\"word\"\x7d"] ∧
    sampleSession.curl = some CURL.fresh ∧ sampleSession.credentials = none ∧
    (sampleSession.login (Env.answering CURLE_OK ["Ok."] (.error .parse_failure)) []).2.2 =
      [CURL.fresh.asPOST "https://qbt.example.org/api/v2/auth/login"
        "\x7b\"username\":\"\",\"password\":\"\"\x7d"] := by
  have h1 := (login_one_POST (Env.answering CURLE_COULDNT_CONNECT [] (.error .parse_failure))
    (Qbittorrent.mk false "https://qbt.example.org" (some ⟨"admin", "pass\"word"⟩) none []
      (some CURL.fresh)) CURL.fresh [] rfl).1 "admin" "pass\"word" rfl
  have h2 := (login_one_POST (Env.answering CURLE_OK ["Ok."] (.error .parse_failure))
    sampleSession CURL.fresh [] rfl).2 rfl
  refine ⟨rfl, h1.trans (by decide), rfl, rfl, h2.trans (by decide)⟩

/-! ## Failures part-way -/

theorem Qbittorrent.getTorrentList.loop_stops (uninit : Torrent) (pre post : List JValue)
    (bad : JValue) (e : JError)
    (hd : ∀ v ∈ pre, ∃ obj t, v = .object obj ∧ Torrent.ctor uninit obj = .ok t)
    (hb : ((∀ obj, bad ≠ .object obj) ∧ e = .not_object) ∨
      ∃ obj, bad = .object obj ∧ Torrent.ctor uninit obj = .error e)
    (output : List Torrent) :
    ∃ ts : List Torrent,
      Qbittorrent.getTorrentList.loop uninit (pre ++ bad :: post) output =
        (.error e, output ++ ts) ∧
      List.Forall₂ (fun v t => ∃ obj, v = .object obj ∧ Torrent.ctor uninit obj = .ok t) pre ts := by
  induction pre generalizing output with
  | nil =>
    refine ⟨[], ?_, List.Forall₂.nil⟩
    rw [List.nil_append, Qbittorrent.getTorrentList.loop, List.append_nil]
    rcases hb with ⟨hn, rfl⟩ | ⟨obj, rfl, he⟩
    · cases bad with
      | object o => exact absurd rfl (hn o)
      | _ => rfl
    · simp only [JValue.as_object, he]
  | cons v rest ih =>
    obtain ⟨obj, t, rfl, ht⟩ := hd _ (List.mem_cons_self _ _)
    obtain ⟨ts, hts, hall⟩ := ih (fun w hw => hd w (List.mem_cons_of_mem _ hw)) (output ++ [t])
    refine ⟨t :: ts, ?_, List.Forall₂.cons ⟨obj, rfl, ht⟩ hall⟩
    rw [List.cons_append, Qbittorrent.getTorrentList.loop]
    simp only [JValue.as_object, ht, hts, List.append_assoc, List.singleton_append]

/-- C24: when the response parses to an array whose elements `pre` all decode and whose next
element `bad` is not an object (error `not_object`) or is an object whose decode fails with
`e`, `getTorrentList` fails with that error having appended to its output exactly the
decodes of `pre`, in order; nothing of `bad` or of the elements after it is written. -/
theorem getTorrentList_stops_at_first_failure (env : Env) (self : Qbittorrent)
    (uninit : Torrent) (output : List Torrent) (log : List CURL) (pre post : List JValue)
    (bad : JValue) (e : JError)
    (hp : env.parse (GET env self.curl (self.buildUrl "torrents/info") "" log).2.2.1 =
      .ok (.array (pre ++ bad :: post)))
    (hd : ∀ v ∈ pre, ∃ obj t, v = .object obj ∧ Torrent.ctor uninit obj = .ok t)
    (hb : ((∀ obj, bad ≠ .object obj) ∧ e = .not_object) ∨
      ∃ obj, bad = .object obj ∧ Torrent.ctor uninit obj = .error e) :
    ∃ ts : List Torrent,
      (self.getTorrentList env uninit output log).1 = .error e ∧
      (self.getTorrentList env uninit output log).2.1 = output ++ ts ∧
      ts.length = pre.length ∧
      List.Forall₂ (fun v t => ∃ obj, v = .object obj ∧ Torrent.ctor uninit obj = .ok t) pre ts := by
  obtain ⟨ts, hts, hall⟩ :=
    Qbittorrent.getTorrentList.loop_stops uninit pre post bad e hd hb output
  refine ⟨ts, ?_, ?_, hall.length_eq.symm, hall⟩
  · unfold Qbittorrent.getTorrentList
    simp only [hp, JValue.as_array, hts]
  · unfold Qbittorrent.getTorrentList
    simp only [hp, JValue.as_array, hts]


/-- C24 at three elements the second of which is a string, and at three elements the second
of which lacks `hash`: one record is written. -/
theorem getTorrentList_stops_at_first_failure_witness :
    (∃ ts : List Torrent,
      (sampleSession.getTorrentList (Env.answering CURLE_OK ["list"]
        (.ok (.array [.object sampleTorrent, .string "oops", .object sampleTorrent])))
        Torrent.storage [] []).1 = .error .not_object ∧
      (sampleSession.getTorrentList (Env.answering CURLE_OK ["list"]
        (.ok (.array [.object sampleTorrent, .string "oops", .object sampleTorrent])))
        Torrent.storage [] []).2.1 = [] ++ ts ∧
      ts.length = 1 ∧ ts.map (fun t => t.hash) = ["8c212779b4abde7c6bc608063a0d008b7e40ce32"]) ∧
    (∃ ts : List Torrent,
      (sampleSession.getTorrentList (Env.answering CURLE_OK ["list"]
        (.ok (.array [.object sampleTorrent, .object (sampleTorrent.erase "hash"),
          .object sampleTorrent])))
        Torrent.storage [] []).1 = .error .out_of_range ∧
      (sampleSession.getTorrentList (Env.answering CURLE_OK ["list"]
        (.ok (.array [.object sampleTorrent, .object (sampleTorrent.erase "hash"),
          .object sampleTorrent])))
        Torrent.storage [] []).2.1 = [] ++ ts ∧
      ts.length = 1) := by
  have hd : ∀ v ∈ [JValue.object sampleTorrent],
      ∃ obj t, v = .object obj ∧ Torrent.ctor Torrent.storage obj = .ok t := by
    intro v hv
    simp only [List.mem_singleton] at hv
    obtain ⟨t, ht⟩ := Torrent.ctor_ok_of_wellTyped Torrent.storage
      (show WellTyped Torrent.fields sampleTorrent by decide)
    exact ⟨_, t, hv, ht⟩
  constructor
  · obtain ⟨ts, h1, h2, h3, h4⟩ := getTorrentList_stops_at_first_failure
      (Env.answering CURLE_OK ["list"]
        (.ok (.array [.object sampleTorrent, .string "oops", .object sampleTorrent])))
      sampleSession Torrent.storage [] [] [.object sampleTorrent] [.object sampleTorrent]
      (.string "oops") .not_object (by rfl) hd
      (Or.inl ⟨fun obj ho => (by cases ho), rfl⟩)
    refine ⟨ts, h1, h2, h3, ?_⟩
    obtain ⟨a, ts1, ⟨o1, e1, f1⟩, h5, rfl⟩ := List.forall₂_cons_left_iff.1 h4
    obtain rfl := List.forall₂_nil_left_iff.1 h5
    obtain rfl := JValue.object.inj e1
    have g1 : a.hash = "8c212779b4abde7c6bc608063a0d008b7e40ce32" :=
      (JValue.string.inj (Option.some.inj (Torrent.ctor_ok_fields f1).1)).symm
    simp only [List.map_cons, List.map_nil, g1]
  · obtain ⟨ts, h1, h2, h3, -⟩ := getTorrentList_stops_at_first_failure
      (Env.answering CURLE_OK ["list"]
        (.ok (.array [.object sampleTorrent, .object (sampleTorrent.erase "hash"),
          .object sampleTorrent])))
      sampleSession Torrent.storage [] [] [.object sampleTorrent] [.object sampleTorrent]
      (.object (sampleTorrent.erase "hash")) .out_of_range (by rfl) hd
      (Or.inr ⟨_, rfl, Torrent.ctor_error_of_readFields (by rfl)⟩)
    exact ⟨ts, h1, h2, h3⟩

theorem Torrent.getGenericInfo_error_parts (env : Env) (parent : Qbittorrent) (self : Torrent)
    (uninit : Torrent.GenericInfo) (force : Bool) (log : List CURL) (h : CURL) (e : JError)
    (hc : parent.curl = some h)
    (he : (Torrent.getGenericInfo env parent self uninit force log).1 = .error e) :
    (Torrent.getGenericInfo env parent self uninit force log).2.1 = self ∧
    ((env.parse (String.join (env.perform log (h.asGET
      (parent.baseUrl ++ "/api/v2/torrents/properties?hash=" ++ self.hash))).2)).bind
        JValue.as_object).bind (Torrent.GenericInfo.decode uninit) = .error e := by
  have hf : self.genericInfo = none ∨ force = true := by
    cases hg : self.genericInfo with
    | none => exact Or.inl rfl
    | some cached =>
      cases force with
      | true => exact Or.inr rfl
      | false =>
        rw [Torrent.getGenericInfo_cached env parent self uninit cached log hg] at he
        cases he
  have hm := Torrent.getGenericInfo_fetch env parent self uninit force log h _ hc hf
    (Qbittorrent.buildUrl_properties parent self.hash).symm
  rw [hm] at he ⊢
  cases hx : ((env.parse (String.join (env.perform log (h.asGET
      (parent.baseUrl ++ "/api/v2/torrents/properties?hash=" ++ self.hash))).2)).bind
        JValue.as_object).bind (Torrent.GenericInfo.decode uninit) with
  | error e' =>
    rw [hx] at he
    simp only [Except.error.injEq] at he
    rw [he]
    exact ⟨rfl, rfl⟩
  | ok info =>
    rw [hx] at he
    cases he

/-- C25 (amended): whenever a call of `getGenericInfo` fails, the torrent, and with it the
cached detail, is exactly what it was before the call; and the call fails exactly when the
parse of the text received, its conversion to an object or the decode of a field fails,
whatever the result of the transfer was. -/
theorem getGenericInfo_failure_keeps_cache (env : Env) (parent : Qbittorrent) (self : Torrent)
    (uninit : Torrent.GenericInfo) (force : Bool) (log : List CURL) (h : CURL) (e : JError)
    (hc : parent.curl = some h)
    (he : (Torrent.getGenericInfo env parent self uninit force log).1 = .error e) :
    (Torrent.getGenericInfo env parent self uninit force log).2.1 = self ∧
    (Torrent.getGenericInfo env parent self uninit force log).2.1.genericInfo =
      self.genericInfo ∧
    ((env.parse (String.join (env.perform log (h.asGET
      (parent.baseUrl ++ "/api/v2/torrents/properties?hash=" ++ self.hash))).2)).bind
        JValue.as_object).bind (Torrent.GenericInfo.decode uninit) = .error e := by
  obtain ⟨h1, h2⟩ := Torrent.getGenericInfo_error_parts env parent self uninit force log h e hc he
  exact ⟨h1, by rw [h1], h2⟩

/-- C25 (amended) at a forced refetch whose body is not JSON, on a torrent with a cached
record, and at a first fetch whose body lacks `eta`, on a torrent with nothing cached. -/
theorem getGenericInfo_failure_keeps_cache_witness :
    sampleSession.curl = some CURL.fresh ∧
    (Torrent.getGenericInfo (Env.answering CURLE_OK ["not json"] (.error .parse_failure))
      sampleSession sampleCachedRecord Torrent.GenericInfo.storageA true []).1 =
      .error .parse_failure ∧
    (Torrent.getGenericInfo (Env.answering CURLE_OK ["not json"] (.error .parse_failure))
      sampleSession sampleCachedRecord Torrent.GenericInfo.storageA true []).2.1.genericInfo =
      some Torrent.GenericInfo.storageB ∧
    (Torrent.getGenericInfo (Env.answering CURLE_OK ["props"]
        (.ok (.object (sampleProperties.erase "eta"))))
      sampleSession sampleRecord Torrent.GenericInfo.storageA false []).1 =
      .error .out_of_range ∧
    (Torrent.getGenericInfo (Env.answering CURLE_OK ["props"]
        (.ok (.object (sampleProperties.erase "eta"))))
      sampleSession sampleRecord Torrent.GenericInfo.storageA false []).2.1.genericInfo = none :=
  ⟨rfl, rfl,
    (getGenericInfo_failure_keeps_cache
      (Env.answering CURLE_OK ["not json"] (.error .parse_failure))
      sampleSession sampleCachedRecord Torrent.GenericInfo.storageA true [] CURL.fresh
      .parse_failure rfl rfl).2.1,
    rfl,
    (getGenericInfo_failure_keeps_cache
      (Env.answering CURLE_OK ["props"] (.ok (.object (sampleProperties.erase "eta"))))
      sampleSession sampleRecord Torrent.GenericInfo.storageA false [] CURL.fresh
      .out_of_range rfl rfl).2.1⟩

/-- C25 as stated fails: a transfer that ends with `CURLE_RECV_ERROR` after delivering a body
that parses and decodes makes `getGenericInfo` succeed: the empty cache is filled, and on a
forced refetch the cached record (piece size 7) is replaced by the decoded one (piece
size 42). -/
theorem getGenericInfo_failed_fetch_replaces_cache :
    ((Env.answering CURLE_RECV_ERROR ["props"] (.ok (.object sampleProperties))).perform []
      (CURL.fresh.asGET "https://qbt.example.org/api/v2/torrents/properties?hash=8c21")).1 ≠
      CURLE_OK ∧
    sampleRecord.genericInfo = none ∧
    (Torrent.getGenericInfo (Env.answering CURLE_RECV_ERROR ["props"]
        (.ok (.object sampleProperties)))
      sampleSession sampleRecord Torrent.GenericInfo.storageA false []).2.1.genericInfo.isSome =
      true ∧
    sampleCachedRecord.genericInfo = some Torrent.GenericInfo.storageB ∧
    Torrent.GenericInfo.storageB.pieceSize = 7 ∧
    ∃ info : Torrent.GenericInfo,
      (Torrent.getGenericInfo (Env.answering CURLE_RECV_ERROR ["props"]
          (.ok (.object sampleProperties)))
        sampleSession sampleCachedRecord Torrent.GenericInfo.storageA true []).2.1.genericInfo =
        some info ∧ info.pieceSize = 42 := by
  obtain ⟨info, hinfo⟩ := Torrent.GenericInfo.decode_ok_of_wellTyped
    Torrent.GenericInfo.storageA (show WellTyped Torrent.GenericInfo.fields sampleProperties by decide)
  have hbind : ((Except.ok (JValue.object sampleProperties) : Except JError JValue).bind
      JValue.as_object).bind (Torrent.GenericInfo.decode Torrent.GenericInfo.storageA) =
        .ok info := hinfo
  have h1 := Torrent.getGenericInfo_fetch_parts
    (Env.answering CURLE_RECV_ERROR ["props"] (.ok (.object sampleProperties)))
    sampleSession sampleRecord Torrent.GenericInfo.storageA false [] CURL.fresh rfl (Or.inl rfl)
  have h2 := Torrent.getGenericInfo_fetch_parts
    (Env.answering CURLE_RECV_ERROR ["props"] (.ok (.object sampleProperties)))
    sampleSession sampleCachedRecord Torrent.GenericInfo.storageA true [] CURL.fresh rfl
    (Or.inr rfl)
  refine ⟨by decide, rfl, ?_, rfl, rfl, info, ?_, ?_⟩
  · rw [h1.2.2 info (h1.1.trans hbind)]
    rfl
  · rw [h2.2.2 info (h2.1.trans hbind)]
  · have hm : (Torrent.GenericInfo.decode Torrent.GenericInfo.storageA sampleProperties).map
        (fun i => i.pieceSize) = .ok 42 := rfl
    rw [hinfo] at hm
    exact Except.ok.inj hm

/-! ## Login and construction -/

theorem Qbittorrent.login_outcome (env : Env) (self : Qbittorrent) (log : List CURL) (h : CURL)
    (hc : self.curl = some h) :
    (self.login env log).1 =
      (decide ((env.perform log (h.asLogin self.baseUrl self.credentials)).1 = CURLE_OK) &&
        decide (String.join (env.perform log (h.asLogin self.baseUrl self.credentials)).2 =
          "Ok.")) ∧
    (self.login env log).2.2 = log ++ [h.asLogin self.baseUrl self.credentials] := by
  unfold Qbittorrent.login
  simp only [hc, POST_some, Qbittorrent.buildUrl_literal self "auth/login" "/api/v2/auth/login" rfl]
  split_ifs with h1 h2
  · refine ⟨?_, rfl⟩
    have : ¬ (env.perform log (h.asLogin self.baseUrl self.credentials)).1 = CURLE_OK := h1
    simp [this]
  · refine ⟨?_, rfl⟩
    have : ¬ String.join (env.perform log (h.asLogin self.baseUrl self.credentials)).2 = "Ok." := h2
    simp [this]
  · refine ⟨?_, rfl⟩
    have a : (env.perform log (h.asLogin self.baseUrl self.credentials)).1 = CURLE_OK :=
      not_not.1 h1
    have b : String.join (env.perform log (h.asLogin self.baseUrl self.credentials)).2 = "Ok." :=
      not_not.1 h2
    simp [a, b]


theorem Qbittorrent.ctor_outcome_login (env : Env) (baseUrl : String)
    (credentials : Option Credentials) (insecure : Bool) (log : List CURL)
    (hi : env.easy_init_ok = true) :
    (Qbittorrent.ctor env baseUrl credentials insecure log).2 =
      log ++ [(CURL.configured baseUrl insecure).asLogin baseUrl credentials] ∧
    ((∃ s, (Qbittorrent.ctor env baseUrl credentials insecure log).1 = .ok s) ↔
      (env.perform log ((CURL.configured baseUrl insecure).asLogin baseUrl credentials)).1 =
        CURLE_OK ∧
      String.join (env.perform log
        ((CURL.configured baseUrl insecure).asLogin baseUrl credentials)).2 = "Ok.") ∧
    ((Qbittorrent.ctor env baseUrl credentials insecure log).1 = .error "Authentication failed" ↔
      ¬ ((env.perform log ((CURL.configured baseUrl insecure).asLogin baseUrl credentials)).1 =
          CURLE_OK ∧
        String.join (env.perform log
          ((CURL.configured baseUrl insecure).asLogin baseUrl credentials)).2 = "Ok.")) := by
  unfold Qbittorrent.ctor
  obtain ⟨s0, hb, hcr, -, -, hhd, hcurl, he⟩ := Qbittorrent.init_configures env
    { insecure := insecure, baseUrl := baseUrl, credentials := credentials,
      appPassword := none, headers := [], curl := none } log hi
  simp only [Option.map_none', Option.toList_none, List.append_nil] at hhd
  rw [hhd] at hcurl
  have hcfg : s0.curl = some (CURL.configured baseUrl insecure) := hcurl
  obtain ⟨hl1, hl2⟩ := Qbittorrent.login_outcome env s0 log _ hcfg
  simp only [hb, hcr] at hl1 hl2
  rw [he]
  cases hl : (s0.login env log).1 with
  | false =>
    rw [hl] at hl1
    have hn : ¬ ((env.perform log
        ((CURL.configured baseUrl insecure).asLogin baseUrl credentials)).1 = CURLE_OK ∧
        String.join (env.perform log
          ((CURL.configured baseUrl insecure).asLogin baseUrl credentials)).2 = "Ok.") := by
      intro hh
      simp [hh.1, hh.2] at hl1
    refine ⟨hl2, ⟨?_, fun hh => absurd hh hn⟩, ⟨fun _ => hn, fun _ => rfl⟩⟩
    rintro ⟨s, hs⟩
    cases hs
  | true =>
    rw [hl] at hl1
    have hy : (env.perform log
        ((CURL.configured baseUrl insecure).asLogin baseUrl credentials)).1 = CURLE_OK ∧
        String.join (env.perform log
          ((CURL.configured baseUrl insecure).asLogin baseUrl credentials)).2 = "Ok." := by
      have := hl1.symm
      simpa using this
    refine ⟨hl2, ⟨fun _ => hy, fun _ => ⟨_, rfl⟩⟩, ⟨?_, fun hh => absurd hy hh⟩⟩
    intro hh
    cases hh

/-- C1: on a session with a handle, `login` returns true if and only if its request, the
`POST` of the credentials to `<baseUrl>/api/v2/auth/login`, finishes with `CURLE_OK` and the
chunks of body received concatenate to exactly `Ok.`. Constructing a session, once a curl
handle was obtained, issues that request on the configured handle and succeeds if and only
if the same holds; otherwise, that is for every other body and for every transport failure,
it throws `Authentication failed`. With no handle it throws before any request. -/
theorem login_iff_body_Ok (env : Env) (log : List CURL) :
    (∀ (self : Qbittorrent) (h : CURL), self.curl = some h →
      ((self.login env log).1 = true ↔
        (env.perform log (h.asLogin self.baseUrl self.credentials)).1 = CURLE_OK ∧
        String.join (env.perform log (h.asLogin self.baseUrl self.credentials)).2 = "Ok.") ∧
      (self.login env log).2.2 = log ++ [h.asLogin self.baseUrl self.credentials]) ∧
    (∀ (baseUrl : String) (credentials : Option Credentials) (insecure : Bool),
      env.easy_init_ok = true →
      (Qbittorrent.ctor env baseUrl credentials insecure log).2 =
        log ++ [(CURL.configured baseUrl insecure).asLogin baseUrl credentials] ∧
      ((∃ s, (Qbittorrent.ctor env baseUrl credentials insecure log).1 = .ok s) ↔
        (env.perform log ((CURL.configured baseUrl insecure).asLogin baseUrl credentials)).1 =
          CURLE_OK ∧
        String.join (env.perform log
          ((CURL.configured baseUrl insecure).asLogin baseUrl credentials)).2 = "Ok.") ∧
      ((Qbittorrent.ctor env baseUrl credentials insecure log).1 =
          .error "Authentication failed" ↔
        ¬ ((env.perform log ((CURL.configured baseUrl insecure).asLogin baseUrl credentials)).1 =
            CURLE_OK ∧
          String.join (env.perform log
            ((CURL.configured baseUrl insecure).asLogin baseUrl credentials)).2 = "Ok."))) ∧
    (∀ (baseUrl : String) (credentials : Option Credentials) (insecure : Bool),
      env.easy_init_ok = false →
      Qbittorrent.ctor env baseUrl credentials insecure log =
        (.error "Failed to initialize CURL session.", log)) := by
  refine ⟨?_, ?_, ?_⟩
  · intro self h hc
    obtain ⟨h1, h2⟩ := Qbittorrent.login_outcome env self log h hc
    refine ⟨?_, h2⟩
    rw [h1]
    simp
  · intro baseUrl credentials insecure hi
    exact Qbittorrent.ctor_outcome_login env baseUrl credentials insecure log hi
  · intro baseUrl credentials insecure hi
    exact Qbittorrent.init_of_no_handle env _ log hi


/-- C1 at a server answering `Ok.` in two chunks (login and construction succeed), at one
answering `Ok.` followed by a newline, and at a transfer that fails although `Ok.` was
received (login returns false, construction throws). -/
theorem login_iff_body_Ok_witness :
    sampleSession.curl = some CURL.fresh ∧
    (sampleSession.login (Env.answering CURLE_OK ["O", "k."] (.error .parse_failure)) []).1 =
      true ∧
    (∃ s, (Qbittorrent.ctor (Env.answering CURLE_OK ["O", "k."] (.error .parse_failure))
      "https://qbt.example.org" none false []).1 = .ok s) ∧
    (sampleSession.login (Env.answering CURLE_OK ["Ok.\n"] (.error .parse_failure)) []).1 =
      false ∧
    (Qbittorrent.ctor (Env.answering CURLE_OK ["Ok.\n"] (.error .parse_failure))
      "https://qbt.example.org" none false []).1 = .error "Authentication failed" ∧
    (sampleSession.login (Env.answering CURLE_COULDNT_CONNECT ["Ok."] (.error .parse_failure))
      []).1 = false ∧
    (Qbittorrent.ctor (Env.answering CURLE_COULDNT_CONNECT ["Ok."] (.error .parse_failure))
      "https://qbt.example.org" none false []).1 = .error "Authentication failed" := by
  have ok := login_iff_body_Ok (Env.answering CURLE_OK ["O", "k."] (.error .parse_failure)) []
  have nl := login_iff_body_Ok (Env.answering CURLE_OK ["Ok.\n"] (.error .parse_failure)) []
  have tf := login_iff_body_Ok
    (Env.answering CURLE_COULDNT_CONNECT ["Ok."] (.error .parse_failure)) []
  refine ⟨rfl, ((ok.1 sampleSession CURL.fresh rfl).1).2 ⟨by decide, by decide⟩,
    ((ok.2.1 "https://qbt.example.org" none false rfl).2.1).2 ⟨by decide, by decide⟩,
    ?_, ((nl.2.1 "https://qbt.example.org" none false rfl).2.2).2 (fun hh => absurd hh.2 (by decide)),
    ?_, ((tf.2.1 "https://qbt.example.org" none false rfl).2.2).2 (fun hh => absurd hh.1 (by decide))⟩
  · cases hv : (sampleSession.login (Env.answering CURLE_OK ["Ok.\n"] (.error .parse_failure))
      []).1 with
    | false => rfl
    | true => exact absurd (((nl.1 sampleSession CURL.fresh rfl).1).1 hv).2 (by decide)
  · cases hv : (sampleSession.login
      (Env.answering CURLE_COULDNT_CONNECT ["Ok."] (.error .parse_failure)) []).1 with
    | false => rfl
    | true => exact absurd (((tf.1 sampleSession CURL.fresh rfl).1).1 hv).1 (by decide)

end Qbt
